import Mathlib

/-!
# newserv proxy: command handlers of a linked session

A shallow embedding of the proxy command handlers of `ProxyCommands.cc` and of
the session plumbing of `ProxyServer.cc`.  A command payload is a list of bytes
(natural numbers below 256); multi-byte fields are read and written with
explicit little-endian arithmetic.  A handler that throws is modelled by an
outcome that carries the session as it stood when the exception left the
handler.
-/

namespace Newserv

/-! ## Bytes and packed little-endian fields -/

/-- The n low-order bytes of v, least significant first (how a le_uintN_t is stored). -/
def le_bytes : Nat → Nat → List Nat
  | 0, _ => []
  | n + 1, v => (v % 256) :: le_bytes n (v / 256)

/-- The number whose little-endian bytes are the given ones. -/
def le_value : List Nat → Nat
  | [] => 0
  | b :: bs => b + 256 * le_value bs

/-- Read the n-byte little-endian field at offset off of a payload. -/
def load_le (n : Nat) (data : List Nat) (off : Nat) : Nat :=
  le_value ((data.drop off).take n)

/-- Overwrite the bytes of a payload starting at offset off (a memcpy into the buffer). -/
def store_bytes (data : List Nat) (off : Nat) (bs : List Nat) : List Nat :=
  data.take off ++ bs ++ data.drop (off + bs.length)

/-- Write the n-byte little-endian field at offset off of a payload. -/
def store_le (n : Nat) (data : List Nat) (off : Nat) (v : Nat) : List Nat :=
  store_bytes data off (le_bytes n v)

/-- Every element of the list is a byte. -/
def is_bytes (data : List Nat) : Prop := ∀ b ∈ data, b < 256

instance (data : List Nat) : Decidable (is_bytes data) := by
  unfold is_bytes; infer_instance

/-- The htons and ntohs of a little-endian host: swap the two bytes of a 16-bit value. -/
def htons (v : Nat) : Nat := (v % 256) * 256 + (v / 256) % 256

/-- The ntohs of a little-endian host. -/
def ntohs (v : Nat) : Nat := htons v

/-- Bitwise exclusive or of two unsigned values, truncated to 32 bits on assignment
to a le_uint32_t. -/
def xor32 (a b : Nat) : Nat := (a ^^^ b) % 2 ^ 32

/-! ## Data model -/

/-- GameVersion, in the order used to index the handler tables and the
port-name table of the lobby divert. -/
inductive GameVersion where
  | DC
  | PC
  | PATCH
  | GC
  | BB
  deriving DecidableEq, Repr

/-- The part of a License record the proxy reads. -/
structure License where
  serial_number : Nat
  access_key : List Nat
  gc_password : List Nat
  deriving DecidableEq, Repr

/-- PSOBBMultiKeyDetectorEncryption: candidate keys, expected first plaintext, seed. -/
structure DetectorCrypt where
  possible_keys : List (List Nat)
  expected_first_data : List Nat
  seed : List Nat
  deriving DecidableEq, Repr

/-- The cipher objects a session can hold, by class and constructor arguments. -/
inductive Crypt where
  | PSOPCEncryption (seed : Nat)
  | PSOGCEncryption (seed : Nat)
  | PSOBBMultiKeyDetectorEncryption (detector : DetectorCrypt)
  | PSOBBMultiKeyImitatorEncryption (detector : DetectorCrypt) (seed : List Nat)
      (jsd1_use_detector_seed : Bool)
  deriving DecidableEq, Repr

/-- A transport (struct bufferevent) and the descriptor bufferevent_getfd reports for it;
a virtual connection has a negative descriptor. -/
structure Bufferevent where
  fd : Int
  deriving DecidableEq, Repr

/-- The address family constant AF_INET. -/
def AF_INET : Nat := 2

/-- A sockaddr_storage read as a sockaddr_in.  The fields hold the 16- and 32-bit
values as a little-endian host stores them, so sin_port and sin_addr are in
network byte order exactly when they went through htons or were loaded raw. -/
structure Sockaddr where
  ss_family : Nat
  sin_port : Nat
  sin_addr : Nat
  deriving DecidableEq, Repr

/-- One slot of the lobby roster. -/
structure LobbyPlayer where
  guild_card_number : Nat
  name : List Nat
  deriving DecidableEq, Repr

/-- Modelled from the spec: the ClientConfig record is declared in Client.hh, which is
not among the sources; it is the 0x20-byte config block that travels in the 0x04
command, holding a magic sentinel, flags and the proxy destination. -/
structure ClientConfig where
  magic : Nat
  bb_game_state : Nat
  bb_player_index : Nat
  flags : Nat
  proxy_destination_address : Nat
  proxy_destination_port : Nat
  unused : List Nat
  deriving DecidableEq, Repr

/-- Modelled from the spec: the packed little-endian bytes of a ClientConfig (0x20 bytes
when the unused tail has 0x0E bytes). -/
def ClientConfig.bytes (c : ClientConfig) : List Nat :=
  le_bytes 8 c.magic ++ le_bytes 1 c.bb_game_state ++ le_bytes 1 c.bb_player_index ++
    le_bytes 2 c.flags ++ le_bytes 4 c.proxy_destination_address ++
    le_bytes 2 c.proxy_destination_port ++ c.unused

/-- A command handed to send_command: the endpoint, the cipher in force when it was
written, opcode, flag and payload. -/
structure SentCommand where
  to_server : Bool
  crypt : Option Crypt
  command : Nat
  flag : Nat
  data : List Nat
  deriving DecidableEq, Repr

/-- LinkedSession::SavingFile: the declared name, the output file name, the bytes
still expected, and the bytes written to the output file so far. -/
structure SavingFile where
  basename : List Nat
  output_filename : List Nat
  remaining_bytes : Nat
  f : List Nat
  deriving DecidableEq, Repr

/-- ProxyServer::LinkedSession.  The last two fields record what the session did to
the outside world: the commands written to either endpoint, in order, and the
files written by save_file or closed when their SavingFile is destroyed. -/
structure LinkedSession where
  id : Nat
  license : Option License
  client_bev : Option Bufferevent
  server_bev : Option Bufferevent
  local_port : Nat
  next_destination : Sockaddr
  remote_ip_crc : Nat
  enable_remote_ip_crc_patch : Bool
  version : GameVersion
  sub_version : Nat
  character_name : List Nat
  remote_guild_card_number : Nat
  remote_client_config_data : List Nat
  newserv_client_config : ClientConfig
  suppress_newserv_commands : Bool
  enable_chat_filter : Bool
  enable_switch_assist : Bool
  infinite_hp : Bool
  infinite_tp : Bool
  save_files : Bool
  function_call_return_value : Int
  override_section_id : Int
  override_lobby_event : Int
  override_lobby_number : Int
  lobby_players : List LobbyPlayer
  lobby_client_id : Nat
  prev_server_command_bytes : List Nat
  last_switch_enabled_command : List Nat
  saving_files : List (List Nat × SavingFile)
  detector_crypt : Option DetectorCrypt
  client_input_crypt : Option Crypt
  client_output_crypt : Option Crypt
  server_input_crypt : Option Crypt
  server_output_crypt : Option Crypt
  login_command_bb : List Nat
  timeout_usecs : Option Nat
  sent : List SentCommand
  saved_files : List (String × List Nat)
  deriving DecidableEq, Repr

/-- The part of ServerState the proxy handlers read. -/
structure ServerState where
  name : List Nat
  name_to_port_config : List (String × Nat)
  bb_private_keys : List (List Nat)

/-- What the program obtains from outside: the random generator (one 64-bit draw for
the 0x96 checksum, the key draws of on_client_connect), the clock, the phosg
library (crc32), the text codecs and the colour expansion of Text.hh, the socket
layer, the memory that follows a payload buffer, and the server-init records built
by SendCommands. -/
structure Env where
  random_u64 : Nat
  now : Nat
  crc32 : List Nat → Nat
  decode_sjis : List Nat → List Nat
  encode_sjis : List Nat → List Nat
  getsockname : Int → Sockaddr
  socket_connect_ok : Sockaddr → Bool
  memory_after_data : List Nat
  add_color_inplace : List Nat → List Nat
  random_server_key : Nat
  random_client_key : Nat
  random_server_key_bb : List Nat
  random_client_key_bb : List Nat
  prepare_server_init_contents_dc_pc_gc : Nat → Nat → List Nat
  prepare_server_init_contents_bb : List Nat → List Nat → List Nat

/-- The result of a step that may throw: the session afterwards, or the exception
and the session as it stood when the exception was thrown. -/
inductive Step where
  | done (session : LinkedSession)
  | threw (what : String) (session : LinkedSession)
  deriving DecidableEq, Repr

/-- The result of a command handler: the forward decision with the session and the
payload afterwards, or the exception and the session when it was thrown. -/
inductive Outcome where
  | returned (forward : Bool) (session : LinkedSession) (data : List Nat)
  | threw (what : String) (session : LinkedSession)
  deriving DecidableEq, Repr

/-- The session a handler leaves behind, whether it returned or threw. -/
def Outcome.session : Outcome → LinkedSession
  | .returned _ s _ => s
  | .threw _ s => s

/-- Whether process_proxy_command forwards the command afterwards: the handler
returned true. -/
def Outcome.forwards : Outcome → Bool
  | .returned forward _ _ => forward
  | .threw _ _ => false

/-- Continue a handler after a step that may throw. -/
def Step.andThen (st : Step) (k : LinkedSession → Outcome) : Outcome :=
  match st with
  | .done s => k s
  | .threw e s => .threw e s

/-- The first LinkedSession constructor (ProxyServer.cc, 418-453).  The fields it
leaves to their default constructors are zero or empty here; the size of the
prev_server_command_bytes array, which the constructor clears, is an argument.  Of
last_switch_enabled_command the constructor sets the subcommand byte only, so the
field starts as that one byte. -/
def LinkedSession.new (id local_port : Nat) (version : GameVersion)
    (prev_server_command_bytes_size : Nat) : LinkedSession :=
  { id := id
    license := none
    client_bev := none
    server_bev := none
    local_port := local_port
    next_destination := { ss_family := 0, sin_port := 0, sin_addr := 0 }
    remote_ip_crc := 0
    enable_remote_ip_crc_patch := false
    version := version
    sub_version := 0
    character_name := []
    remote_guild_card_number := 0
    remote_client_config_data := List.replicate 0x20 0
    newserv_client_config :=
      { magic := 0, bb_game_state := 0, bb_player_index := 0, flags := 0,
        proxy_destination_address := 0, proxy_destination_port := 0,
        unused := List.replicate 0x0E 0 }
    suppress_newserv_commands := true
    enable_chat_filter := true
    enable_switch_assist := false
    infinite_hp := false
    infinite_tp := false
    save_files := false
    function_call_return_value := -1
    override_section_id := -1
    override_lobby_event := -1
    override_lobby_number := -1
    lobby_players := List.replicate 12 { guild_card_number := 0, name := [] }
    lobby_client_id := 0
    prev_server_command_bytes := List.replicate prev_server_command_bytes_size 0
    last_switch_enabled_command := [0]
    saving_files := []
    detector_crypt := none
    client_input_crypt := none
    client_output_crypt := none
    server_input_crypt := none
    server_output_crypt := none
    login_command_bb := []
    timeout_usecs := none
    sent := []
    saved_files := [] }

/-! ## Sending commands -/

/-- Modelled from the spec: send_command is declared in SendCommands.hh, which is not
among the sources; it assembles, pads, encrypts and enqueues one frame.  The model
appends the command to the record of what the session wrote. -/
def send_command (session : LinkedSession) (to_server : Bool) (command flag : Nat)
    (data : List Nat) : LinkedSession :=
  { session with
    sent := session.sent ++
      [{ to_server := to_server
         crypt := if to_server then session.server_output_crypt
                  else session.client_output_crypt
         command := command
         flag := flag
         data := data }] }

/-- LinkedSession::send_to_end (ProxyServer.cc, 712-737). -/
def send_to_end (session : LinkedSession) (to_server : Bool) (command flag : Nat)
    (data : List Nat) : Step :=
  if data.length % 4 ≠ 0 then
    .threw "command size is not a multiple of 4" session
  else
    match (if to_server then session.server_bev else session.client_bev) with
    | none => .threw "session endpoint is not connected" session
    | some _ => .done (send_command session to_server command flag data)

/-- The static forward_command of ProxyCommands.cc (39-56): a missing endpoint drops
the command. -/
def forward_command (session : LinkedSession) (to_server : Bool) (command flag : Nat)
    (data : List Nat) : LinkedSession :=
  match (if to_server then session.server_bev else session.client_bev) with
  | none => session
  | some _ => send_command session to_server command flag data

/-- The bytes of an ASCII string literal. -/
def str_bytes (s : String) : List Nat := s.toList.map Char.toNat

/-- What a printf %s prints of a std::string through c_str(): the bytes before the
first NUL. -/
def c_str (s : List Nat) : List Nat := s.takeWhile (fun b => b ≠ 0)

/-- The zero bytes the writer appends until its size is a multiple of 4. -/
def pad4 (w : List Nat) : List Nat :=
  w ++ List.replicate ((4 - w.length % 4) % 4) 0

/-- The static send_text_message_to_client of ProxyCommands.cc (71-89). -/
def send_text_message_to_client (env : Env) (session : LinkedSession) (command : Nat)
    (message : List Nat) : Step :=
  let header := le_bytes 4 0 ++ le_bytes 4 0
  let w :=
    if session.version = GameVersion.PC then
      header ++ (env.decode_sjis message).flatMap (fun c => le_bytes 2 c) ++ le_bytes 2 0
    else
      header ++ message ++ [0]
  send_to_end session false command 0x00 (pad4 w)

/-- LinkedSession::connect (ProxyServer.cc, 552-582): a fresh server transport is
created first, so it is in place even when the connection attempt throws. -/
def connect (env : Env) (session : LinkedSession) : Step :=
  let s1 := { session with server_bev := some { fd := -1 } }
  if s1.next_destination.ss_family ≠ AF_INET then
    .threw "ss not AF_INET" s1
  else if env.socket_connect_ok s1.next_destination = false then
    .threw "failed to connect" s1
  else
    .done { s1 with timeout_usecs := none }

/-- Modelled from the spec: check_size_t is declared in PSOProtocol.hh, which is not
among the sources; a payload is of accepted size when its size lies between the
minimum and the maximum given by the handler, and an error is raised otherwise. -/
def check_size_t (size min_size max_size : Nat) : Except String Unit :=
  if size < min_size then .error "command too small"
  else if size > max_size then .error "command too large"
  else .ok ()

/-! ## Record layouts

CommandFormats.hh is not among the sources.  Records with a fixed type are given
their packed layout below; the handlers that are templates over the record type
take the layout as an argument. -/

/-- Modelled from the spec: S_UpdateClientConfig_DC_PC_GC_04 is player_tag,
guild_card_number and the 0x20-byte config block, packed. -/
def S_UpdateClientConfig_DC_PC_GC_04.guild_card_number : Nat := 4

/-- Offset of the cfg field of S_UpdateClientConfig_DC_PC_GC_04. -/
def S_UpdateClientConfig_DC_PC_GC_04.cfg : Nat := 8

/-- Size of S_UpdateClientConfig_DC_PC_GC_04. -/
def S_UpdateClientConfig_DC_PC_GC_04.sizeof : Nat := 0x28

/-- Size of the remote_client_config_data array of a session (the config block). -/
def remote_client_config_data_bytes : Nat := 0x20

/-- Modelled from the spec: SC_TextHeader_01_06_11_B0_EE is an unused word and the
guild-card number; the text follows at offset 8. -/
def SC_TextHeader_01_06_11_B0_EE.guild_card_number : Nat := 4

/-- Size of SC_TextHeader_01_06_11_B0_EE. -/
def SC_TextHeader_01_06_11_B0_EE.sizeof : Nat := 8

/-- A record type with two guild-card fields (the CmdT of process_server_41 and
process_server_81): its size and the offsets of the two fields. -/
structure TwoCardRecord where
  sizeof : Nat
  first_guild_card_number : Nat
  second_guild_card_number : Nat
  deriving DecidableEq, Repr

/-- Both fields lie inside the record and do not overlap. -/
def TwoCardRecord.well_formed (t : TwoCardRecord) : Prop :=
  t.first_guild_card_number + 4 ≤ t.second_guild_card_number ∧
    t.second_guild_card_number + 4 ≤ t.sizeof

instance (t : TwoCardRecord) : Decidable t.well_formed := by
  unfold TwoCardRecord.well_formed; infer_instance

/-- Modelled from the spec: S_GuildCardSearchResult_DC_GC_41 starts with player_tag,
searcher_guild_card_number and result_guild_card_number. -/
def S_GuildCardSearchResult_DC_GC_41 : TwoCardRecord :=
  { sizeof := 0xC0, first_guild_card_number := 4, second_guild_card_number := 8 }

/-- Modelled from the spec: SC_SimpleMail_GC_81 is player_tag, from_guild_card_number,
a 0x10-byte name, to_guild_card_number and 0x200 bytes of text. -/
def SC_SimpleMail_GC_81 : TwoCardRecord :=
  { sizeof := 0x21C, first_guild_card_number := 4, second_guild_card_number := 0x18 }

/-- Modelled from the spec: C_GuildCardSearch_40 is player_tag,
searcher_guild_card_number and target_guild_card_number. -/
def C_GuildCardSearch_40 : TwoCardRecord :=
  { sizeof := 0x0C, first_guild_card_number := 4, second_guild_card_number := 8 }

/-- A record type that is the entry of a counted array and has one guild-card field. -/
structure CardEntry where
  sizeof : Nat
  guild_card_number : Nat
  deriving DecidableEq, Repr

/-- The field lies inside the entry. -/
def CardEntry.well_formed (t : CardEntry) : Prop := t.guild_card_number + 4 ≤ t.sizeof

instance (t : CardEntry) : Decidable t.well_formed := by
  unfold CardEntry.well_formed; infer_instance

/-- Modelled from the spec: S_ArrowUpdateEntry_88 is player_tag, guild_card_number and
arrow_color. -/
def S_ArrowUpdateEntry_88 : CardEntry := { sizeof := 0x0C, guild_card_number := 4 }

/-- Modelled from the spec: S_ChoiceSearchResultEntry_GC_C4 starts with the guild-card
number. -/
def S_ChoiceSearchResultEntry_GC_C4 : CardEntry := { sizeof := 0xD4, guild_card_number := 0 }

/-- Modelled from the spec: S_Reconnect_19 is the address (bytes 0 to 3), the port
(bytes 4 and 5) and an unused half-word. -/
def S_Reconnect_19.address : Nat := 0

/-- Offset of the port field of S_Reconnect_19. -/
def S_Reconnect_19.port : Nat := 4

/-- Size of S_Reconnect_19. -/
def S_Reconnect_19.sizeof : Nat := 8

/-- Modelled from the spec: S_ServerInit_BB_03 is a 0x60-byte copyright text, the
0x30-byte server key, the 0x30-byte client key and the after_message. -/
def S_ServerInit_BB_03.server_key : Nat := 0x60

/-- Offset of the client_key field of S_ServerInit_BB_03. -/
def S_ServerInit_BB_03.client_key : Nat := 0x90

/-- Size of either key of S_ServerInit_BB_03. -/
def S_ServerInit_BB_03.key_size : Nat := 0x30

/-- Offset of the after_message field of S_ServerInit_BB_03. -/
def S_ServerInit_BB_03.after_message : Nat := 0xC0

/-! ## Server-to-client handlers -/

/-- The rewrite shared by the identity-masking handlers: a 32-bit guild-card field
equal to the first value is overwritten with the second. -/
def replace_card (data : List Nat) (off old new : Nat) : List Nat :=
  if load_le 4 data off = old then store_le 4 data off new else data

/-- The static process_server_dc_pc_gc_04 of ProxyCommands.cc (302-353). -/
def process_server_dc_pc_gc_04 (env : Env) (session : LinkedSession) (data : List Nat) :
    Outcome :=
  match check_size_t data.length S_UpdateClientConfig_DC_PC_GC_04.cfg
      S_UpdateClientConfig_DC_PC_GC_04.sizeof with
  | .error e => .threw e session
  | .ok _ =>
    let cmd_guild_card_number :=
      load_le 4 data S_UpdateClientConfig_DC_PC_GC_04.guild_card_number
    let had_guild_card_number := decide (session.remote_guild_card_number ≠ 0)
    let announced : Step :=
      if session.remote_guild_card_number ≠ cmd_guild_card_number then
        send_text_message_to_client env
          { session with remote_guild_card_number := cmd_guild_card_number } 0x11
          (str_bytes "The remote server\nhas assigned your\nGuild Card number as\n\tC6" ++
            str_bytes (toString cmd_guild_card_number))
      else .done session
    announced.andThen fun s1 =>
      let data1 :=
        match s1.license with
        | some license =>
          store_le 4 data S_UpdateClientConfig_DC_PC_GC_04.guild_card_number
            license.serial_number
        | none => data
      let filler :=
        if had_guild_card_number then str_bytes "t Lobby Server. Copyright SEGA E"
        else str_bytes "t Port Map. Copyright SEGA Enter"
      -- data.size() - sizeof(record) is computed in size_t, so it wraps around
      let copy_size :=
        min ((data1.length + 2 ^ 64 - S_UpdateClientConfig_DC_PC_GC_04.sizeof) % 2 ^ 64)
          remote_client_config_data_bytes
      let copied :=
        ((data1 ++ env.memory_after_data).drop S_UpdateClientConfig_DC_PC_GC_04.cfg).take
          copy_size
      let s2 :=
        { s1 with
          remote_client_config_data :=
            store_bytes (filler.take remote_client_config_data_bytes) 0 copied }
      if had_guild_card_number = false then
        (send_to_end s2 true 0x96 0x00
            (le_bytes 8 (env.random_u64 &&& 0x0000FFFFFFFFFFFF))).andThen
          fun s3 => .returned true s3 data1
      else .returned true s2 data1

/-- The static process_server_dc_pc_gc_06 of ProxyCommands.cc (355-365). -/
def process_server_dc_pc_gc_06 (session : LinkedSession) (data : List Nat) : Outcome :=
  match session.license with
  | some license =>
    match check_size_t data.length SC_TextHeader_01_06_11_B0_EE.sizeof 0xFFFF with
    | .error e => .threw e session
    | .ok _ =>
      .returned true session
        (replace_card data SC_TextHeader_01_06_11_B0_EE.guild_card_number
          session.remote_guild_card_number license.serial_number)
  | none => .returned true session data

/-- The template process_server_41 of ProxyCommands.cc (367-380); the record type is
the argument, its first card field the searcher and its second the result. -/
def process_server_41 (CmdT : TwoCardRecord) (session : LinkedSession) (data : List Nat) :
    Outcome :=
  match session.license with
  | some license =>
    match check_size_t data.length CmdT.sizeof CmdT.sizeof with
    | .error e => .threw e session
    | .ok _ =>
      let data1 := replace_card data CmdT.first_guild_card_number
        session.remote_guild_card_number license.serial_number
      let data2 := replace_card data1 CmdT.second_guild_card_number
        session.remote_guild_card_number license.serial_number
      .returned true session data2
  | none => .returned true session data

/-- The template process_server_81 of ProxyCommands.cc (382-395); the first card field
is from_guild_card_number and the second to_guild_card_number. -/
def process_server_81 (CmdT : TwoCardRecord) (session : LinkedSession) (data : List Nat) :
    Outcome :=
  match session.license with
  | some license =>
    match check_size_t data.length CmdT.sizeof CmdT.sizeof with
    | .error e => .threw e session
    | .ok _ =>
      let data1 := replace_card data CmdT.first_guild_card_number
        session.remote_guild_card_number license.serial_number
      let data2 := replace_card data1 CmdT.second_guild_card_number
        session.remote_guild_card_number license.serial_number
      .returned true session data2
  | none => .returned true session data

/-- The loop over the entries of a counted array (ProxyCommands.cc, 403-407 and
505-509): x is the loop counter and count the number of iterations left. -/
def rewrite_entries (CmdT : CardEntry) (old new : Nat) : Nat → Nat → List Nat → List Nat
  | _, 0, data => data
  | x, count + 1, data =>
    rewrite_entries CmdT old new (x + 1) count
      (replace_card data (CmdT.sizeof * x + CmdT.guild_card_number) old new)

/-- The static process_server_88 of ProxyCommands.cc (397-410). -/
def process_server_88 (session : LinkedSession) (flag : Nat) (data : List Nat) : Outcome :=
  match session.license with
  | some license =>
    let expected_size := S_ArrowUpdateEntry_88.sizeof * flag
    match check_size_t data.length expected_size expected_size with
    | .error e => .threw e session
    | .ok _ =>
      .returned true session
        (rewrite_entries S_ArrowUpdateEntry_88 session.remote_guild_card_number
          license.serial_number 0 flag data)
  | none => .returned true session data

/-- The template process_server_C4 of ProxyCommands.cc (497-512). -/
def process_server_C4 (CmdT : CardEntry) (session : LinkedSession) (flag : Nat)
    (data : List Nat) : Outcome :=
  match session.license with
  | some license =>
    let expected_size := CmdT.sizeof * flag
    match check_size_t data.length expected_size 0xFFFF with
    | .error e => .threw e session
    | .ok _ =>
      .returned true session
        (rewrite_entries CmdT session.remote_guild_card_number license.serial_number 0 flag
          data)
  | none => .returned true session data

/-- The static process_server_bb_03 of ProxyCommands.cc (245-300). -/
def process_server_bb_03 (s : ServerState) (session : LinkedSession) (data : List Nat) :
    Outcome :=
  match check_size_t data.length S_ServerInit_BB_03.after_message 0xFFFF with
  | .error e => .threw e session
  | .ok _ =>
    let server_key :=
      (data.drop S_ServerInit_BB_03.server_key).take S_ServerInit_BB_03.key_size
    let client_key :=
      (data.drop S_ServerInit_BB_03.client_key).take S_ServerInit_BB_03.key_size
    match session.detector_crypt with
    | some detector =>
      if session.login_command_bb = [] then
        .threw "linked BB session does not have a saved login command" session
      else
        let s1 :=
          { session with
            server_input_crypt :=
              some (Crypt.PSOBBMultiKeyImitatorEncryption detector server_key false)
            server_output_crypt :=
              some (Crypt.PSOBBMultiKeyImitatorEncryption detector client_key false) }
        let s2 :=
          if s1.enable_remote_ip_crc_patch ∧ s1.login_command_bb.length ≥ 0x98 then
            { s1 with
              login_command_bb :=
                store_le 4 s1.login_command_bb 0x94
                  (xor32 s1.remote_ip_crc (1309539928 + 1248334810)) }
          else s1
        (send_to_end s2 true 0x93 0x00 s2.login_command_bb).andThen
          fun s3 => .returned false s3 data
    | none =>
      (send_to_end session false 0x03 0x00 data).andThen fun s1 =>
        let detector : DetectorCrypt :=
          { possible_keys := s.bb_private_keys
            expected_first_data := [0xB4, 0x00, 0x93, 0x00, 0x00, 0x00, 0x00, 0x00]
            seed := client_key }
        .returned false
          { s1 with
            detector_crypt := some detector
            client_input_crypt := some (Crypt.PSOBBMultiKeyDetectorEncryption detector)
            client_output_crypt :=
              some (Crypt.PSOBBMultiKeyImitatorEncryption detector server_key true)
            server_input_crypt :=
              some (Crypt.PSOBBMultiKeyImitatorEncryption detector server_key false)
            server_output_crypt :=
              some (Crypt.PSOBBMultiKeyImitatorEncryption detector client_key false) }
          data

/-- The static process_server_B2 of ProxyCommands.cc (412-485), built without
HAVE_RESOURCE_FILE (no disassembly listing). -/
def process_server_B2 (env : Env) (session : LinkedSession) (flag : Nat) (data : List Nat) :
    Outcome :=
  let s1 :=
    if session.save_files then
      { session with
        saved_files := session.saved_files ++ [("code." ++ toString env.now ++ ".bin", data)] }
    else session
  if s1.function_call_return_value ≥ 0 then
    (send_to_end s1 true 0xB3 flag
        (le_bytes 4 s1.function_call_return_value.toNat ++ le_bytes 4 0)).andThen
      fun s2 => .returned false s2 data
  else .returned true s1 data

/-- The first two statements of process_server_game_19_patch_14 (ProxyCommands.cc,
553-560): a payload shorter than the prev_server_command_bytes array is completed
from the bytes of that array past its own size, and a payload still shorter than
S_Reconnect_19 is padded with zeros.  The size of the array is the length of the
list. -/
def complete_reconnect_payload (prev_server_command_bytes data : List Nat) : List Nat :=
  let data1 :=
    if data.length < prev_server_command_bytes.length then
      data ++ prev_server_command_bytes.drop data.length
    else data
  if data1.length < S_Reconnect_19.sizeof then
    data1 ++ List.replicate (S_Reconnect_19.sizeof - data1.length) 0
  else data1

/-- The static process_server_game_19_patch_14 of ProxyCommands.cc (544-620). -/
def process_server_game_19_patch_14 (env : Env) (session : LinkedSession) (command : Nat)
    (data : List Nat) : Outcome :=
  let data2 := complete_reconnect_payload session.prev_server_command_bytes data
  let s1 :=
    if session.enable_remote_ip_crc_patch then
      { session with remote_ip_crc := env.crc32 (data2.take 4) }
    else session
  match check_size_t data2.length S_Reconnect_19.sizeof 0xB0 with
  | .error e => .threw e s1
  | .ok _ =>
    let cmd_address := load_le 4 data2 S_Reconnect_19.address
    let cmd_port := load_le 2 data2 S_Reconnect_19.port
    let s2 :=
      { s1 with
        next_destination :=
          { ss_family := AF_INET, sin_addr := cmd_address, sin_port := htons cmd_port } }
    match s2.client_bev with
    | none => .returned false s2 data2
    | some client_bev =>
      if command = 0x14 then
        let s3 :=
          { s2 with
            server_input_crypt := none
            server_output_crypt := none
            next_destination :=
              { ss_family := AF_INET, sin_addr := cmd_address, sin_port := cmd_port } }
        (connect env s3).andThen fun s4 => .returned false s4 data2
      else if client_bev.fd ≥ 0 then
        let sockname := env.getsockname client_bev.fd
        if sockname.ss_family ≠ AF_INET then
          .threw "existing connection is not ipv4" s2
        else
          let data3 := store_le 4 data2 S_Reconnect_19.address sockname.sin_addr
          .returned true s2 (store_le 2 data3 S_Reconnect_19.port (ntohs sockname.sin_port))
      else
        .returned true s2 (store_le 2 data2 S_Reconnect_19.port session.local_port)

/-! ## Client-to-server handlers -/

/-- The static process_client_40 of ProxyCommands.cc (864-876). -/
def process_client_40 (session : LinkedSession) (data : List Nat) : Outcome :=
  match session.license with
  | some license =>
    match check_size_t data.length C_GuildCardSearch_40.sizeof C_GuildCardSearch_40.sizeof with
    | .error e => .threw e session
    | .ok _ =>
      let data1 := replace_card data C_GuildCardSearch_40.first_guild_card_number
        license.serial_number session.remote_guild_card_number
      let data2 := replace_card data1 C_GuildCardSearch_40.second_guild_card_number
        license.serial_number session.remote_guild_card_number
      .returned true session data2
  | none => .returned true session data

/-- The loop of process_client_dc_pc_gc_A0_A1 over the roster (ProxyCommands.cc,
968-976): x is the index of the first slot of the remaining list. -/
def send_leave_commands (session : LinkedSession) : Nat → List LobbyPlayer → Step
  | _, [] => .done session
  | x, p :: rest =>
    if p.guild_card_number = 0 then
      send_leave_commands session (x + 1) rest
    else
      let leaving_id := x % 256
      let leader_id := session.lobby_client_id % 256
      match send_to_end session false 0x69 leaving_id
          ([leaving_id, leader_id] ++ le_bytes 2 0) with
      | .done s1 => send_leave_commands s1 (x + 1) rest
      | .threw e s1 => .threw e s1

/-- The version_to_port_name table of process_client_dc_pc_gc_A0_A1. -/
def version_to_port_name : GameVersion → String
  | .DC => "dc-login"
  | .PC => "pc-login"
  | .PATCH => "bb-patch"
  | .GC => "gc-us3"
  | .BB => "bb-login"

/-- The static process_client_dc_pc_gc_A0_A1 of ProxyCommands.cc (958-1024). -/
def process_client_dc_pc_gc_A0_A1 (s : ServerState) (env : Env) (session : LinkedSession)
    (data : List Nat) : Outcome :=
  match session.license with
  | none => .returned true session data
  | some license =>
    (send_leave_commands session 0 session.lobby_players).andThen fun s1 =>
    (send_text_message_to_client env s1 0x11
        (str_bytes "You\x27ve returned to\n\tC6" ++ c_str (env.encode_sjis s.name))).andThen
      fun s2 =>
    (send_to_end s2 false 0x04 0x00
        (le_bytes 4 0x00010000 ++ le_bytes 4 license.serial_number ++
          s2.newserv_client_config.bytes)).andThen fun s3 =>
    match s.name_to_port_config.lookup (version_to_port_name s3.version) with
    | none => .threw "out_of_range" s3
    | some port =>
      let address : Except String Nat :=
        match s3.client_bev with
        -- not reachable: the commands above need the client transport
        | none => .error "session endpoint is not connected"
        | some client_bev =>
          if client_bev.fd < 0 then
            if s3.next_destination.ss_family ≠ AF_INET then .error "ss not AF_INET"
            else .ok s3.next_destination.sin_addr
          else
            if (env.getsockname client_bev.fd).ss_family ≠ AF_INET then
              .error "existing connection is not ipv4"
            else .ok (env.getsockname client_bev.fd).sin_addr
      match address with
      | .error e => .threw e s3
      | .ok addr =>
        (send_to_end s3 false 0x19 0x00
            (le_bytes 4 addr ++ le_bytes 2 port ++ le_bytes 2 0)).andThen
          fun s4 => .returned false s4 data

/-! ## The server pump -/

/-- The body of the callback in LinkedSession::on_server_input (ProxyServer.cc,
696-704) for one received command: the first bytes of the payload are saved over
the start of prev_server_command_bytes, then the command is processed.  The
dispatcher process_proxy_command is the first argument. -/
def on_server_input {α : Type}
    (process_proxy_command : LinkedSession → Bool → Nat → Nat → List Nat → α)
    (session : LinkedSession) (command flag : Nat) (data : List Nat) : α :=
  let bytes_to_save := min data.length session.prev_server_command_bytes.length
  let s1 :=
    { session with
      prev_server_command_bytes :=
        store_bytes session.prev_server_command_bytes 0 (data.take bytes_to_save) }
  process_proxy_command s1 true command flag data

/-! ## Chat and subcommand handlers of the client side -/

/-- The static process_client_06 of ProxyCommands.cc (849-862).  The colour expansion
add_color_inplace works on the text from offset 8 to the end of the payload. -/
def process_client_06 (env : Env) (session : LinkedSession) (data : List Nat) : Outcome :=
  if data.length ≥ 12 then
    if session.suppress_newserv_commands = true ∧
        (data.getD 8 0 = 0x24 ∨
          (data.getD 8 0 = 0x09 ∧ data.getD 9 0 ≠ 0x43 ∧ data.getD 10 0 = 0x24)) then
      .returned false session data
    else if session.enable_chat_filter = true then
      .returned true session (data.take 8 ++ env.add_color_inplace (data.drop 8))
    else .returned true session data
  else .returned true session data

/-- The layout of G_SwitchStateChanged_6x05 as far as the proxy reads it: the size of
the record and the offsets of the 16-bit switch_id and of the enabled byte.  The
subcommand number is the first byte. -/
structure SwitchRecord where
  sizeof : Nat
  switch_id : Nat
  enabled : Nat
  deriving DecidableEq, Repr

/-- Both fields lie inside the record, which holds at least the subcommand byte. -/
def SwitchRecord.well_formed (t : SwitchRecord) : Prop :=
  1 ≤ t.sizeof ∧ t.switch_id + 2 ≤ t.sizeof ∧ t.enabled + 1 ≤ t.sizeof

instance (t : SwitchRecord) : Decidable t.well_formed := by
  unfold SwitchRecord.well_formed; infer_instance

/-- Modelled from the spec: G_SwitchStateChanged_6x05 is the subcommand byte, the
size byte, the 16-bit switch_id, six unknown bytes, the area and the enabled
byte. -/
def G_SwitchStateChanged_6x05 : SwitchRecord := { sizeof := 0x0C, switch_id := 2, enabled := 11 }

/-- The specialization process_client_60_62_6C_6D_C9_CB<void> of ProxyCommands.cc
(936-956), with the record type of the switch subcommand as first argument.
check_implemented_subcommand only writes to the log. -/
def process_client_60_62_6C_6D_C9_CB_void (SwitchT : SwitchRecord) (session : LinkedSession)
    (data : List Nat) : Outcome :=
  if data ≠ [] ∧ data.getD 0 0 = 0x05 ∧ session.enable_switch_assist = true then
    match check_size_t data.length SwitchT.sizeof SwitchT.sizeof with
    | .error e => .threw e session
    | .ok _ =>
      if data.getD SwitchT.enabled 0 ≠ 0 ∧ load_le 2 data SwitchT.switch_id ≠ 0xFFFF then
        let replayed : Step :=
          if session.last_switch_enabled_command.getD 0 0 = 0x05 then
            match send_to_end session true 0x60 0x00 session.last_switch_enabled_command with
            | .threw e s1 => .threw e s1
            | .done s1 => send_to_end s1 false 0x60 0x00 s1.last_switch_enabled_command
          else .done session
        replayed.andThen fun s2 =>
          .returned true { s2 with last_switch_enabled_command := data } data
      else .returned true session data
  else .returned true session data

/-- Modelled from the spec: the PlayerStatsChange kinds used by the stat-change
subcommand 0x9A; the enumeration is declared outside the sources at hand. -/
def PlayerStatsChange.ADD_HP : Nat := 3

/-- The PlayerStatsChange kind that adds TP. -/
def PlayerStatsChange.ADD_TP : Nat := 4

/-- The loop that builds the infinite-HP reply (ProxyCommands.cc, 907-917): while the
amount left is positive, one 0x9A subcommand header and one stat-change word adding
at most 0xFF are appended.  The first argument bounds the number of iterations; the
amount drops by at least one each time, so the initial amount is enough. -/
def add_hp_subcommands (lobby_client_id : Nat) : Nat → Nat → List Nat
  | 0, _ => []
  | fuel + 1, amount =>
    if amount > 0 then
      let added := if amount > 0xFF then 0xFF else amount
      le_bytes 2 0x029A ++ [lobby_client_id % 256, 0x00] ++
        (le_bytes 2 0x0000 ++ [PlayerStatsChange.ADD_HP % 256, added % 256]) ++
        add_hp_subcommands lobby_client_id fuel (amount - added % 256)
    else []

/-- The template process_client_60_62_6C_6D_C9_CB of ProxyCommands.cc (895-934); the
first argument is the record type of the send-guild-card subcommand, the second
that of the switch subcommand. -/
def process_client_60_62_6C_6D_C9_CB (SendGuildCardCmdT : CardEntry) (SwitchT : SwitchRecord)
    (session : LinkedSession) (data : List Nat) : Outcome :=
  let first : Outcome :=
    match session.license with
    | some license =>
      if data ≠ [] then
        if data.getD 0 0 = 0x06 then
          match check_size_t data.length SendGuildCardCmdT.sizeof SendGuildCardCmdT.sizeof with
          | .error e => .threw e session
          | .ok _ =>
            .returned true session
              (replace_card data SendGuildCardCmdT.guild_card_number license.serial_number
                session.remote_guild_card_number)
        else if data.getD 0 0 = 0x2F ∨ data.getD 0 0 = 0x4C then
          if session.infinite_hp = true then
            (send_to_end session false 0x60 0x00
                (add_hp_subcommands session.lobby_client_id 1020 1020)).andThen
              fun s1 => .returned true s1 data
          else .returned true session data
        else if data.getD 0 0 = 0x48 then
          if session.infinite_tp = true then
            (send_to_end session false 0x60 0x00
                (le_bytes 2 0x029A ++ [session.lobby_client_id % 256, 0x00] ++
                  (le_bytes 2 0x0000 ++ [PlayerStatsChange.ADD_TP % 256, 0xFF]))).andThen
              fun s1 => .returned true s1 data
          else .returned true session data
        else .returned true session data
      else .returned true session data
    | none => .returned true session data
  match first with
  | .threw e s1 => .threw e s1
  | .returned _ s1 data1 => process_client_60_62_6C_6D_C9_CB_void SwitchT s1 data1

/-! ## Roster handlers of the server side -/

/-- The bits of Client::Flag the proxy handlers test and set; the enumeration is
declared in Client.hh, which is not among the sources, so the masks are an
argument of the handlers that use them. -/
structure ClientFlag where
  SAVE_ENABLED : Nat
  NO_MESSAGE_BOX_CLOSE_CONFIRMATION : Nat
  NO_MESSAGE_BOX_CLOSE_CONFIRMATION_AFTER_LOBBY_JOIN : Nat

/-- The layout of an S_JoinLobby record (the CmdT of process_server_65_67_68) as far
as the handler reads it: the offsets of the client_id byte, of the lobby_number and
event fields with their sizes, of the entries array, the size of one entry, and
inside an entry the offsets of lobby_data.client_id and lobby_data.guild_card (both
32 bits) and the text of disp.name converted to a string. -/
structure JoinLobbyRecord where
  client_id : Nat
  lobby_number : Nat
  lobby_number_size : Nat
  event : Nat
  event_size : Nat
  entries : Nat
  entry_sizeof : Nat
  entry_client_id : Nat
  entry_guild_card : Nat
  entry_name : List Nat → List Nat

/-- The header fields lie before the entries and the two entry fields inside an
entry. -/
def JoinLobbyRecord.well_formed (t : JoinLobbyRecord) : Prop :=
  t.client_id + 1 ≤ t.entries ∧ t.lobby_number + t.lobby_number_size ≤ t.entries ∧
    t.event + t.event_size ≤ t.entries ∧ t.entry_client_id + 4 ≤ t.entry_sizeof ∧
    t.entry_guild_card + 4 ≤ t.entry_sizeof

instance (t : JoinLobbyRecord) : Decidable t.well_formed := by
  unfold JoinLobbyRecord.well_formed; infer_instance

/-- The value a signed override takes when it is assigned to an unsigned field of the
given number of bytes. -/
def truncate_override (size : Nat) (value : Int) : Nat := (value % (256 ^ size : Nat)).toNat

/-- One iteration of the loop of process_server_65_67_68 (ProxyCommands.cc, 762-778)
for the entry at position x: an index outside the roster is ignored, otherwise the
guild card is masked on a licensed session and the roster slot is filled. -/
def join_lobby_entry (CmdT : JoinLobbyRecord) (session : LinkedSession) (data : List Nat)
    (x : Nat) : LinkedSession × List Nat :=
  let entry := CmdT.entries + CmdT.entry_sizeof * x
  let index := load_le 4 data (entry + CmdT.entry_client_id)
  if index ≥ session.lobby_players.length then (session, data)
  else
    let data1 :=
      match session.license with
      | some license =>
        replace_card data (entry + CmdT.entry_guild_card) session.remote_guild_card_number
          license.serial_number
      | none => data
    ({ session with
        lobby_players :=
          session.lobby_players.set index
            { guild_card_number := load_le 4 data1 (entry + CmdT.entry_guild_card)
              name := CmdT.entry_name ((data1.drop entry).take CmdT.entry_sizeof) } },
      data1)

/-- The loop of process_server_65_67_68 over the entries: x is the loop counter and
count the number of iterations left. -/
def join_lobby_entries (CmdT : JoinLobbyRecord) :
    Nat → Nat → LinkedSession → List Nat → LinkedSession × List Nat
  | _, 0, session, data => (session, data)
  | x, count + 1, session, data =>
    join_lobby_entries CmdT (x + 1) count (join_lobby_entry CmdT session data x).1
      (join_lobby_entry CmdT session data x).2

/-- The template process_server_65_67_68 of ProxyCommands.cc (740-788). -/
def process_server_65_67_68 (CmdT : JoinLobbyRecord) (flags : ClientFlag)
    (session : LinkedSession) (command flag : Nat) (data : List Nat) : Outcome :=
  let s1 :=
    if command = 0x67 then
      { session with
        lobby_players := List.replicate 12 { guild_card_number := 0, name := [] }
        newserv_client_config :=
          if session.newserv_client_config.flags &&&
              flags.NO_MESSAGE_BOX_CLOSE_CONFIRMATION_AFTER_LOBBY_JOIN ≠ 0 then
            { session.newserv_client_config with
              flags := session.newserv_client_config.flags |||
                flags.NO_MESSAGE_BOX_CLOSE_CONFIRMATION }
          else session.newserv_client_config }
    else session
  let expected_size := CmdT.entries + CmdT.entry_sizeof * flag
  match check_size_t data.length expected_size expected_size with
  | .error e => .threw e s1
  | .ok _ =>
    let s2 := { s1 with lobby_client_id := data.getD CmdT.client_id 0 }
    let looped := join_lobby_entries CmdT 0 flag s2 data
    let data1 :=
      if session.override_lobby_event ≥ 0 then
        store_le CmdT.event_size looped.2 CmdT.event
          (truncate_override CmdT.event_size session.override_lobby_event)
      else looped.2
    let data2 :=
      if session.override_lobby_number ≥ 0 then
        store_le CmdT.lobby_number_size data1 CmdT.lobby_number
          (truncate_override CmdT.lobby_number_size session.override_lobby_number)
      else data1
    .returned true looped.1 data2

/-- Modelled from the spec: S_LeaveLobby_66_69_Ep3_E9 is the client_id byte, the
leader_id byte and an unused half-word. -/
def S_LeaveLobby_66_69_Ep3_E9.sizeof : Nat := 4

/-- The static process_server_66_69 of ProxyCommands.cc (831-843). -/
def process_server_66_69 (session : LinkedSession) (data : List Nat) : Outcome :=
  match check_size_t data.length S_LeaveLobby_66_69_Ep3_E9.sizeof
      S_LeaveLobby_66_69_Ep3_E9.sizeof with
  | .error e => .threw e session
  | .ok _ =>
    let index := data.getD 0 0
    if index ≥ session.lobby_players.length then .returned true session data
    else
      .returned true
        { session with
          lobby_players :=
            session.lobby_players.set index { guild_card_number := 0, name := [] } }
        data

/-- The layout of an S_JoinGame record (the CmdT of process_server_64): the size of
the record, the offset of players_ep3, the offsets of the client_id byte and of the
section_id and event fields with their sizes, the offset of the lobby_data array
with the size of one of its four entries and the offset of guild_card inside it,
and for the element x of players_ep3 the text of disp.name converted to a string. -/
structure JoinGameRecord where
  sizeof : Nat
  players_ep3 : Nat
  client_id : Nat
  section_id : Nat
  section_id_size : Nat
  event : Nat
  event_size : Nat
  lobby_data : Nat
  lobby_data_sizeof : Nat
  lobby_data_guild_card : Nat
  players_ep3_name : List Nat → Nat → List Nat

/-- The header fields and the four lobby_data entries lie before players_ep3, which
lies inside the record. -/
def JoinGameRecord.well_formed (t : JoinGameRecord) : Prop :=
  t.players_ep3 ≤ t.sizeof ∧ t.client_id + 1 ≤ t.players_ep3 ∧
    t.section_id + t.section_id_size ≤ t.players_ep3 ∧
    t.event + t.event_size ≤ t.players_ep3 ∧
    t.lobby_data + 4 * t.lobby_data_sizeof ≤ t.players_ep3 ∧
    t.lobby_data_guild_card + 4 ≤ t.lobby_data_sizeof

instance (t : JoinGameRecord) : Decidable t.well_formed := by
  unfold JoinGameRecord.well_formed; infer_instance

/-- std::vector::resize on the roster: excess entries are dropped, missing ones are
value-initialized. -/
def resize_lobby_players (players : List LobbyPlayer) (n : Nat) : List LobbyPlayer :=
  players.take n ++ List.replicate (n - players.length) { guild_card_number := 0, name := [] }

/-- The loop of process_server_64 (ProxyCommands.cc, 804-819): x is the loop counter
and count the number of iterations left.  The arrays lobby_data and lobby_players
have four elements; an iteration with x of 4 or more reads and writes outside
them, and an iteration that finds the remote guild card on a session without a
license dereferences a null pointer.  Both are undefined behaviour and end the
handler with a fault here. -/
def join_game_entries (CmdT : JoinGameRecord) :
    Nat → Nat → LinkedSession → List Nat → Outcome
  | _, 0, session, data => .returned true session data
  | x, count + 1, session, data =>
    if x ≥ 4 then .threw "undefined behaviour: index outside lobby_data" session
    else
      let field := CmdT.lobby_data + CmdT.lobby_data_sizeof * x + CmdT.lobby_data_guild_card
      let masked : Except String (List Nat) :=
        if load_le 4 data field = session.remote_guild_card_number then
          match session.license with
          | some license => .ok (store_le 4 data field license.serial_number)
          | none => .error "undefined behaviour: null license"
        else .ok data
      match masked with
      | .error e => .threw e session
      | .ok data1 =>
        let name :=
          if data1.length = CmdT.sizeof then CmdT.players_ep3_name data1 x else []
        join_game_entries CmdT (x + 1) count
          { session with
            lobby_players :=
              session.lobby_players.set x
                { guild_card_number := load_le 4 data1 field, name := name } }
          data1

/-- The template process_server_64 of ProxyCommands.cc (790-829). -/
def process_server_64 (CmdT : JoinGameRecord) (session : LinkedSession) (flag : Nat)
    (data : List Nat) : Outcome :=
  let s1 := { session with lobby_players := resize_lobby_players session.lobby_players 4 }
  let expected_size := if s1.sub_version ≥ 0x40 then CmdT.sizeof else CmdT.players_ep3
  match check_size_t data.length expected_size expected_size with
  | .error e => .threw e s1
  | .ok _ =>
    let s2 := { s1 with lobby_client_id := data.getD CmdT.client_id 0 }
    match join_game_entries CmdT 0 flag s2 data with
    | .threw e s3 => .threw e s3
    | .returned _ s3 data1 =>
      let data2 :=
        if session.override_section_id ≥ 0 then
          store_le CmdT.section_id_size data1 CmdT.section_id
            (truncate_override CmdT.section_id_size session.override_section_id)
        else data1
      let data3 :=
        if session.override_lobby_event ≥ 0 then
          store_le CmdT.event_size data2 CmdT.event
            (truncate_override CmdT.event_size session.override_lobby_event)
        else data2
      .returned true s3 data3

/-! ## Session lifecycle -/

/-- The constant LICENSED_SESSION_TIMEOUT_USECS (ProxyServer.cc, 35): the product is
computed in int and stored in a uint32_t. -/
def LICENSED_SESSION_TIMEOUT_USECS : Nat := (5 * 60 * 1000000) % 2 ^ 32

/-- The constant UNLICENSED_SESSION_TIMEOUT_USECS (ProxyServer.cc, 36). -/
def UNLICENSED_SESSION_TIMEOUT_USECS : Nat := (10 * 1000000) % 2 ^ 32

/-- The libevent flag BEV_EVENT_EOF. -/
def BEV_EVENT_EOF : Nat := 0x10

/-- The libevent flag BEV_EVENT_ERROR. -/
def BEV_EVENT_ERROR : Nat := 0x20

/-- LinkedSession::disconnect (ProxyServer.cc, 646-662): both transports and the four
ciphers are dropped and the timeout event is armed. -/
def disconnect (session : LinkedSession) : LinkedSession :=
  { session with
    server_bev := none
    client_bev := none
    server_input_crypt := none
    server_output_crypt := none
    client_input_crypt := none
    client_output_crypt := none
    timeout_usecs :=
      some (if session.license.isSome then LICENSED_SESSION_TIMEOUT_USECS
            else UNLICENSED_SESSION_TIMEOUT_USECS) }

/-- LinkedSession::is_connected (ProxyServer.cc, 664-666). -/
def is_connected (session : LinkedSession) : Bool :=
  session.server_bev.isSome && session.client_bev.isSome

/-- LinkedSession::on_stream_error (ProxyServer.cc, 631-644). -/
def on_stream_error (session : LinkedSession) (events : Nat) (_is_server_stream : Bool) :
    LinkedSession :=
  if events &&& (BEV_EVENT_EOF ||| BEV_EVENT_ERROR) ≠ 0 then disconnect session else session

/-- LinkedSession::resume_inner (ProxyServer.cc, 524-550). -/
def resume_inner (env : Env) (session : LinkedSession) (client_bev : Bufferevent)
    (client_input_crypt client_output_crypt : Option Crypt)
    (detector_crypt : Option DetectorCrypt) : Step :=
  if session.client_bev.isSome then
    .threw "client connection is already open for this session" session
  else if session.next_destination.ss_family ≠ AF_INET then
    .threw "attempted to resume an unlicensed linked session without destination set" session
  else
    connect env
      { session with
        client_bev := some client_bev
        detector_crypt := detector_crypt
        client_input_crypt := client_input_crypt
        client_output_crypt := client_output_crypt
        server_input_crypt := none
        server_output_crypt := none
        saving_files := [] }

/-- The first overload of LinkedSession::resume (ProxyServer.cc, 492-503). -/
def resume (env : Env) (session : LinkedSession) (client_bev : Bufferevent)
    (client_input_crypt client_output_crypt : Option Crypt)
    (detector_crypt : Option DetectorCrypt) (sub_version : Nat) (character_name : List Nat) :
    Step :=
  resume_inner env { session with sub_version := sub_version, character_name := character_name }
    client_bev client_input_crypt client_output_crypt detector_crypt

/-- The second overload of LinkedSession::resume (ProxyServer.cc, 505-514), for a BB
client with its saved login command. -/
def resume_bb (env : Env) (session : LinkedSession) (client_bev : Bufferevent)
    (client_input_crypt client_output_crypt : Option Crypt)
    (detector_crypt : Option DetectorCrypt) (login_command_bb : List Nat) : Step :=
  resume_inner env { session with login_command_bb := login_command_bb }
    client_bev client_input_crypt client_output_crypt detector_crypt

/-- The third overload of LinkedSession::resume (ProxyServer.cc, 516-522), for a
direct session. -/
def resume_direct (env : Env) (session : LinkedSession) (client_bev : Bufferevent) : Step :=
  resume_inner env { session with sub_version := 0, character_name := [] }
    client_bev none none none

/-! ## The proxy server and its registry -/

/-- ProxyServer::UnlinkedSession: the client transport, the listener port, the
dialect, the destination, the ciphers, and the commands written to the client. -/
structure UnlinkedSession where
  bev : Bufferevent
  local_port : Nat
  version : GameVersion
  next_destination : Sockaddr
  crypt_in : Option Crypt
  crypt_out : Option Crypt
  detector_crypt : Option DetectorCrypt
  sent : List SentCommand
  deriving DecidableEq, Repr

/-- ProxyServer: the counter of unlicensed session ids and the two registries.  A
registry is an association list with at most one entry for a key; the key of an
unlinked session is the address of its transport.  The last field is the size of
the prev_server_command_bytes array of the sessions the server creates. -/
structure ProxyServer where
  next_unlicensed_session_id : Nat
  id_to_session : List (Nat × LinkedSession)
  bev_to_unlinked_session : List (Nat × UnlinkedSession)
  prev_server_command_bytes_size : Nat
  deriving DecidableEq, Repr

/-- The ProxyServer constructor (ProxyServer.cc, 47-53). -/
def ProxyServer.new (prev_server_command_bytes_size : Nat) : ProxyServer :=
  { next_unlicensed_session_id := 0xFF00000000000001
    id_to_session := []
    bev_to_unlinked_session := []
    prev_server_command_bytes_size := prev_server_command_bytes_size }

/-- The result of a server operation that may throw: the server afterwards, or the
exception and the server as it stood when the exception was thrown. -/
inductive ServerStep where
  | done (server : ProxyServer)
  | threw (what : String) (server : ProxyServer)
  deriving DecidableEq, Repr

/-- The server a server operation leaves behind, whether it returned or threw. -/
def ServerStep.server : ServerStep → ProxyServer
  | .done s => s
  | .threw _ s => s

/-- Apply a change to the linked session registered under an id (a callback of that
session running on the object the registry owns). -/
def ProxyServer.modify_session (server : ProxyServer) (id : Nat)
    (change : LinkedSession → LinkedSession) : ProxyServer :=
  { server with
    id_to_session :=
      server.id_to_session.map fun entry =>
        if entry.1 = id then (entry.1, change entry.2) else entry }

/-- The dispatch of a stream error to the session registered under an id
(dispatch_on_client_error and dispatch_on_server_error, ProxyServer.cc, 602-615). -/
def ProxyServer.dispatch_on_stream_error (server : ProxyServer) (id events : Nat)
    (is_server_stream : Bool) : ProxyServer :=
  server.modify_session id fun session => on_stream_error session events is_server_stream

/-- The fifth LinkedSession constructor (ProxyServer.cc, 482-490): a session with a
preset destination. -/
def LinkedSession.new_with_destination (id local_port : Nat) (version : GameVersion)
    (prev_server_command_bytes_size : Nat) (destination : Sockaddr) : LinkedSession :=
  { LinkedSession.new id local_port version prev_server_command_bytes_size with
    next_destination := destination }

/-- The UnlinkedSession constructor (ProxyServer.cc, 250-262). -/
def UnlinkedSession.new (bev : Bufferevent) (local_port : Nat) (version : GameVersion) :
    UnlinkedSession :=
  { bev := bev
    local_port := local_port
    version := version
    next_destination := { ss_family := 0, sin_port := 0, sin_addr := 0 }
    crypt_in := none
    crypt_out := none
    detector_crypt := none
    sent := [] }

/-- The send_command call of on_client_connect on the transport of an unlinked
session, with the cipher in force when it is written. -/
def UnlinkedSession.send_command (session : UnlinkedSession) (command flag : Nat)
    (data : List Nat) : UnlinkedSession :=
  { session with
    sent := session.sent ++
      [{ to_server := false, crypt := session.crypt_out, command := command, flag := flag,
         data := data }] }

/-- The first statements of the direct branch of on_client_connect (ProxyServer.cc,
157-160): the id handed out is the counter, which is then incremented in 64 bits
and set back to the first reserved value when it wraps to zero. -/
def ProxyServer.take_unlicensed_session_id (server : ProxyServer) : Nat × ProxyServer :=
  let session_id := server.next_unlicensed_session_id
  let incremented := (server.next_unlicensed_session_id + 1) % 2 ^ 64
  (session_id,
    { server with
      next_unlicensed_session_id :=
        if incremented = 0 then 0xFF00000000000001 else incremented })

/-- ProxyServer::on_client_connect (ProxyServer.cc, 148-246).  The argument
bev_address is the address of the transport, the key of the unlinked registry. -/
def ProxyServer.on_client_connect (state : ServerState) (env : Env) (server : ProxyServer)
    (bev_address : Nat) (bev : Bufferevent) (listen_port : Nat) (version : GameVersion)
    (default_destination : Option Sockaddr) : ServerStep :=
  match default_destination, decide (version = GameVersion.PATCH) with
  | some destination, true =>
    let minted := server.take_unlicensed_session_id
    let session_id := minted.1
    let s1 := minted.2
    if (s1.id_to_session.lookup session_id).isSome then
      .threw "linked session already exists for unlicensed client" s1
    else
      let session := LinkedSession.new_with_destination session_id listen_port version
        server.prev_server_command_bytes_size destination
      match resume_direct env session bev with
      | .threw e resumed =>
        .threw e { s1 with id_to_session := s1.id_to_session ++ [(session_id, resumed)] }
      | .done resumed =>
        .done { s1 with id_to_session := s1.id_to_session ++ [(session_id, resumed)] }
  | _, _ =>
    if (server.bev_to_unlinked_session.lookup bev_address).isSome then
      .threw "stale unlinked session exists" server
    else
      let session0 := UnlinkedSession.new bev listen_port version
      let session1 :=
        match default_destination with
        | some destination => { session0 with next_destination := destination }
        | none => session0
      let registered (session : UnlinkedSession) : ProxyServer :=
        { server with
          bev_to_unlinked_session := server.bev_to_unlinked_session ++ [(bev_address, session)] }
      match version with
      | .PATCH => .threw "cannot create unlinked patch session" (registered session1)
      | .PC =>
        let session2 := session1.send_command 0x02 0
          (env.prepare_server_init_contents_dc_pc_gc env.random_server_key env.random_client_key)
        .done (registered
          { session2 with
            crypt_out := some (Crypt.PSOPCEncryption env.random_server_key)
            crypt_in := some (Crypt.PSOPCEncryption env.random_client_key) })
      | .GC =>
        let session2 := session1.send_command 0x02 0
          (env.prepare_server_init_contents_dc_pc_gc env.random_server_key env.random_client_key)
        .done (registered
          { session2 with
            crypt_out := some (Crypt.PSOGCEncryption env.random_server_key)
            crypt_in := some (Crypt.PSOGCEncryption env.random_client_key) })
      | .BB =>
        let session2 := session1.send_command 0x03 0
          (env.prepare_server_init_contents_bb env.random_server_key_bb
            env.random_client_key_bb)
        let detector : DetectorCrypt :=
          { possible_keys := state.bb_private_keys
            expected_first_data := [0xB4, 0x00, 0x93, 0x00, 0x00, 0x00, 0x00, 0x00]
            seed := env.random_client_key_bb }
        .done (registered
          { session2 with
            detector_crypt := some detector
            crypt_in := some (Crypt.PSOBBMultiKeyDetectorEncryption detector)
            crypt_out :=
              some (Crypt.PSOBBMultiKeyImitatorEncryption detector env.random_server_key_bb
                true) })
      | .DC => .threw "unsupported game version on proxy server" (registered session1)

/-- The arguments of one call of ProxyServer::on_client_connect: the transport and
its address, and the port, dialect and default destination of the listener. -/
structure ClientConnection where
  bev_address : Nat
  bev : Bufferevent
  listen_port : Nat
  version : GameVersion
  default_destination : Option Sockaddr
  deriving DecidableEq, Repr

/-- The server after a sequence of calls of ProxyServer::on_client_connect, oldest
first; a call that throws leaves the server as it stood at the throw. -/
def ProxyServer.after_connections (state : ServerState) (env : Env) :
    ProxyServer → List ClientConnection → ProxyServer
  | server, [] => server
  | server, c :: rest =>
    ProxyServer.after_connections state env
      (server.on_client_connect state env c.bev_address c.bev c.listen_port c.version
        c.default_destination).server rest

/-! ## The handler tables -/

/-- The handlers named in the tables of ProxyCommands.cc (1040-1222); an instance of
a template handler is named by the template and its record type. -/
inductive Handler where
  | process_default
  | process_client_06
  | process_client_40
  | process_client_60_62_6C_6D_C9_CB_G_SendGuildCard_BB_6x06
  | process_client_60_62_6C_6D_C9_CB_G_SendGuildCard_GC_6x06
  | process_client_60_62_6C_6D_C9_CB_void
  | process_client_81_SC_SimpleMail_GC_81
  | process_client_dc_pc_gc_A0_A1
  | process_server_13_A7
  | process_server_41_S_GuildCardSearchResult_BB_41
  | process_server_41_S_GuildCardSearchResult_DC_GC_41
  | process_server_41_S_GuildCardSearchResult_PC_41
  | process_server_44_A6_S_OpenFile_BB_44_A6
  | process_server_44_A6_S_OpenFile_PC_GC_44_A6
  | process_server_60_62_6C_6D_C9_CB
  | process_server_64_S_JoinGame_BB_64
  | process_server_64_S_JoinGame_GC_64
  | process_server_64_S_JoinGame_PC_64
  | process_server_65_67_68_S_JoinLobby_BB_65_67_68
  | process_server_65_67_68_S_JoinLobby_GC_65_67_68
  | process_server_65_67_68_S_JoinLobby_PC_65_67_68
  | process_server_66_69
  | process_server_81_SC_SimpleMail_GC_81
  | process_server_88
  | process_server_97
  | process_server_B2
  | process_server_C4_S_ChoiceSearchResultEntry_GC_C4
  | process_server_E7
  | process_server_bb_03
  | process_server_bb_22
  | process_server_dc_pc_gc_04
  | process_server_dc_pc_gc_06
  | process_server_game_19_patch_14
  | process_server_gc_1A_D5
  | process_server_gc_9A
  | process_server_gc_B8
  | process_server_gc_E4
  | process_server_pc_gc_patch_02_17
  deriving DecidableEq, Repr

/-- The table dc_server_handlers: the handler of each command number, process_default for
the numbers not listed. -/
def dc_server_handlers (command : Nat) : Handler :=
  if command = 0x04 then .process_server_dc_pc_gc_04
  else if command = 0x06 then .process_server_dc_pc_gc_06
  else if command = 0x13 then .process_server_13_A7
  else if command = 0x19 then .process_server_game_19_patch_14
  else if command = 0x41 then .process_server_41_S_GuildCardSearchResult_DC_GC_41
  else if command = 0x60 then .process_server_60_62_6C_6D_C9_CB
  else if command = 0x62 then .process_server_60_62_6C_6D_C9_CB
  else if command = 0x66 then .process_server_66_69
  else if command = 0x69 then .process_server_66_69
  else if command = 0x6C then .process_server_60_62_6C_6D_C9_CB
  else if command = 0x6D then .process_server_60_62_6C_6D_C9_CB
  else if command = 0x88 then .process_server_88
  else if command = 0x97 then .process_server_97
  else if command = 0xA7 then .process_server_13_A7
  else .process_default


/-- The table pc_server_handlers: the handler of each command number, process_default for
the numbers not listed. -/
def pc_server_handlers (command : Nat) : Handler :=
  if command = 0x02 then .process_server_pc_gc_patch_02_17
  else if command = 0x04 then .process_server_dc_pc_gc_04
  else if command = 0x06 then .process_server_dc_pc_gc_06
  else if command = 0x13 then .process_server_13_A7
  else if command = 0x17 then .process_server_pc_gc_patch_02_17
  else if command = 0x19 then .process_server_game_19_patch_14
  else if command = 0x41 then .process_server_41_S_GuildCardSearchResult_PC_41
  else if command = 0x44 then .process_server_44_A6_S_OpenFile_PC_GC_44_A6
  else if command = 0x60 then .process_server_60_62_6C_6D_C9_CB
  else if command = 0x62 then .process_server_60_62_6C_6D_C9_CB
  else if command = 0x64 then .process_server_64_S_JoinGame_PC_64
  else if command = 0x65 then .process_server_65_67_68_S_JoinLobby_PC_65_67_68
  else if command = 0x66 then .process_server_66_69
  else if command = 0x67 then .process_server_65_67_68_S_JoinLobby_PC_65_67_68
  else if command = 0x68 then .process_server_65_67_68_S_JoinLobby_PC_65_67_68
  else if command = 0x69 then .process_server_66_69
  else if command = 0x6C then .process_server_60_62_6C_6D_C9_CB
  else if command = 0x6D then .process_server_60_62_6C_6D_C9_CB
  else if command = 0x88 then .process_server_88
  else if command = 0x97 then .process_server_97
  else if command = 0xA6 then .process_server_44_A6_S_OpenFile_PC_GC_44_A6
  else if command = 0xA7 then .process_server_13_A7
  else .process_default


/-- The table gc_server_handlers: the handler of each command number, process_default for
the numbers not listed. -/
def gc_server_handlers (command : Nat) : Handler :=
  if command = 0x02 then .process_server_pc_gc_patch_02_17
  else if command = 0x04 then .process_server_dc_pc_gc_04
  else if command = 0x06 then .process_server_dc_pc_gc_06
  else if command = 0x13 then .process_server_13_A7
  else if command = 0x17 then .process_server_pc_gc_patch_02_17
  else if command = 0x19 then .process_server_game_19_patch_14
  else if command = 0x1A then .process_server_gc_1A_D5
  else if command = 0x41 then .process_server_41_S_GuildCardSearchResult_DC_GC_41
  else if command = 0x44 then .process_server_44_A6_S_OpenFile_PC_GC_44_A6
  else if command = 0x60 then .process_server_60_62_6C_6D_C9_CB
  else if command = 0x62 then .process_server_60_62_6C_6D_C9_CB
  else if command = 0x64 then .process_server_64_S_JoinGame_GC_64
  else if command = 0x65 then .process_server_65_67_68_S_JoinLobby_GC_65_67_68
  else if command = 0x66 then .process_server_66_69
  else if command = 0x67 then .process_server_65_67_68_S_JoinLobby_GC_65_67_68
  else if command = 0x68 then .process_server_65_67_68_S_JoinLobby_GC_65_67_68
  else if command = 0x69 then .process_server_66_69
  else if command = 0x6C then .process_server_60_62_6C_6D_C9_CB
  else if command = 0x6D then .process_server_60_62_6C_6D_C9_CB
  else if command = 0x81 then .process_server_81_SC_SimpleMail_GC_81
  else if command = 0x88 then .process_server_88
  else if command = 0x97 then .process_server_97
  else if command = 0x9A then .process_server_gc_9A
  else if command = 0xA6 then .process_server_44_A6_S_OpenFile_PC_GC_44_A6
  else if command = 0xA7 then .process_server_13_A7
  else if command = 0xB2 then .process_server_B2
  else if command = 0xB8 then .process_server_gc_B8
  else if command = 0xC4 then .process_server_C4_S_ChoiceSearchResultEntry_GC_C4
  else if command = 0xC9 then .process_server_60_62_6C_6D_C9_CB
  else if command = 0xCB then .process_server_60_62_6C_6D_C9_CB
  else if command = 0xD5 then .process_server_gc_1A_D5
  else if command = 0xE4 then .process_server_gc_E4
  else .process_default


/-- The table bb_server_handlers: the handler of each command number, process_default for
the numbers not listed. -/
def bb_server_handlers (command : Nat) : Handler :=
  if command = 0x03 then .process_server_bb_03
  else if command = 0x13 then .process_server_13_A7
  else if command = 0x19 then .process_server_game_19_patch_14
  else if command = 0x22 then .process_server_bb_22
  else if command = 0x41 then .process_server_41_S_GuildCardSearchResult_BB_41
  else if command = 0x44 then .process_server_44_A6_S_OpenFile_BB_44_A6
  else if command = 0x60 then .process_server_60_62_6C_6D_C9_CB
  else if command = 0x62 then .process_server_60_62_6C_6D_C9_CB
  else if command = 0x64 then .process_server_64_S_JoinGame_BB_64
  else if command = 0x65 then .process_server_65_67_68_S_JoinLobby_BB_65_67_68
  else if command = 0x66 then .process_server_66_69
  else if command = 0x67 then .process_server_65_67_68_S_JoinLobby_BB_65_67_68
  else if command = 0x68 then .process_server_65_67_68_S_JoinLobby_BB_65_67_68
  else if command = 0x69 then .process_server_66_69
  else if command = 0x6C then .process_server_60_62_6C_6D_C9_CB
  else if command = 0x6D then .process_server_60_62_6C_6D_C9_CB
  else if command = 0x88 then .process_server_88
  else if command = 0xA6 then .process_server_44_A6_S_OpenFile_BB_44_A6
  else if command = 0xA7 then .process_server_13_A7
  else if command = 0xB2 then .process_server_B2
  else if command = 0xE7 then .process_server_E7
  else .process_default


/-- The table patch_server_handlers: the handler of each command number, process_default for
the numbers not listed. -/
def patch_server_handlers (command : Nat) : Handler :=
  if command = 0x02 then .process_server_pc_gc_patch_02_17
  else if command = 0x14 then .process_server_game_19_patch_14
  else .process_default


/-- The table dc_client_handlers: the handler of each command number, process_default for
the numbers not listed. -/
def dc_client_handlers (command : Nat) : Handler :=
  if command = 0x06 then .process_client_06
  else if command = 0x40 then .process_client_40
  else if command = 0x60 then .process_client_60_62_6C_6D_C9_CB_void
  else if command = 0x62 then .process_client_60_62_6C_6D_C9_CB_void
  else if command = 0x6C then .process_client_60_62_6C_6D_C9_CB_void
  else if command = 0x6D then .process_client_60_62_6C_6D_C9_CB_void
  else if command = 0xA0 then .process_client_dc_pc_gc_A0_A1
  else if command = 0xA1 then .process_client_dc_pc_gc_A0_A1
  else .process_default


/-- The table pc_client_handlers: the handler of each command number, process_default for
the numbers not listed. -/
def pc_client_handlers (command : Nat) : Handler :=
  if command = 0x06 then .process_client_06
  else if command = 0x40 then .process_client_40
  else if command = 0x60 then .process_client_60_62_6C_6D_C9_CB_void
  else if command = 0x62 then .process_client_60_62_6C_6D_C9_CB_void
  else if command = 0x6C then .process_client_60_62_6C_6D_C9_CB_void
  else if command = 0x6D then .process_client_60_62_6C_6D_C9_CB_void
  else if command = 0xA0 then .process_client_dc_pc_gc_A0_A1
  else if command = 0xA1 then .process_client_dc_pc_gc_A0_A1
  else .process_default


/-- The table gc_client_handlers: the handler of each command number, process_default for
the numbers not listed. -/
def gc_client_handlers (command : Nat) : Handler :=
  if command = 0x06 then .process_client_06
  else if command = 0x40 then .process_client_40
  else if command = 0x60 then .process_client_60_62_6C_6D_C9_CB_G_SendGuildCard_GC_6x06
  else if command = 0x62 then .process_client_60_62_6C_6D_C9_CB_G_SendGuildCard_GC_6x06
  else if command = 0x6C then .process_client_60_62_6C_6D_C9_CB_G_SendGuildCard_GC_6x06
  else if command = 0x6D then .process_client_60_62_6C_6D_C9_CB_G_SendGuildCard_GC_6x06
  else if command = 0x81 then .process_client_81_SC_SimpleMail_GC_81
  else if command = 0xA0 then .process_client_dc_pc_gc_A0_A1
  else if command = 0xA1 then .process_client_dc_pc_gc_A0_A1
  else .process_default


/-- The table bb_client_handlers: the handler of each command number, process_default for
the numbers not listed. -/
def bb_client_handlers (command : Nat) : Handler :=
  if command = 0x06 then .process_client_06
  else if command = 0x40 then .process_client_40
  else if command = 0x60 then .process_client_60_62_6C_6D_C9_CB_G_SendGuildCard_BB_6x06
  else if command = 0x62 then .process_client_60_62_6C_6D_C9_CB_G_SendGuildCard_BB_6x06
  else if command = 0x6C then .process_client_60_62_6C_6D_C9_CB_G_SendGuildCard_BB_6x06
  else if command = 0x6D then .process_client_60_62_6C_6D_C9_CB_G_SendGuildCard_BB_6x06
  else .process_default


/-- The table patch_client_handlers: the handler of each command number, process_default for
the numbers not listed. -/
def patch_client_handlers (_command : Nat) : Handler :=
  .process_default


/-- The static get_handler of ProxyCommands.cc (1231-1237); the command is converted
to uint8_t. -/
def get_handler (version : GameVersion) (from_server : Bool) (command : Nat) : Handler :=
  match version, from_server with
  | .DC, true => dc_server_handlers (command % 256)
  | .PC, true => pc_server_handlers (command % 256)
  | .PATCH, true => patch_server_handlers (command % 256)
  | .GC, true => gc_server_handlers (command % 256)
  | .BB, true => bb_server_handlers (command % 256)
  | .DC, false => dc_client_handlers (command % 256)
  | .PC, false => pc_client_handlers (command % 256)
  | .PATCH, false => patch_client_handlers (command % 256)
  | .GC, false => gc_client_handlers (command % 256)
  | .BB, false => bb_client_handlers (command % 256)

/-! ## Dispatch of a command and the session lookup of the shell -/

/-- ProxyServer::get_session (ProxyServer.cc, 764-772).  The function only reads the
registry; the second component is the server afterwards. -/
def ProxyServer.get_session (server : ProxyServer) :
    Except String LinkedSession × ProxyServer :=
  match server.id_to_session with
  | [] => (.error "no sessions exist", server)
  | entry :: rest =>
    if (entry :: rest).length > 1 then (.error "multiple sessions exist", server)
    else (.ok entry.2, server)

/-- The function process_proxy_command of ProxyCommands.cc (1239-1256).  The handler
functions the table entries point to are given by the argument run; an exception of
the handler or of forward_command is caught and the session disconnected.  The
logic_error of get_handler needs a version outside the five enumerators, which
GameVersion does not have, so every call returns. -/
def process_proxy_command (run : Handler → LinkedSession → Nat → Nat → List Nat → Outcome)
    (session : LinkedSession) (from_server : Bool) (command flag : Nat) (data : List Nat) :
    Step :=
  let fn := run (get_handler session.version from_server command)
  match fn session command flag data with
  | .returned should_forward s d =>
    if should_forward then .done (forward_command s (!from_server) command flag d)
    else .done s
  | .threw _ s => .done (disconnect s)

/-! ## The server-init handshake and the login commands sent for the client -/

/-- Modelled from the spec: S_ServerInit_DC_PC_GC_02_17_92_9B is declared in
CommandFormats.hh, which is not among the sources; it is a 0x40-byte copyright
text, the 32-bit server seed, the 32-bit client seed and the after_message. -/
def S_ServerInit_DC_PC_GC_02_17_92_9B.server_key : Nat := 0x40

/-- Offset of the client_key field of S_ServerInit_DC_PC_GC_02_17_92_9B. -/
def S_ServerInit_DC_PC_GC_02_17_92_9B.client_key : Nat := 0x44

/-- Offset of the after_message field of S_ServerInit_DC_PC_GC_02_17_92_9B. -/
def S_ServerInit_DC_PC_GC_02_17_92_9B.after_message : Nat := 0x48

/-- One upper-case hexadecimal digit. -/
def hex_digit (d : Nat) : Nat := if d < 10 then 0x30 + d else 0x41 + (d - 10)

/-- What string_printf prints for the format %08X of a 32-bit value when called with
8: the given number of upper-case hexadecimal digits, most significant first. -/
def hex_upper : Nat → Nat → List Nat
  | 0, _ => []
  | n + 1, v => hex_upper n (v / 16) ++ [hex_digit (v % 16)]

/-- Modelled from the spec: ptext and parray are declared in Text.hh, which is not
among the sources; assigning to a field of n bytes stores the first n bytes of
the value and leaves the rest of the field zero. -/
def assign_field (n : Nat) (value : List Nat) : List Nat :=
  (value ++ List.replicate n 0).take n

/-- Write fields, each an offset and its bytes, into a record image, in order. -/
def write_fields (record : List Nat) : List (Nat × List Nat) → List Nat
  | [] => record
  | field :: rest => write_fields (store_bytes record field.1 field.2) rest

/-- The layout of C_Login_PC_9D (CommandFormats.hh is not among the sources): the
size of the record and the offsets and sizes of its fields. -/
structure LoginRecord where
  sizeof : Nat
  player_tag : Nat
  guild_card_number : Nat
  unused : Nat
  sub_version : Nat
  unused2 : Nat
  unused2_size : Nat
  serial_number : Nat
  serial_number_size : Nat
  access_key : Nat
  access_key_size : Nat
  serial_number2 : Nat
  serial_number2_size : Nat
  access_key2 : Nat
  access_key2_size : Nat
  name : Nat
  name_size : Nat

/-- The fields of a login record follow each other inside the record, unused2 has
room for the byte at index 1, and the size is a multiple of 4. -/
def LoginRecord.well_formed (CmdT : LoginRecord) : Prop :=
  CmdT.player_tag + 4 ≤ CmdT.guild_card_number ∧
  CmdT.guild_card_number + 4 ≤ CmdT.unused ∧
  CmdT.unused + 8 ≤ CmdT.sub_version ∧
  CmdT.sub_version + 4 ≤ CmdT.unused2 ∧
  2 ≤ CmdT.unused2_size ∧
  CmdT.unused2 + CmdT.unused2_size ≤ CmdT.serial_number ∧
  CmdT.serial_number + CmdT.serial_number_size ≤ CmdT.access_key ∧
  CmdT.access_key + CmdT.access_key_size ≤ CmdT.serial_number2 ∧
  CmdT.serial_number2 + CmdT.serial_number2_size ≤ CmdT.access_key2 ∧
  CmdT.access_key2 + CmdT.access_key2_size ≤ CmdT.name ∧
  CmdT.name + CmdT.name_size ≤ CmdT.sizeof ∧
  CmdT.sizeof % 4 = 0

instance (CmdT : LoginRecord) : Decidable CmdT.well_formed := by
  unfold LoginRecord.well_formed; infer_instance

/-- The layout of C_LoginWithUnusedSpace_GC_9E, which derives from C_Login_GC_9E and
that from C_Login_PC_9D: the inherited part, the client config, and the unused
space that ends the record. -/
structure LoginWithUnusedSpaceRecord where
  base : LoginRecord
  client_config : Nat
  client_config_size : Nat
  unused_space : Nat
  unused_space_size : Nat
  sizeof : Nat

/-- The inherited part comes first, then the client config, then the unused space,
which ends the record; the sizes with and without the unused space are multiples
of 4. -/
def LoginWithUnusedSpaceRecord.well_formed (CmdT : LoginWithUnusedSpaceRecord) : Prop :=
  CmdT.base.well_formed ∧
  CmdT.base.sizeof ≤ CmdT.client_config ∧
  CmdT.client_config + CmdT.client_config_size ≤ CmdT.unused_space ∧
  CmdT.unused_space + CmdT.unused_space_size = CmdT.sizeof ∧
  CmdT.sizeof % 4 = 0 ∧
  CmdT.unused_space_size % 4 = 0

instance (CmdT : LoginWithUnusedSpaceRecord) : Decidable CmdT.well_formed := by
  unfold LoginWithUnusedSpaceRecord.well_formed; infer_instance

/-- The layout of C_VerifyLicense_GC_DB (CommandFormats.hh is not among the sources). -/
structure VerifyLicenseRecord where
  sizeof : Nat
  serial_number : Nat
  serial_number_size : Nat
  access_key : Nat
  access_key_size : Nat
  sub_version : Nat
  serial_number2 : Nat
  serial_number2_size : Nat
  access_key2 : Nat
  access_key2_size : Nat
  password : Nat
  password_size : Nat

/-- The fields of the record lie inside it and its size is a multiple of 4. -/
def VerifyLicenseRecord.well_formed (CmdT : VerifyLicenseRecord) : Prop :=
  CmdT.serial_number + CmdT.serial_number_size ≤ CmdT.sizeof ∧
  CmdT.access_key + CmdT.access_key_size ≤ CmdT.sizeof ∧
  CmdT.sub_version + 4 ≤ CmdT.sizeof ∧
  CmdT.serial_number2 + CmdT.serial_number2_size ≤ CmdT.sizeof ∧
  CmdT.access_key2 + CmdT.access_key2_size ≤ CmdT.sizeof ∧
  CmdT.password + CmdT.password_size ≤ CmdT.sizeof ∧
  CmdT.sizeof % 4 = 0

instance (CmdT : VerifyLicenseRecord) : Decidable CmdT.well_formed := by
  unfold VerifyLicenseRecord.well_formed; infer_instance

/-- The assignments both login branches make to the C_Login_PC_9D part of the record
(ProxyCommands.cc, 121-134 and 198-212), in source order; the value of the unused
field differs between the two. -/
def login_fields (CmdT : LoginRecord) (session : LinkedSession) (license : License)
    (unused : Nat) : List (Nat × List Nat) :=
  let serial_number :=
    assign_field CmdT.serial_number_size (hex_upper 8 (license.serial_number % 2 ^ 32))
  let access_key := assign_field CmdT.access_key_size license.access_key
  [(CmdT.player_tag,
      le_bytes 4 (if session.remote_guild_card_number = 0 then 0xFFFF0000 else 0x00010000)),
   (CmdT.guild_card_number,
      le_bytes 4 (if session.remote_guild_card_number = 0 then 0xFFFFFFFF
                  else session.remote_guild_card_number)),
   (CmdT.unused, le_bytes 8 unused),
   (CmdT.sub_version, le_bytes 4 session.sub_version),
   (CmdT.unused2 + 1, [1]),
   (CmdT.serial_number, serial_number),
   (CmdT.access_key, access_key),
   (CmdT.serial_number2, assign_field CmdT.serial_number2_size (c_str serial_number)),
   (CmdT.access_key2, assign_field CmdT.access_key2_size (c_str access_key)),
   (CmdT.name, assign_field CmdT.name_size session.character_name)]

/-- The static process_server_gc_9A of ProxyCommands.cc (114-145).  The record starts
zeroed; with a remembered guild card the frame ends before the unused space. -/
def process_server_gc_9A (CmdT : LoginWithUnusedSpaceRecord) (session : LinkedSession)
    (data : List Nat) : Outcome :=
  match session.license with
  | none => .returned true session data
  | some license =>
    let cmd := write_fields (List.replicate CmdT.sizeof 0)
      (login_fields CmdT.base session license 0 ++
        [(CmdT.client_config,
          assign_field CmdT.client_config_size session.remote_client_config_data)])
    let size := CmdT.sizeof -
      (if session.remote_guild_card_number ≠ 0 then CmdT.unused_space_size else 0)
    (send_to_end session true 0x9E 0x01 (cmd.take size)).andThen
      fun s => .returned false s data

/-- The three record layouts process_server_pc_gc_patch_02_17 builds commands of. -/
structure LoginRecords where
  C_Login_PC_9D : LoginRecord
  C_VerifyLicense_GC_DB : VerifyLicenseRecord
  C_LoginWithUnusedSpace_GC_9E : LoginWithUnusedSpaceRecord

/-- The static process_server_pc_gc_patch_02_17 of ProxyCommands.cc (147-243).  The
call send_to_end(true, 0x02, 0x00) of the patch branch passes no payload. -/
def process_server_pc_gc_patch_02_17 (records : LoginRecords) (session : LinkedSession)
    (command flag : Nat) (data : List Nat) : Outcome :=
  if session.version = GameVersion.PATCH ∧ command = 0x17 then
    .threw "patch server sent 17 server init" session
  else
    match check_size_t data.length S_ServerInit_DC_PC_GC_02_17_92_9B.after_message 0xFFFF with
    | .error e => .threw e session
    | .ok _ =>
      let server_key := load_le 4 data S_ServerInit_DC_PC_GC_02_17_92_9B.server_key
      let client_key := load_le 4 data S_ServerInit_DC_PC_GC_02_17_92_9B.client_key
      match session.license with
      | none =>
        let s1 := forward_command session false command flag data
        if session.version = GameVersion.GC then
          .returned false
            { s1 with
              server_input_crypt := some (Crypt.PSOGCEncryption server_key)
              server_output_crypt := some (Crypt.PSOGCEncryption client_key)
              client_input_crypt := some (Crypt.PSOGCEncryption client_key)
              client_output_crypt := some (Crypt.PSOGCEncryption server_key) }
            data
        else
          .returned false
            { s1 with
              server_input_crypt := some (Crypt.PSOPCEncryption server_key)
              server_output_crypt := some (Crypt.PSOPCEncryption client_key)
              client_input_crypt := some (Crypt.PSOPCEncryption client_key)
              client_output_crypt := some (Crypt.PSOPCEncryption server_key) }
            data
      | some license =>
        match session.version with
        | .PATCH =>
          (send_to_end
            { session with
              server_input_crypt := some (Crypt.PSOPCEncryption server_key)
              server_output_crypt := some (Crypt.PSOPCEncryption client_key) }
            true 0x02 0x00 []).andThen fun s => .returned false s data
        | .PC =>
          let T := records.C_Login_PC_9D
          let cmd := write_fields (List.replicate T.sizeof 0)
            (login_fields T session license 0xFFFFFFFFFFFF0000)
          (send_to_end
            { session with
              server_input_crypt := some (Crypt.PSOPCEncryption server_key)
              server_output_crypt := some (Crypt.PSOPCEncryption client_key) }
            true 0x9D 0x00 cmd).andThen fun s => .returned false s data
        | .GC =>
          let s1 :=
            { session with
              server_input_crypt := some (Crypt.PSOGCEncryption server_key)
              server_output_crypt := some (Crypt.PSOGCEncryption client_key) }
          if command = 0x17 then
            let T := records.C_VerifyLicense_GC_DB
            let serial_number :=
              assign_field T.serial_number_size (hex_upper 8 (license.serial_number % 2 ^ 32))
            let access_key := assign_field T.access_key_size license.access_key
            let cmd := write_fields (List.replicate T.sizeof 0)
              [(T.serial_number, serial_number),
               (T.access_key, access_key),
               (T.sub_version, le_bytes 4 session.sub_version),
               (T.serial_number2, assign_field T.serial_number2_size (c_str serial_number)),
               (T.access_key2, assign_field T.access_key2_size (c_str access_key)),
               (T.password, assign_field T.password_size license.gc_password)]
            (send_to_end s1 true 0xDB 0x00 cmd).andThen fun s => .returned false s data
          else
            process_server_gc_9A records.C_LoginWithUnusedSpace_GC_9E s1 data
        | _ => .threw "unsupported version" session

/-! ## Saving the files a server sends -/

/-- Modelled from the spec: S_OpenFile_PC_GC_44_A6 is declared in CommandFormats.hh,
which is not among the sources; it is a 0x20-byte name, two unused bytes, the
16-bit flags, the 0x10-byte filename and the 32-bit file size. -/
def S_OpenFile_PC_GC_44_A6.filename : Nat := 0x24

/-- Size of the filename field of S_OpenFile_PC_GC_44_A6. -/
def S_OpenFile_PC_GC_44_A6.filename_size : Nat := 0x10

/-- Size of S_OpenFile_PC_GC_44_A6. -/
def S_OpenFile_PC_GC_44_A6.sizeof : Nat := 0x38

/-- Modelled from the spec: S_WriteFile_13_A7 is declared in CommandFormats.hh, which
is not among the sources; it is the 0x10-byte filename, 0x400 bytes of data and the
32-bit data size. -/
def S_WriteFile_13_A7.filename : Nat := 0

/-- Size of the filename field of S_WriteFile_13_A7. -/
def S_WriteFile_13_A7.filename_size : Nat := 0x10

/-- Offset of the data field of S_WriteFile_13_A7. -/
def S_WriteFile_13_A7.data : Nat := 0x10

/-- Offset of the data_size field of S_WriteFile_13_A7. -/
def S_WriteFile_13_A7.data_size : Nat := 0x410

/-- Size of S_WriteFile_13_A7. -/
def S_WriteFile_13_A7.sizeof : Nat := 0x414

/-- The name a filename field declares: the conversion of the text field to a
std::string stops at the first NUL. -/
def declared_filename (data : List Nat) (off size : Nat) : List Nat :=
  c_str ((data.drop off).take size)

/-- The entry under a key after a write through the pointer at() returned. -/
def saving_files_update (table : List (List Nat × SavingFile)) (key : List Nat)
    (sf : SavingFile) : List (List Nat × SavingFile) :=
  table.map fun entry => if entry.1 = key then (entry.1, sf) else entry

/-- The erase of the saving_files map. -/
def saving_files_erase (table : List (List Nat × SavingFile)) (key : List Nat) :
    List (List Nat × SavingFile) :=
  table.filter fun entry => entry.1 ≠ key

/-- The static process_server_13_A7 of ProxyCommands.cc (681-716).  When the entry is
erased its SavingFile is destroyed, which closes the output file: the file with
its contents joins the record of files the session wrote. -/
def process_server_13_A7 (session : LinkedSession) (data : List Nat) : Outcome :=
  if session.save_files then
    match check_size_t data.length S_WriteFile_13_A7.sizeof S_WriteFile_13_A7.sizeof with
    | .error e => .threw e session
    | .ok _ =>
      let filename := declared_filename data S_WriteFile_13_A7.filename
        S_WriteFile_13_A7.filename_size
      match session.saving_files.lookup filename with
      | none => .returned true session data
      | some sf =>
        let data_size := load_le 4 data S_WriteFile_13_A7.data_size
        let bytes_to_write := if data_size > 0x400 then 0x400 else data_size
        let written : SavingFile :=
          { sf with f := sf.f ++ (data.drop S_WriteFile_13_A7.data).take bytes_to_write }
        let counted : SavingFile :=
          if bytes_to_write > written.remaining_bytes then { written with remaining_bytes := 0 }
          else { written with remaining_bytes := written.remaining_bytes - bytes_to_write }
        if counted.remaining_bytes = 0 then
          .returned true
            { session with
              saving_files := saving_files_erase session.saving_files filename
              saved_files := session.saved_files ++
                [(String.mk (counted.output_filename.map Char.ofNat), counted.f)] }
            data
        else
          .returned true
            { session with
              saving_files := saving_files_update session.saving_files filename counted }
            data
  else .returned true session data

/-! ## Forwarding of subcommands between the clients of a lobby (ReceiveSubcommands.cc) -/

/-- Modelled from the spec: Client is declared in Client.hh, which is not among the
sources; forward_subcommand compares client objects by identity and reads their
flags, so the model of a client is the address of the object and its flags. -/
structure Client where
  address : Nat
  flags : Nat
  deriving DecidableEq, Repr

/-- Modelled from the spec: Lobby is declared in Lobby.hh, which is not among the
sources; forward_subcommand reads max_clients and the array of client slots, an
empty slot being a null pointer. -/
structure Lobby where
  max_clients : Nat
  clients : List (Option Client)
  deriving DecidableEq, Repr

/-- One call of send_command for a client: the target, opcode, flag and payload. -/
structure Delivery where
  target : Client
  command : Nat
  flag : Nat
  data : List Nat
  deriving DecidableEq, Repr

/-- The function command_is_private of ReceiveSubcommands.cc (52-55). -/
def command_is_private (command : Nat) : Bool :=
  command = 0x62 || command = 0x6D

/-- Modelled from the spec: send_command_excluding_client is declared in
SendCommands.hh, which is not among the sources; public variants fan out to the
lobby except the sender: one send_command for every client of the lobby other than
the one given. -/
def send_command_excluding_client (l : Lobby) (c : Client) (command flag : Nat)
    (data : List Nat) : List Delivery :=
  l.clients.filterMap fun slot =>
    match slot with
    | none => none
    | some target =>
      if target.address = c.address then none
      else some { target := target, command := command, flag := flag, data := data }

/-- The function forward_subcommand of ReceiveSubcommands.cc (59-95): the calls of
send_command it makes, in order.  The flag EPISODE_3_GAMES of ClientFlag is an
argument; the payload is the first count * 4 bytes at p; a private target index
inside max_clients and outside the array is an out-of-bounds read. -/
def forward_subcommand (EPISODE_3_GAMES : Nat) (l : Lobby) (c : Client)
    (command flag : Nat) (p : List Nat) (count : Nat) : Except String (List Delivery) :=
  let command_is_ep3 : Bool := (command &&& 0xF0) = 0xC0
  if command_is_ep3 ∧ c.flags &&& EPISODE_3_GAMES = 0 then .ok []
  else if command_is_private command then
    if flag ≥ l.max_clients then .ok []
    else
      match l.clients[flag]? with
      | none => .error "undefined behaviour: index outside clients"
      | some none => .ok []
      | some (some target) =>
        if command_is_ep3 ∧ target.flags &&& EPISODE_3_GAMES = 0 then .ok []
        else
          .ok [{ target := target, command := command, flag := flag,
                 data := p.take (count * 4) }]
  else if command_is_ep3 then
    .ok (l.clients.filterMap fun slot =>
      match slot with
      | none => none
      | some target =>
        if target.address = c.address ∨ target.flags &&& EPISODE_3_GAMES = 0 then none
        else
          some { target := target, command := command, flag := flag,
                 data := p.take (count * 4) })
  else .ok (send_command_excluding_client l c command flag (p.take (count * 4)))

/-! ## The login of an unlinked session -/

/-- The htonl of a little-endian host: reverse the four bytes of a 32-bit value. -/
def htonl (v : Nat) : Nat :=
  (v % 256) * 2 ^ 24 + (v / 256 % 256) * 2 ^ 16 + (v / 2 ^ 16 % 256) * 2 ^ 8 + v / 2 ^ 24 % 256

/-- The session a step leaves behind, whether it returned or threw. -/
def Step.session : Step → LinkedSession
  | .done s => s
  | .threw _ s => s

/-- What on_client_input calls outside the sources: std::stoul with base 16 and the
three verify functions of the LicenseManager; each returns its value or throws. -/
structure LoginServices where
  stoul16 : List Nat → Except String Nat
  verify_pc : Nat → List Nat → Except String License
  verify_gc : Nat → List Nat → Except String License
  verify_bb : List Nat → List Nat → Except String License

/-- The layout of C_Login_BB_93 (CommandFormats.hh is not among the sources). -/
structure LoginBBRecord where
  sizeof : Nat
  username : Nat
  username_size : Nat
  password : Nat
  password_size : Nat

/-- The record layouts on_client_input checks and reads: C_Login_PC_9D and the size of
C_LoginWithUnusedSpace_PC_9D, C_LoginWithUnusedSpace_GC_9E, whose part before the
unused space is C_Login_GC_9E, and C_Login_BB_93. -/
structure UnlinkedLoginRecords where
  C_Login_PC_9D : LoginRecord
  sizeof_C_LoginWithUnusedSpace_PC_9D : Nat
  C_LoginWithUnusedSpace_GC_9E : LoginWithUnusedSpaceRecord
  C_Login_BB_93 : LoginBBRecord

/-- The text a text field of a record holds: the bytes before the first NUL. -/
def text_field (data : List Nat) (off size : Nat) : List Nat :=
  c_str ((data.drop off).take size)

/-- Modelled from the spec: the ClientConfig a 0x20-byte config block holds, field by
field in the packed order of ClientConfig.bytes. -/
def ClientConfig.parse (block : List Nat) : ClientConfig :=
  { magic := load_le 8 block 0
    bb_game_state := load_le 1 block 8
    bb_player_index := load_le 1 block 9
    flags := load_le 2 block 10
    proxy_destination_address := load_le 4 block 12
    proxy_destination_port := load_le 2 block 16
    unused := (block.drop 18).take 0x0E }

/-- The local variables of on_client_input the command callback assigns
(ProxyServer.cc, 276-280). -/
structure LoginState where
  license : Option License
  sub_version : Nat
  character_name : List Nat
  client_config : ClientConfig
  login_command_bb : List Nat
  deriving DecidableEq, Repr

/-- The callback on_client_input runs on one received command (ProxyServer.cc,
284-325): the variables afterwards, or the exception. -/
def on_client_input_command (services : LoginServices) (records : UnlinkedLoginRecords)
    (version : GameVersion) (vars : LoginState) (command : Nat) (data : List Nat) :
    Except String LoginState :=
  match version with
  | .PC =>
    if command ≠ 0x9D then .error "command is not 9D"
    else
      let T := records.C_Login_PC_9D
      match check_size_t data.length T.sizeof records.sizeof_C_LoginWithUnusedSpace_PC_9D with
      | .error e => .error e
      | .ok _ =>
        match services.stoul16 (text_field data T.serial_number T.serial_number_size) with
        | .error e => .error e
        | .ok serial =>
          match services.verify_pc (serial % 2 ^ 32)
              (text_field data T.access_key T.access_key_size) with
          | .error e => .error e
          | .ok license =>
            .ok { vars with
                  license := some license
                  sub_version := load_le 4 data T.sub_version
                  character_name := text_field data T.name T.name_size }
  | .GC =>
    if command ≠ 0x9E then .error "command is not 9E"
    else
      let G := records.C_LoginWithUnusedSpace_GC_9E
      let T := G.base
      match check_size_t data.length (G.sizeof - G.unused_space_size) G.sizeof with
      | .error e => .error e
      | .ok _ =>
        match services.stoul16 (text_field data T.serial_number T.serial_number_size) with
        | .error e => .error e
        | .ok serial =>
          match services.verify_gc (serial % 2 ^ 32)
              (text_field data T.access_key T.access_key_size) with
          | .error e => .error e
          | .ok license =>
            .ok { vars with
                  license := some license
                  sub_version := load_le 4 data T.sub_version
                  character_name := text_field data T.name T.name_size
                  client_config :=
                    ClientConfig.parse ((data.drop G.client_config).take G.client_config_size) }
  | .BB =>
    if command ≠ 0x93 then .error "command is not 93"
    else
      let T := records.C_Login_BB_93
      match check_size_t data.length T.sizeof T.sizeof with
      | .error e => .error e
      | .ok _ =>
        match services.verify_bb (text_field data T.username T.username_size)
            (text_field data T.password T.password_size) with
        | .error e => .error e
        | .ok license => .ok { vars with license := some license, login_command_bb := data }
  | _ => .error "unsupported unlinked session version"

/-- The loop of for_each_received_command over the commands the transport holds: the
variables when it ends and whether it ended by an exception. -/
def on_client_input_commands (services : LoginServices) (records : UnlinkedLoginRecords)
    (version : GameVersion) : LoginState → List (Nat × Nat × List Nat) → LoginState × Bool
  | vars, [] => (vars, false)
  | vars, (command, _, data) :: rest =>
    match on_client_input_command services records version vars command data with
    | .error _ => (vars, true)
    | .ok vars2 => on_client_input_commands services records version vars2 rest

/-- The third LinkedSession constructor (ProxyServer.cc, 455-468): a licensed session
whose destination is the one in the client config. -/
def LinkedSession.new_with_client_config (local_port : Nat) (version : GameVersion)
    (prev_server_command_bytes_size : Nat) (license : License)
    (newserv_client_config : ClientConfig) : LinkedSession :=
  { LinkedSession.new license.serial_number local_port version
      prev_server_command_bytes_size with
    license := some license
    newserv_client_config := newserv_client_config
    next_destination :=
      { ss_family := AF_INET
        sin_port := htons newserv_client_config.proxy_destination_port
        sin_addr := htonl newserv_client_config.proxy_destination_address } }

/-- The fourth LinkedSession constructor (ProxyServer.cc, 470-480): a licensed session
with a given destination. -/
def LinkedSession.new_licensed (local_port : Nat) (version : GameVersion)
    (prev_server_command_bytes_size : Nat) (license : License)
    (next_destination : Sockaddr) : LinkedSession :=
  { LinkedSession.new license.serial_number local_port version
      prev_server_command_bytes_size with
    license := some license
    next_destination := next_destination }

/-- The erase of the registry of unlinked sessions. -/
def ProxyServer.erase_unlinked_session (server : ProxyServer) (bev_address : Nat) :
    ProxyServer :=
  { server with
    bev_to_unlinked_session :=
      server.bev_to_unlinked_session.filter fun entry => entry.1 ≠ bev_address }

/-- The emplace of the registry of linked sessions: nothing changes when the id is
registered. -/
def ProxyServer.emplace_session (server : ProxyServer) (id : Nat) (session : LinkedSession) :
    ProxyServer :=
  if (server.id_to_session.lookup id).isSome then server
  else { server with id_to_session := server.id_to_session ++ [(id, session)] }

/-- The session on_client_input resumes for a license (ProxyServer.cc, 344-370): the
one registered under the serial number, else a new one for the destination of the
client config when its magic is CLIENT_CONFIG_MAGIC, else a new one for the
destination of the unlinked session when that is an IPv4 address, else none. -/
def session_for_license (CLIENT_CONFIG_MAGIC : Nat) (server : ProxyServer)
    (session : UnlinkedSession) (license : License) (client_config : ClientConfig) :
    Option LinkedSession :=
  match server.id_to_session.lookup license.serial_number with
  | some linked => some linked
  | none =>
    if client_config.magic = CLIENT_CONFIG_MAGIC then
      some (LinkedSession.new_with_client_config session.local_port session.version
        server.prev_server_command_bytes_size license client_config)
    else if session.next_destination.ss_family = AF_INET then
      some (LinkedSession.new_licensed session.local_port session.version
        server.prev_server_command_bytes_size license session.next_destination)
    else none

/-- The resume call on_client_input makes (ProxyServer.cc, 379-385): the session as
resume leaves it, whether it returns or throws. -/
def resume_from_unlinked (env : Env) (session : UnlinkedSession) (vars : LoginState)
    (linked : LinkedSession) : LinkedSession :=
  if session.version = GameVersion.BB then
    (resume_bb env linked session.bev session.crypt_in session.crypt_out
      session.detector_crypt vars.login_command_bb).session
  else
    (resume env linked session.bev session.crypt_in session.crypt_out
      session.detector_crypt vars.sub_version vars.character_name).session

/-- UnlinkedSession::on_client_input (ProxyServer.cc, 274-402) for the unlinked
session registered under the address of a transport, given the commands the
transport holds.  CLIENT_CONFIG_MAGIC is declared in a header that is not among the
sources, and so is ClientConfigBB, whose default-constructed value the variable
client_config starts with: both are arguments. -/
def ProxyServer.on_unlinked_client_input (env : Env) (services : LoginServices)
    (records : UnlinkedLoginRecords) (CLIENT_CONFIG_MAGIC : Nat)
    (default_client_config : ClientConfig) (server : ProxyServer) (bev_address : Nat)
    (commands : List (Nat × Nat × List Nat)) : ProxyServer :=
  match server.bev_to_unlinked_session.lookup bev_address with
  | none => server
  | some session =>
    let looped := on_client_input_commands services records session.version
      { license := none, sub_version := 0, character_name := [],
        client_config := default_client_config, login_command_bb := [] }
      commands
    let vars := looped.1
    match vars.license with
    | none => if looped.2 then server.erase_unlinked_session bev_address else server
    | some license =>
      match session_for_license CLIENT_CONFIG_MAGIC server session license
          vars.client_config with
      | none => server.erase_unlinked_session bev_address
      | some linked =>
        let registered := server.emplace_session license.serial_number linked
        if linked.version ≠ session.version then
          registered.erase_unlinked_session bev_address
        else
          (registered.modify_session license.serial_number
            fun _ => resume_from_unlinked env session vars linked).erase_unlinked_session
            bev_address

/-! ## Further handlers of the server side -/

/-- The static process_server_bb_22 of ProxyCommands.cc (525-542).  The hash function
fnv1a64 belongs to the phosg library, which is not among the sources, and is an
argument. -/
def process_server_bb_22 (fnv1a64 : List Nat → Nat) (session : LinkedSession)
    (data : List Nat) : Outcome :=
  if data.length = 0x2C ∧ fnv1a64 data = 0x8AF8314316A27994 then
    .returned true { session with enable_remote_ip_crc_patch := true } data
  else .returned true session data

/-- The layout of S_CardLobbyGame_GC_E4 (CommandFormats.hh is not among the sources):
the size of the record, the offset of its array of four entries, the size of an
entry and the offset of the guild card number in an entry. -/
structure CardLobbyGameRecord where
  sizeof : Nat
  entries : Nat
  entry_sizeof : Nat
  entry_guild_card_number : Nat
  deriving DecidableEq, Repr

/-- The four entries lie inside the record and the guild card inside its entry. -/
def CardLobbyGameRecord.well_formed (CmdT : CardLobbyGameRecord) : Prop :=
  CmdT.entry_guild_card_number + 4 ≤ CmdT.entry_sizeof ∧
  CmdT.entries + CmdT.entry_sizeof * 4 ≤ CmdT.sizeof

instance (CmdT : CardLobbyGameRecord) : Decidable CmdT.well_formed := by
  unfold CardLobbyGameRecord.well_formed; infer_instance

/-- The loop of process_server_gc_E4 (ProxyCommands.cc, 517-521): x is the loop counter
and count the number of iterations left.  The handler does not test the license: an
iteration that finds the remote guild card on a session without a license
dereferences a null pointer, which is undefined behaviour and ends the handler with
a fault here. -/
def card_lobby_game_entries (CmdT : CardLobbyGameRecord) (session : LinkedSession) :
    Nat → Nat → List Nat → Except String (List Nat)
  | _, 0, data => .ok data
  | x, count + 1, data =>
    let field := CmdT.entries + CmdT.entry_sizeof * x + CmdT.entry_guild_card_number
    if load_le 4 data field = session.remote_guild_card_number then
      match session.license with
      | some license =>
        card_lobby_game_entries CmdT session (x + 1) count
          (store_le 4 data field license.serial_number)
      | none => .error "undefined behaviour: null license"
    else card_lobby_game_entries CmdT session (x + 1) count data

/-- The static process_server_gc_E4 of ProxyCommands.cc (514-523). -/
def process_server_gc_E4 (CmdT : CardLobbyGameRecord) (session : LinkedSession)
    (data : List Nat) : Outcome :=
  match check_size_t data.length CmdT.sizeof CmdT.sizeof with
  | .error e => .threw e session
  | .ok _ =>
    match card_lobby_game_entries CmdT session 0 4 data with
    | .error e => .threw e session
    | .ok data1 => .returned true session data1

/-! ## Subcommands of the game server (ReceiveSubcommands.cc) -/

/-- The function check_size of ReceiveSubcommands.cc (34-48).  The three parameters
are uint16_t, so the arguments are converted; an omitted max_size is 0.  The
messages are cut to their fixed part. -/
def check_size (size min_size max_size : Nat) : Except String Unit :=
  if size % 2 ^ 16 < min_size % 2 ^ 16 then .error "command too small"
  else
    let max_size := if max_size % 2 ^ 16 = 0 then min_size % 2 ^ 16 else max_size % 2 ^ 16
    if size % 2 ^ 16 > max_size then .error "command too large" else .ok ()

/-- The fields of PlayerInventoryItem the subcommand handlers at hand use: game_flags,
data.item_id, and the other bytes of the record read as one number (0 once the record
is zeroed).  The struct is declared in Player.hh, outside the sources at hand. -/
structure PlayerInventoryItem where
  game_flags : Nat
  item_id : Nat
  other : Nat
  deriving DecidableEq, Repr

/-- The struct PlayerInventory of Player.hh: the counters and the array of 30 items. -/
structure PlayerInventory where
  num_items : Nat
  hp_materials_used : Nat
  tp_materials_used : Nat
  language : Nat
  items : List PlayerInventoryItem
  deriving DecidableEq, Repr

/-- The field of the player's display data the bank handler uses. -/
structure PlayerDispData where
  meseta : Nat
  deriving DecidableEq, Repr

/-- The field of the player's bank the bank handler uses. -/
structure PlayerBank where
  meseta : Nat
  deriving DecidableEq, Repr

/-- The fields of Client::player the two handlers read and write; both meseta counters
are uint32_t. -/
structure Player where
  disp : PlayerDispData
  bank : PlayerBank
  inventory : PlayerInventory
  deriving DecidableEq, Repr

/-- The item branches of process_subcommand_bank_action call Player::remove_item,
PlayerBank::add_item, PlayerBank::remove_item, Player::add_item,
Lobby::generate_item_id and two send functions, all defined outside the sources at
hand; what each branch does to the player, given item_id and item_amount, is an
argument of the handler. -/
structure BankItemActions where
  deposit_item : Player → Nat → Nat → Except String Player
  take_item : Player → Nat → Nat → Except String Player

/-- The function process_subcommand_bank_action of ReceiveSubcommands.cc (405-463); the
arguments are l->version, l->is_game(), c->player, the bytes at p and count.  The
record Cmd has size at offset 1, item_id at 4, meseta_amount at 8, action at 12 and
item_amount at 13. -/
def process_subcommand_bank_action (item_actions : BankItemActions) (version : GameVersion)
    (is_game : Bool) (player : Player) (p : List Nat) (count : Nat) : Except String Player :=
  if version = GameVersion.BB then
    match check_size count 4 0 with
    | .error e => .error e
    | .ok _ =>
      let size := p.getD 1 0
      let item_id := load_le 4 p 4
      let meseta_amount := load_le 4 p 8
      let action := p.getD 12 0
      let item_amount := p.getD 13 0
      if is_game = false ∨ size ≠ 4 then .ok player
      else if action = 0 then
        if item_id = 0xFFFFFFFF then
          if meseta_amount > player.disp.meseta then .ok player
          else if (player.bank.meseta + meseta_amount) % 2 ^ 32 > 999999 then .ok player
          else
            .ok { player with
              bank := { meseta := (player.bank.meseta + meseta_amount) % 2 ^ 32 }
              disp := { meseta := (player.disp.meseta + 2 ^ 32 - meseta_amount) % 2 ^ 32 } }
        else item_actions.deposit_item player item_id item_amount
      else if action = 1 then
        if item_id = 0xFFFFFFFF then
          if meseta_amount > player.bank.meseta then .ok player
          else if (player.disp.meseta + meseta_amount) % 2 ^ 32 > 999999 then .ok player
          else
            .ok { player with
              bank := { meseta := (player.bank.meseta + 2 ^ 32 - meseta_amount) % 2 ^ 32 }
              disp := { meseta := (player.disp.meseta + meseta_amount) % 2 ^ 32 } }
        else item_actions.take_item player item_id item_amount
      else .ok player
  else .ok player

/-- A slot of the zeroed PlayerInventory whose data.item_id was set to 0xFFFFFFFF
(ReceiveSubcommands.cc, 485 and 489). -/
def empty_inventory_slot : PlayerInventoryItem :=
  { game_flags := 0, item_id := 0xFFFFFFFF, other := 0 }

/-- The loop of process_subcommand_sort_inventory over the listed ids
(ReceiveSubcommands.cc, 487-494).  PlayerInventory::find_item is defined outside the
sources at hand and is an argument: it returns an index or throws.  An index outside
the array of items is undefined behaviour. -/
def sort_inventory_items (find_item : PlayerInventory → Nat → Except String Nat)
    (inventory : PlayerInventory) : List Nat → Except String (List PlayerInventoryItem)
  | [] => .ok []
  | item_id :: item_ids =>
    if item_id = 0xFFFFFFFF then
      match sort_inventory_items find_item inventory item_ids with
      | .error e => .error e
      | .ok sorted => .ok (empty_inventory_slot :: sorted)
    else
      match find_item inventory item_id with
      | .error e => .error e
      | .ok index =>
        match inventory.items[index]? with
        | none => .error "undefined behaviour: index outside items"
        | some item =>
          match sort_inventory_items find_item inventory item_ids with
          | .error e => .error e
          | .ok sorted => .ok (item :: sorted)

/-- The 30 ids listed in the record Cmd of process_subcommand_sort_inventory: item_ids
starts at offset 4. -/
def sort_inventory_item_ids (p : List Nat) : List Nat :=
  (List.range 30).map fun x => load_le 4 p (4 + 4 * x)

/-- The function process_subcommand_sort_inventory of ReceiveSubcommands.cc (466-502);
the arguments are l->version, c->player, the bytes at p and count. -/
def process_subcommand_sort_inventory
    (find_item : PlayerInventory → Nat → Except String Nat) (version : GameVersion)
    (player : Player) (p : List Nat) (count : Nat) : Except String Player :=
  if version = GameVersion.BB then
    match check_size count 31 0 with
    | .error e => .error e
    | .ok _ =>
      if p.getD 1 0 ≠ 31 then .ok player
      else
        match sort_inventory_items find_item player.inventory (sort_inventory_item_ids p) with
        | .error e => .error e
        | .ok sorted =>
          .ok { player with
            inventory :=
              { items := sorted
                num_items := player.inventory.num_items
                hp_materials_used := player.inventory.hp_materials_used
                tp_materials_used := player.inventory.tp_materials_used
                language := player.inventory.language } }
  else .ok player

/-- The item the loop of the sort leaves in a slot for a listed id that is accepted. -/
def sorted_slot (find_item : PlayerInventory → Nat → Except String Nat)
    (inventory : PlayerInventory) (item_id : Nat) : PlayerInventoryItem :=
  if item_id = 0xFFFFFFFF then empty_inventory_slot
  else
    match find_item inventory item_id with
    | .error _ => empty_inventory_slot
    | .ok index => inventory.items.getD index empty_inventory_slot

/-! ## Concrete sessions and payloads used as instances -/

/-- An environment for the concrete instances: the socket layer reports an IPv4
listener at 10.0.0.1, port 9100, and every connection attempt succeeds. -/
def example_env : Env :=
  { random_u64 := 0x0123456789ABCDEF
    now := 1650000000000000
    crc32 := fun _ => 0xDEADBEEF
    decode_sjis := fun m => m
    encode_sjis := fun m => m
    getsockname := fun _ => { ss_family := AF_INET, sin_port := htons 9100, sin_addr := 0x0100000A }
    socket_connect_ok := fun _ => true
    memory_after_data := []
    add_color_inplace := fun text => text
    random_server_key := 0x11111111
    random_client_key := 0x22222222
    random_server_key_bb := List.replicate 0x30 0x33
    random_client_key_bb := List.replicate 0x30 0x44
    prepare_server_init_contents_dc_pc_gc := fun server_key client_key =>
      List.replicate 0x40 0 ++ le_bytes 4 server_key ++ le_bytes 4 client_key
    prepare_server_init_contents_bb := fun server_key client_key =>
      List.replicate 0x60 0 ++ server_key ++ client_key }

/-- The license of scenario E1. -/
def example_license : License :=
  { serial_number := 0x12345678, access_key := [], gc_password := [] }

/-- A connected licensed session on the PC dialect with serial 0x12345678, an 8-byte
prev_server_command_bytes array and a client on a virtual connection. -/
def example_session : LinkedSession :=
  { LinkedSession.new 0x12345678 9100 GameVersion.PC 8 with
    license := some example_license
    client_bev := some { fd := -1 }
    server_bev := some { fd := -1 }
    next_destination := { ss_family := AF_INET, sin_port := htons 9100, sin_addr := 0x0100000A } }

/-- The 0x04 payload of scenario E1: the remote server assigns guild card 7777777. -/
def example_04 : List Nat :=
  le_bytes 4 0x00010000 ++ le_bytes 4 7777777 ++ List.replicate 0x20 0

/-- The session of scenario E1 once the remote server has assigned guild card 7777777. -/
def example_session_assigned : LinkedSession :=
  { example_session with remote_guild_card_number := 7777777 }

/-- A 0x06 payload whose guild-card field holds the remote number 7777777. -/
def example_06 : List Nat :=
  le_bytes 4 0 ++ le_bytes 4 7777777 ++ [0x68, 0x69, 0x00, 0x00]

/-- A 0x41 payload: the searcher is the remote number 7777777, the result is player 42. -/
def example_41 : List Nat :=
  le_bytes 4 0x00010000 ++ le_bytes 4 7777777 ++ le_bytes 4 42 ++ List.replicate 0xB4 0

/-- A 0x81 payload: mail from player 42 to the remote number 7777777. -/
def example_81 : List Nat :=
  le_bytes 4 0x00010000 ++ le_bytes 4 42 ++ List.replicate 0x10 0 ++ le_bytes 4 7777777 ++
    List.replicate 0x200 0

/-- The 0x40 payload of scenario E1: the client searches for its own serial. -/
def example_40 : List Nat :=
  le_bytes 4 0x00010000 ++ le_bytes 4 0x12345678 ++ le_bytes 4 0x12345678

/-- A 0x88 payload of two entries: the remote number 7777777 and player 42. -/
def example_88 : List Nat :=
  le_bytes 4 0x00010000 ++ le_bytes 4 7777777 ++ le_bytes 4 1 ++
    (le_bytes 4 0x00010000 ++ le_bytes 4 42 ++ le_bytes 4 2)

/-- A 0xC4 payload of two entries, for the remote number 7777777 and for player 42,
followed by four trailing bytes. -/
def example_C4 : List Nat :=
  le_bytes 4 7777777 ++ List.replicate 0xD0 0 ++ (le_bytes 4 42 ++ List.replicate 0xD0 0) ++
    [0xDE, 0xAD, 0xBE, 0xEF]

/-- A server state for the concrete instances. -/
def example_server_state : ServerState :=
  { name := str_bytes "newserv"
    name_to_port_config := [("pc-login", 9100), ("gc-us3", 9103), ("bb-login", 12000)]
    bb_private_keys := [] }

/-- The resumed D5 session of scenario E2: a detector cipher is present, the saved
login command has 0x98 zero bytes, the CRC patch flag is on and remote_ip_crc is
0xDEADBEEF. -/
def example_bb_session : LinkedSession :=
  { LinkedSession.new 0x12345678 12000 GameVersion.BB 8 with
    license := some example_license
    client_bev := some { fd := -1 }
    server_bev := some { fd := -1 }
    detector_crypt :=
      some { possible_keys := [], expected_first_data := [0xB4, 0, 0x93, 0, 0, 0, 0, 0],
             seed := [] }
    login_command_bb := List.replicate 0x98 0
    enable_remote_ip_crc_patch := true
    remote_ip_crc := 0xDEADBEEF }

/-- A server-init 0x03 payload without after_message. -/
def example_bb_03 : List Nat := List.replicate 0xC0 0

/-- The session of scenario E3: the pinned function-call return value is 0x12345678. -/
def example_session_blocking : LinkedSession :=
  { example_session with version := GameVersion.GC, function_call_return_value := 0x12345678 }

/-- The session of scenario E4: a licensed D4 client in roster slot 0 (its own entry
carries its serial), another player with guild card 42 in slot 1, the other ten
slots empty. -/
def example_lobby_session : LinkedSession :=
  { example_session with
    version := GameVersion.GC
    lobby_client_id := 0
    lobby_players :=
      [{ guild_card_number := 0x12345678, name := str_bytes "me" },
       { guild_card_number := 42, name := str_bytes "other" }] ++
        List.replicate 10 { guild_card_number := 0, name := [] } }

/-- The session of scenario E5: the saved bytes of the previous server command are
AA BB CC DD EE FF 00 11. -/
def example_session_E5 : LinkedSession :=
  { example_session with
    version := GameVersion.GC
    prev_server_command_bytes := [0xAA, 0xBB, 0xCC, 0xDD, 0xEE, 0xFF, 0x00, 0x11] }

/-- A direct patch-dialect session whose server-side ciphers are armed. -/
def example_patch_session : LinkedSession :=
  { LinkedSession.new 0xFF00000000000001 11000 GameVersion.PATCH 8 with
    client_bev := some { fd := 7 }
    server_bev := some { fd := 8 }
    next_destination := { ss_family := AF_INET, sin_port := htons 11000, sin_addr := 0x0100000A }
    client_input_crypt := some (Crypt.PSOPCEncryption 1)
    client_output_crypt := some (Crypt.PSOPCEncryption 2)
    server_input_crypt := some (Crypt.PSOPCEncryption 3)
    server_output_crypt := some (Crypt.PSOPCEncryption 4) }

/-- A 0x06 payload whose text starts with a tab, the letter C and a dollar sign. -/
def example_chat_tab_C : List Nat := List.replicate 8 0 ++ [0x09, 0x43, 0x24, 0x00]

/-- A 0x06 payload whose text starts with a tab, the letter E and a dollar sign. -/
def example_chat_tab_E : List Nat := List.replicate 8 0 ++ [0x09, 0x45, 0x24, 0x00]

/-- Modelled from the spec: G_SendGuildCard_GC_6x06 is the four-byte subcommand
header, player_tag, guild_card_number, a 0x18-byte name, a 0x6C-byte description
and four single bytes. -/
def G_SendGuildCard_GC_6x06 : CardEntry := { sizeof := 0x94, guild_card_number := 8 }

/-- A connected GC session without a license whose infinite-HP flag is set. -/
def example_unlicensed_hp_session : LinkedSession :=
  { example_session with version := GameVersion.GC, license := none, infinite_hp := true }

/-- A connected licensed PC session whose infinite-HP flag is set. -/
def example_pc_hp_session : LinkedSession :=
  { example_session with infinite_hp := true }

/-- A connected licensed GC session in roster slot 2 whose infinite-HP and infinite-TP
flags are set. -/
def example_gc_hp_session : LinkedSession :=
  { example_session with
    version := GameVersion.GC, infinite_hp := true, infinite_tp := true, lobby_client_id := 2 }

/-- A take-damage subcommand 0x2F of two words. -/
def example_take_damage : List Nat := [0x2F, 0x02, 0x00, 0x00, 0x10, 0x00, 0x00, 0x00]

/-- A connected session with switch assist enabled. -/
def example_assist_session : LinkedSession :=
  { example_session with enable_switch_assist := true }

/-- A switch subcommand 0x05 enabling switch 0x0010. -/
def example_switch_A : List Nat :=
  [0x05, 0x03, 0x10, 0x00, 0, 0, 0, 0, 0, 0, 0x01, 0x01]

/-- A switch subcommand 0x05 enabling switch 0x0011. -/
def example_switch_B : List Nat :=
  [0x05, 0x03, 0x11, 0x00, 0, 0, 0, 0, 0, 0, 0x01, 0x01]

/-- Modelled from the spec: S_JoinLobby_GC_65_67_68 is a 12-byte header (client_id,
leader_id, disable_udp, lobby_number, block_number, event, an unused word) followed
by entries of 0x43C bytes; an entry starts with the lobby data (player_tag,
guild_card, the address, client_id, a name), then the inventory of 0x34C bytes and
the display data, whose name field is 0x10 bytes at offset 0x24. -/
def S_JoinLobby_GC_65_67_68 : JoinLobbyRecord :=
  { client_id := 0
    lobby_number := 3
    lobby_number_size := 1
    event := 6
    event_size := 2
    entries := 0x0C
    entry_sizeof := 0x43C
    entry_client_id := 0x0C
    entry_guild_card := 4
    entry_name := fun entry => c_str ((entry.drop 0x390).take 0x10) }

/-- Modelled from the spec: S_JoinGame_GC_64 is the 0x80 bytes of variations, four
lobby-data entries of 0x20 bytes, a 16-byte header starting at 0x100 (client_id,
leader_id, disable_udp, difficulty, battle_mode, event, section_id, ...) and, at
0x110, the four episode-3 player records of 0x41C bytes. -/
def S_JoinGame_GC_64 : JoinGameRecord :=
  { sizeof := 0x1180
    players_ep3 := 0x110
    client_id := 0x100
    section_id := 0x106
    section_id_size := 1
    event := 0x105
    event_size := 1
    lobby_data := 0x80
    lobby_data_sizeof := 0x20
    lobby_data_guild_card := 4
    players_ep3_name := fun data x => c_str ((data.drop (0x110 + 0x41C * x + 0x370)).take 0x10) }

/-- Flag masks for the concrete instances. -/
def example_client_flags : ClientFlag :=
  { SAVE_ENABLED := 0x0004
    NO_MESSAGE_BOX_CLOSE_CONFIRMATION := 0x0020
    NO_MESSAGE_BOX_CLOSE_CONFIRMATION_AFTER_LOBBY_JOIN := 0x0010 }

/-- One lobby-data record of the GC dialect: player_tag, guild card, address, client
id and a 0x10-byte name. -/
def example_lobby_data (guild_card client_id : Nat) : List Nat :=
  le_bytes 4 0x00010000 ++ le_bytes 4 guild_card ++ le_bytes 4 0 ++ le_bytes 4 client_id ++
    List.replicate 0x10 0

/-- A lobby-join payload with one entry: the player with the given guild card in the
given slot; the client itself is in slot 0. -/
def example_join_lobby (guild_card client_id : Nat) : List Nat :=
  [0x00, 0x00, 0x01, 0x01] ++ le_bytes 2 1 ++ le_bytes 2 0 ++ le_bytes 4 0 ++
    (example_lobby_data guild_card client_id ++ List.replicate 0x41C 0)

/-- A game-join payload without the episode-3 records: the client alone, in slot 0,
with the remote guild card 7777777. -/
def example_join_game : List Nat :=
  List.replicate 0x80 0 ++
    (example_lobby_data 7777777 0 ++ List.replicate 0x60 0) ++
    List.replicate 0x10 0

/-- A leave payload for slot 1. -/
def example_leave : List Nat := [0x01, 0x00, 0x00, 0x00]

/-- The session of scenario E4 once the remote server has assigned guild card
7777777. -/
def example_lobby_session_assigned : LinkedSession :=
  { example_lobby_session with remote_guild_card_number := 7777777 }

/-- A server with the session of scenario E4 registered under its serial number. -/
def example_proxy_server : ProxyServer :=
  { ProxyServer.new 6 with id_to_session := [(0x12345678, example_lobby_session)] }

/-- The handler functions of the GC tables that the instances use: every other table
entry is given the default handler. -/
def example_run (env : Env) (state : ServerState) :
    Handler → LinkedSession → Nat → Nat → List Nat → Outcome
  | .process_server_88, session, _, flag, data => process_server_88 session flag data
  | .process_server_B2, session, _, flag, data => process_server_B2 env session flag data
  | .process_server_66_69, session, _, _, data => process_server_66_69 session data
  | .process_client_dc_pc_gc_A0_A1, session, _, _, data =>
    process_client_dc_pc_gc_A0_A1 state env session data
  | _, session, _, _, data => .returned true session data

/-- The session of scenario E3 with the client attached and no server transport. -/
def example_session_server_absent : LinkedSession :=
  { example_session_blocking with server_bev := none }

/-- Modelled from the spec: C_Login_PC_9D is the player tag, the guild card number,
a 64-bit unused field, the sub-version, 0x24 unused bytes, the serial number and
access key as 0x10-byte texts, both again as 0x30-byte texts, and the 0x10-byte
character name. -/
def C_Login_PC_9D : LoginRecord :=
  { sizeof := 0xC8
    player_tag := 0
    guild_card_number := 4
    unused := 8
    sub_version := 0x10
    unused2 := 0x14
    unused2_size := 0x24
    serial_number := 0x38
    serial_number_size := 0x10
    access_key := 0x48
    access_key_size := 0x10
    serial_number2 := 0x58
    serial_number2_size := 0x30
    access_key2 := 0x88
    access_key2_size := 0x30
    name := 0xB8
    name_size := 0x10 }

/-- Modelled from the spec: C_LoginWithUnusedSpace_GC_9E is a C_Login_PC_9D followed
by the 0x20-byte client config and 0x64 bytes of unused space. -/
def C_LoginWithUnusedSpace_GC_9E : LoginWithUnusedSpaceRecord :=
  { base := C_Login_PC_9D
    client_config := 0xC8
    client_config_size := 0x20
    unused_space := 0xE8
    unused_space_size := 0x64
    sizeof := 0x14C }

/-- Modelled from the spec: C_VerifyLicense_GC_DB is 0x20 unused bytes, the serial
number and access key as 0x10-byte texts, 8 unused bytes, the sub-version, and the
serial number, access key and password as 0x30-byte texts. -/
def C_VerifyLicense_GC_DB : VerifyLicenseRecord :=
  { sizeof := 0xDC
    serial_number := 0x20
    serial_number_size := 0x10
    access_key := 0x30
    access_key_size := 0x10
    sub_version := 0x48
    serial_number2 := 0x4C
    serial_number2_size := 0x30
    access_key2 := 0x7C
    access_key2_size := 0x30
    password := 0xAC
    password_size := 0x30 }

/-- The three login record layouts of the concrete instances. -/
def example_login_records : LoginRecords :=
  { C_Login_PC_9D := C_Login_PC_9D
    C_VerifyLicense_GC_DB := C_VerifyLicense_GC_DB
    C_LoginWithUnusedSpace_GC_9E := C_LoginWithUnusedSpace_GC_9E }

/-- A server-init payload without after_message: the copyright text, the server seed
0x11111111 and the client seed 0x22222222. -/
def example_server_init : List Nat :=
  List.replicate 0x40 0x20 ++ le_bytes 4 0x11111111 ++ le_bytes 4 0x22222222

/-- A licensed GC session resumed from an unlinked session, whose client-side ciphers
carry the seeds the proxy drew for its own handshake with the client. -/
def example_resumed_gc_session : LinkedSession :=
  { example_lobby_session with
    client_input_crypt := some (Crypt.PSOGCEncryption 0xAAAAAAAA)
    client_output_crypt := some (Crypt.PSOGCEncryption 0xBBBBBBBB) }

/-- A connected GC session without a license. -/
def example_unlicensed_gc_session : LinkedSession :=
  { example_lobby_session with license := none }

/-- A GC session with file saving on and one open file, quest.bin, of which 0x500
bytes are still expected. -/
def example_saving_session : LinkedSession :=
  { example_lobby_session with
    save_files := true
    saving_files :=
      [(str_bytes "quest.bin",
        { basename := str_bytes "quest.bin"
          output_filename := str_bytes "quest.bin.online.1650000000000000"
          remaining_bytes := 0x500
          f := [] })] }

/-- A chunk command for quest.bin that declares the given number of bytes. -/
def example_chunk (data_size : Nat) : List Nat :=
  str_bytes "quest.bin" ++ List.replicate 7 0 ++ List.replicate 0x400 0xAB ++
    le_bytes 4 data_size

/-- The episode-3 bit of the client flags in the concrete instances. -/
def example_EPISODE_3_GAMES : Nat := 0x0002

/-- A lobby of four slots: client 1 (episode 3) in slot 0, client 2 in slot 1, slot 2
empty, client 3 (episode 3) in slot 3. -/
def example_lobby : Lobby :=
  { max_clients := 4
    clients :=
      [some { address := 1, flags := 0x0002 }, some { address := 2, flags := 0 }, none,
       some { address := 3, flags := 0x0002 }] }

/-- Login services that accept every login for the license of the concrete instances. -/
def example_services : LoginServices :=
  { stoul16 := fun _ => .ok 0x12345678
    verify_pc := fun _ _ => .ok example_license
    verify_gc := fun _ _ => .ok example_license
    verify_bb := fun _ _ => .ok example_license }

/-- The record layouts of the concrete logins; the BB login record is taken as 0xB4
bytes with the user name at 0x14 and the password at 0x44. -/
def example_unlinked_records : UnlinkedLoginRecords :=
  { C_Login_PC_9D := C_Login_PC_9D
    sizeof_C_LoginWithUnusedSpace_PC_9D := 0x14C
    C_LoginWithUnusedSpace_GC_9E := C_LoginWithUnusedSpace_GC_9E
    C_Login_BB_93 :=
      { sizeof := 0xB4, username := 0x14, username_size := 0x30, password := 0x44,
        password_size := 0x30 } }

/-- The magic sentinel of the concrete instances. -/
def example_CLIENT_CONFIG_MAGIC : Nat := 0x492A890E82AC9839

/-- A client config without the magic sentinel. -/
def example_default_client_config : ClientConfig :=
  { magic := 0, bb_game_state := 0, bb_player_index := 0, flags := 0,
    proxy_destination_address := 0, proxy_destination_port := 0,
    unused := List.replicate 0x0E 0 }

/-- A client config with the magic sentinel and the destination 10.0.0.1, port 9100. -/
def example_proxy_client_config : ClientConfig :=
  { example_default_client_config with
    magic := 0x492A890E82AC9839
    proxy_destination_address := 0x0A000001
    proxy_destination_port := 9100 }

/-- A GC login command without the unused space that carries the given client
config. -/
def example_login_9E (client_config : ClientConfig) : List Nat :=
  List.replicate 0xC8 0 ++ client_config.bytes

/-- An unlinked GC session on the transport with descriptor 7, after the server-init
the proxy sent it. -/
def example_unlinked_gc : UnlinkedSession :=
  { UnlinkedSession.new { fd := 7 } 9103 GameVersion.GC with
    crypt_in := some (Crypt.PSOGCEncryption 0xAAAAAAAA)
    crypt_out := some (Crypt.PSOGCEncryption 0xBBBBBBBB) }

/-- A server with the unlinked GC session registered under the address 100 and the
given linked sessions. -/
def example_unlinked_server (id_to_session : List (Nat × LinkedSession)) : ProxyServer :=
  { ProxyServer.new 8 with
    id_to_session := id_to_session
    bev_to_unlinked_session := [(100, example_unlinked_gc)] }

/-- A hash function that maps every payload to the value process_server_bb_22 looks
for. -/
def example_fnv1a64 : List Nat → Nat := fun _ => 0x8AF8314316A27994

/-- A full 0x04 payload whose 0x20 config bytes are all 0xC5. -/
def example_04_full : List Nat :=
  le_bytes 4 0x00010000 ++ le_bytes 4 7777777 ++ List.replicate 0x20 0xC5

/-- A short 0x04 payload that carries four config bytes, all 0xC5. -/
def example_04_short : List Nat :=
  le_bytes 4 0x00010000 ++ le_bytes 4 7777777 ++ List.replicate 4 0xC5

/-- The environment of the concrete instances with 0x20 bytes of 0xEE in the memory
behind the payload buffer. -/
def example_env_memory : Env :=
  { example_env with memory_after_data := List.replicate 0x20 0xEE }

/-- Item branches that leave the player as it is; the meseta branches do not call them. -/
def example_item_actions : BankItemActions :=
  { deposit_item := fun player _ _ => .ok player
    take_item := fun player _ _ => .ok player }

/-- An empty inventory of 30 slots. -/
def example_empty_inventory : PlayerInventory :=
  { num_items := 0, hp_materials_used := 0, tp_materials_used := 0, language := 0,
    items := List.replicate 30 empty_inventory_slot }

/-- A player carrying 500 meseta with 1000 meseta in the bank. -/
def example_player : Player :=
  { disp := { meseta := 500 }, bank := { meseta := 1000 },
    inventory := example_empty_inventory }

/-- The subcommand 0xBD that deposits 100 meseta. -/
def example_deposit_100 : List Nat :=
  [0xBD, 0x04, 0x00, 0x00] ++ le_bytes 4 0xFFFFFFFF ++ le_bytes 4 100 ++
    [0x00, 0x00, 0x00, 0x00]

/-- A find_item that searches the first num_items slots for the id and throws when no
slot holds it. -/
def example_find_item (inventory : PlayerInventory) (item_id : Nat) : Except String Nat :=
  match (inventory.items.take inventory.num_items).findIdx?
      (fun item => decide (item.item_id = item_id)) with
  | some index => .ok index
  | none => .error "item not present"

/-- An inventory item with id 1. -/
def example_item_A : PlayerInventoryItem := { game_flags := 0, item_id := 1, other := 0xAA }

/-- An inventory item with id 2. -/
def example_item_B : PlayerInventoryItem := { game_flags := 8, item_id := 2, other := 0xBB }

/-- A player holding the two items in the first two of 30 slots. -/
def example_sort_player : Player :=
  { disp := { meseta := 500 }, bank := { meseta := 1000 },
    inventory :=
      { num_items := 2, hp_materials_used := 3, tp_materials_used := 4, language := 1,
        items := [example_item_A, example_item_B] ++ List.replicate 28 empty_inventory_slot } }

/-- The subcommand 0xC4 that lists the ids a and b and then 28 times 0xFFFFFFFF. -/
def example_sort (a b : Nat) : List Nat :=
  [0xC4, 0x1F, 0x00, 0x00] ++ le_bytes 4 a ++ le_bytes 4 b ++
    (List.replicate 28 (le_bytes 4 0xFFFFFFFF)).flatten

/-- A connected licensed session whose prev_server_command_bytes array holds 6 bytes,
the size the comment of process_server_game_19_patch_14 states, with a client on a
virtual connection. -/
def example_session_six : LinkedSession :=
  { LinkedSession.new 0x12345678 9100 GameVersion.GC 6 with
    license := some example_license
    client_bev := some { fd := -1 }
    server_bev := some { fd := -1 }
    next_destination := { ss_family := AF_INET, sin_port := htons 9100, sin_addr := 0x0100000A } }

/-- The session of scenario E5 with a 6-byte array: the saved bytes of the previous
server command are AA BB CC DD EE FF. -/
def example_session_E5_six : LinkedSession :=
  { example_session_six with
    prev_server_command_bytes := [0xAA, 0xBB, 0xCC, 0xDD, 0xEE, 0xFF] }

theorem le_bytes_length (n v : Nat) : (le_bytes n v).length = n := by
  induction n generalizing v with
  | zero => rfl
  | succ n ih => simp [le_bytes, ih]

theorem le_value_le_bytes (n v : Nat) : le_value (le_bytes n v) = v % 256 ^ n := by
  induction n generalizing v with
  | zero => simp [le_bytes, le_value, Nat.mod_one]
  | succ n ih =>
    simp only [le_bytes, le_value, ih]
    rw [pow_succ, Nat.mul_comm (256 ^ n) 256, Nat.mod_mul]

theorem store_bytes_length (data bs : List Nat) (off : Nat)
    (h : off + bs.length ≤ data.length) : (store_bytes data off bs).length = data.length := by
  simp [store_bytes]
  omega

theorem store_bytes_getElem?_lt (data bs : List Nat) (off i : Nat)
    (h : off ≤ data.length) (hi : i < off) : (store_bytes data off bs)[i]? = data[i]? := by
  unfold store_bytes
  rw [List.append_assoc, List.getElem?_append_left (by simp only [List.length_append, List.length_take]; omega), List.getElem?_take]
  simp [hi]

theorem store_bytes_getElem?_ge (data bs : List Nat) (off i : Nat)
    (h : off + bs.length ≤ data.length) (hi : off + bs.length ≤ i) :
    (store_bytes data off bs)[i]? = data[i]? := by
  unfold store_bytes
  rw [List.getElem?_append_right (by simp only [List.length_append, List.length_take]; omega), List.getElem?_drop]
  simp
  congr 1
  omega

theorem store_bytes_getElem?_mid (data bs : List Nat) (off i : Nat)
    (h : off ≤ data.length) (hi : i < bs.length) :
    (store_bytes data off bs)[off + i]? = bs[i]? := by
  unfold store_bytes
  rw [List.append_assoc, List.getElem?_append_right (by simp only [List.length_append, List.length_take]; omega),
    List.getElem?_append_left (by simp only [List.length_append, List.length_take]; omega)]
  simp
  congr 1
  omega

theorem take_drop_congr (a b : List Nat) (off n : Nat)
    (h : ∀ i, off ≤ i → i < off + n → a[i]? = b[i]?) :
    (a.drop off).take n = (b.drop off).take n := by
  apply List.ext_getElem?
  intro i
  by_cases hi : i < n
  · simp [List.getElem?_take, hi]
    exact h (off + i) (by omega) (by omega)
  · simp [List.getElem?_take, hi]

theorem load_le_congr (a b : List Nat) (off n : Nat)
    (h : ∀ i, off ≤ i → i < off + n → a[i]? = b[i]?) : load_le n a off = load_le n b off := by
  unfold load_le
  rw [take_drop_congr a b off n h]

theorem take_drop_store_bytes (data bs : List Nat) (off : Nat) (h : off ≤ data.length) :
    ((store_bytes data off bs).drop off).take bs.length = bs := by
  unfold store_bytes
  rw [List.append_assoc, List.drop_append_of_le_length (by simp only [List.length_append, List.length_take]; omega)]
  simp [List.drop_take, h]

theorem store_le_length (data : List Nat) (off n v : Nat) (h : off + n ≤ data.length) :
    (store_le n data off v).length = data.length := by
  unfold store_le
  exact store_bytes_length data _ off (by rw [le_bytes_length]; exact h)

theorem store_le_getElem?_other (data : List Nat) (off n v i : Nat)
    (h : off + n ≤ data.length) (hi : i < off ∨ off + n ≤ i) :
    (store_le n data off v)[i]? = data[i]? := by
  unfold store_le
  rcases hi with hi | hi
  · exact store_bytes_getElem?_lt data _ off i (by omega) hi
  · exact store_bytes_getElem?_ge data _ off i (by rw [le_bytes_length]; exact h)
      (by rw [le_bytes_length]; exact hi)

theorem load_le_store_le (data : List Nat) (off n v : Nat) (h : off + n ≤ data.length) :
    load_le n (store_le n data off v) off = v % 256 ^ n := by
  unfold load_le store_le
  have key := take_drop_store_bytes data (le_bytes n v) off (by omega)
  rw [le_bytes_length] at key
  rw [key, le_value_le_bytes]

theorem load_le_store_le_other (data : List Nat) (off n v off2 m : Nat)
    (h : off + n ≤ data.length) (hd : off2 + m ≤ off ∨ off + n ≤ off2) :
    load_le m (store_le n data off v) off2 = load_le m data off2 := by
  apply load_le_congr
  intro i h1 h2
  exact store_le_getElem?_other data off n v i h (by omega)

theorem replace_card_length (data : List Nat) (off old new : Nat)
    (h : off + 4 ≤ data.length) : (replace_card data off old new).length = data.length := by
  unfold replace_card
  split
  · exact store_le_length data off 4 new h
  · rfl

theorem replace_card_getElem?_other (data : List Nat) (off old new i : Nat)
    (h : off + 4 ≤ data.length) (hi : i < off ∨ off + 4 ≤ i) :
    (replace_card data off old new)[i]? = data[i]? := by
  unfold replace_card
  split
  · exact store_le_getElem?_other data off 4 new i h hi
  · rfl

theorem load_le_replace_card (data : List Nat) (off old new : Nat)
    (h : off + 4 ≤ data.length) (hnew : new < 2 ^ 32) :
    load_le 4 (replace_card data off old new) off =
      if load_le 4 data off = old then new else load_le 4 data off := by
  unfold replace_card
  split
  · rw [load_le_store_le data off 4 new h]
    exact Nat.mod_eq_of_lt (by norm_num at hnew ⊢; exact hnew)
  · rfl

theorem load_le_replace_card_other (data : List Nat) (off old new off2 m : Nat)
    (h : off + 4 ≤ data.length) (hd : off2 + m ≤ off ∨ off + 4 ≤ off2) :
    load_le m (replace_card data off old new) off2 = load_le m data off2 := by
  unfold replace_card
  split
  · exact load_le_store_le_other data off 4 new off2 m h hd
  · rfl

theorem pad4_length (w : List Nat) : (pad4 w).length % 4 = 0 := by
  simp [pad4]
  omega

theorem send_to_end_done (session : LinkedSession) (to_server : Bool) (command flag : Nat)
    (data : List Nat) (hsize : data.length % 4 = 0)
    (hbev : (if to_server then session.server_bev else session.client_bev).isSome) :
    send_to_end session to_server command flag data =
      .done (send_command session to_server command flag data) := by
  unfold send_to_end
  rw [if_neg (by omega)]
  cases hb : (if to_server then session.server_bev else session.client_bev) with
  | none => rw [hb] at hbev; simp at hbev
  | some b => rfl

theorem send_text_message_to_client_done (env : Env) (session : LinkedSession)
    (command : Nat) (message : List Nat) (hbev : session.client_bev.isSome) :
    ∃ payload, send_text_message_to_client env session command message =
      .done (send_command session false command 0 payload) := by
  unfold send_text_message_to_client
  exact ⟨_, send_to_end_done session false command 0 _ (pad4_length _) (by simpa using hbev)⟩

theorem check_size_t_ok (size min_size max_size : Nat) (h1 : min_size ≤ size)
    (h2 : size ≤ max_size) : check_size_t size min_size max_size = .ok () := by
  unfold check_size_t
  rw [if_neg (by omega), if_neg (by omega)]

theorem replace_card_of_ne (data : List Nat) (off old new : Nat)
    (h : load_le 4 data off ≠ old) : replace_card data off old new = data := by
  unfold replace_card
  rw [if_neg h]

/-- Two successive card rewrites on disjoint fields: each field is rewritten exactly
when it held the old value, and a byte changes only inside a field that held it. -/
theorem replace_two_cards (data : List Nat) (f1 f2 old new : Nat)
    (h12 : f1 + 4 ≤ f2) (h2 : f2 + 4 ≤ data.length) (hnew : new < 2 ^ 32) :
    (replace_card (replace_card data f1 old new) f2 old new).length = data.length ∧
    load_le 4 (replace_card (replace_card data f1 old new) f2 old new) f1 =
      (if load_le 4 data f1 = old then new else load_le 4 data f1) ∧
    load_le 4 (replace_card (replace_card data f1 old new) f2 old new) f2 =
      (if load_le 4 data f2 = old then new else load_le 4 data f2) ∧
    ∀ i, (i < f1 ∨ f1 + 4 ≤ i ∨ load_le 4 data f1 ≠ old) →
      (i < f2 ∨ f2 + 4 ≤ i ∨ load_le 4 data f2 ≠ old) →
      (replace_card (replace_card data f1 old new) f2 old new)[i]? = data[i]? := by
  have hl1 : (replace_card data f1 old new).length = data.length :=
    replace_card_length data f1 old new (by omega)
  have hload2 : load_le 4 (replace_card data f1 old new) f2 = load_le 4 data f2 :=
    load_le_replace_card_other data f1 old new f2 4 (by omega) (by omega)
  refine ⟨?_, ?_, ?_, ?_⟩
  · rw [replace_card_length _ f2 old new (by omega), hl1]
  · rw [load_le_replace_card_other _ f2 old new f1 4 (by omega) (by omega)]
    exact load_le_replace_card data f1 old new (by omega) hnew
  · rw [load_le_replace_card _ f2 old new (by omega) hnew, hload2]
  · intro i hi1 hi2
    have step2 : (replace_card (replace_card data f1 old new) f2 old new)[i]? =
        (replace_card data f1 old new)[i]? := by
      rcases hi2 with hi2 | hi2 | hi2
      · exact replace_card_getElem?_other _ f2 old new i (by omega) (Or.inl hi2)
      · exact replace_card_getElem?_other _ f2 old new i (by omega) (Or.inr hi2)
      · have hne : ¬ load_le 4 (replace_card data f1 old new) f2 = old := by
          rw [hload2]; exact hi2
        rw [replace_card_of_ne _ f2 old new hne]
    rw [step2]
    rcases hi1 with hi1 | hi1 | hi1
    · exact replace_card_getElem?_other _ f1 old new i (by omega) (Or.inl hi1)
    · exact replace_card_getElem?_other _ f1 old new i (by omega) (Or.inr hi1)
    · rw [replace_card_of_ne data f1 old new hi1]

/-- The entry loop rewrites the card field of each visited entry exactly when it held
the old value, keeps the length, and changes no byte outside such a field. -/
theorem rewrite_entries_spec (CmdT : CardEntry) (hwf : CmdT.well_formed) (old new : Nat)
    (hnew : new < 2 ^ 32) :
    ∀ (count x : Nat) (data : List Nat), CmdT.sizeof * (x + count) ≤ data.length →
      (rewrite_entries CmdT old new x count data).length = data.length ∧
      (∀ j, x ≤ j → j < x + count →
        load_le 4 (rewrite_entries CmdT old new x count data)
            (CmdT.sizeof * j + CmdT.guild_card_number) =
          (if load_le 4 data (CmdT.sizeof * j + CmdT.guild_card_number) = old then new
           else load_le 4 data (CmdT.sizeof * j + CmdT.guild_card_number))) ∧
      (∀ i,
        (∀ j, x ≤ j → j < x + count →
          i < CmdT.sizeof * j + CmdT.guild_card_number ∨
          CmdT.sizeof * j + CmdT.guild_card_number + 4 ≤ i ∨
          load_le 4 data (CmdT.sizeof * j + CmdT.guild_card_number) ≠ old) →
        (rewrite_entries CmdT old new x count data)[i]? = data[i]?) := by
  unfold CardEntry.well_formed at hwf
  intro count
  induction count with
  | zero =>
    intro x data _
    refine ⟨rfl, ?_, fun _ _ => rfl⟩
    intro j h1 h2
    omega
  | succ count ih =>
    intro x data hlen
    have hmul : CmdT.sizeof * (x + 1) = CmdT.sizeof * x + CmdT.sizeof := Nat.mul_succ _ _
    have hle : CmdT.sizeof * (x + 1) ≤ CmdT.sizeof * (x + (count + 1)) :=
      Nat.mul_le_mul_left _ (by omega)
    have hfield : CmdT.sizeof * x + CmdT.guild_card_number + 4 ≤ data.length := by omega
    have hlen1 : (replace_card data (CmdT.sizeof * x + CmdT.guild_card_number) old new).length =
        data.length := replace_card_length data _ old new hfield
    have hxc : x + 1 + count = x + (count + 1) := by omega
    have hlater : ∀ j, x + 1 ≤ j → CmdT.sizeof * (x + 1) ≤ CmdT.sizeof * j := fun j hj =>
      Nat.mul_le_mul_left _ hj
    have hload1 : ∀ j, x + 1 ≤ j →
        load_le 4 (replace_card data (CmdT.sizeof * x + CmdT.guild_card_number) old new)
            (CmdT.sizeof * j + CmdT.guild_card_number) =
          load_le 4 data (CmdT.sizeof * j + CmdT.guild_card_number) := by
      intro j hj
      have := hlater j hj
      exact load_le_replace_card_other data _ old new _ 4 hfield (by omega)
    obtain ⟨ih1, ih2, ih3⟩ := ih (x + 1)
      (replace_card data (CmdT.sizeof * x + CmdT.guild_card_number) old new)
      (by rw [hlen1, hxc]; exact hlen)
    simp only [rewrite_entries]
    refine ⟨by rw [ih1, hlen1], ?_, ?_⟩
    · intro j h1 h2
      by_cases hj : j = x
      · subst hj
        rw [← load_le_replace_card data _ old new hfield hnew]
        apply load_le_congr
        intro i hi1 hi2
        apply ih3
        intro k hk1 _
        have := hlater k hk1
        left
        omega
      · rw [ih2 j (by omega) (by omega), hload1 j (by omega)]
    · intro i hi
      rw [ih3 i]
      · rcases hi x (le_refl x) (by omega) with h | h | h
        · exact replace_card_getElem?_other data _ old new i hfield (Or.inl h)
        · exact replace_card_getElem?_other data _ old new i hfield (Or.inr h)
        · rw [replace_card_of_ne data _ old new h]
      · intro k hk1 hk2
        rw [hload1 k hk1]
        exact hi k (by omega) (by omega)

theorem take_drop_store_le (data : List Nat) (off n v : Nat) (h : off ≤ data.length) :
    ((store_le n data off v).drop off).take n = le_bytes n v := by
  have key := take_drop_store_bytes data (le_bytes n v) off h
  rw [le_bytes_length] at key
  exact key

theorem store_bytes_zero_full (prev bs : List Nat) (h : prev.length ≤ bs.length) :
    store_bytes prev 0 bs = bs := by
  unfold store_bytes
  rw [List.take_zero, List.nil_append, List.drop_eq_nil_of_le (by omega), List.append_nil]

theorem store_bytes_zero_start (prev bs : List Nat) :
    store_bytes prev 0 bs = bs ++ prev.drop bs.length := by
  unfold store_bytes
  rw [List.take_zero, List.nil_append, Nat.zero_add]
theorem complete_reconnect_payload_length (prev data : List Nat) :
    8 ≤ (complete_reconnect_payload prev data).length := by
  unfold complete_reconnect_payload
  simp only [S_Reconnect_19.sizeof]
  generalize (if data.length < prev.length then data ++ prev.drop data.length else data) = d1
  by_cases h : d1.length < 8
  · rw [if_pos h, List.length_append, List.length_replicate]; omega
  · rw [if_neg h]; omega

theorem forward_command_prev_server_command_bytes (session : LinkedSession)
    (to_server : Bool) (command flag : Nat) (data : List Nat) :
    (forward_command session to_server command flag data).prev_server_command_bytes =
      session.prev_server_command_bytes := by
  unfold forward_command
  split <;> rfl

theorem check_size_t_too_large (size min_size max_size : Nat) (h1 : min_size ≤ size)
    (h2 : max_size < size) : check_size_t size min_size max_size = .error "command too large" := by
  unfold check_size_t
  rw [if_neg (by omega), if_pos (by omega)]

theorem add_hp_subcommands_1020 (lobby_client_id : Nat) :
    add_hp_subcommands lobby_client_id 1020 1020 =
      [0x9A, 0x02, lobby_client_id % 256, 0x00, 0x00, 0x00, PlayerStatsChange.ADD_HP, 0xFF,
       0x9A, 0x02, lobby_client_id % 256, 0x00, 0x00, 0x00, PlayerStatsChange.ADD_HP, 0xFF,
       0x9A, 0x02, lobby_client_id % 256, 0x00, 0x00, 0x00, PlayerStatsChange.ADD_HP, 0xFF,
       0x9A, 0x02, lobby_client_id % 256, 0x00, 0x00, 0x00, PlayerStatsChange.ADD_HP, 0xFF] := by
  rfl

theorem join_lobby_entry_length (CmdT : JoinLobbyRecord) (session : LinkedSession)
    (data : List Nat) (x : Nat) :
    (join_lobby_entry CmdT session data x).1.lobby_players.length =
      session.lobby_players.length := by
  unfold join_lobby_entry
  simp only []
  split
  · rfl
  · simp only [List.length_set]

theorem join_lobby_entries_length (CmdT : JoinLobbyRecord) :
    ∀ (count x : Nat) (session : LinkedSession) (data : List Nat),
      (join_lobby_entries CmdT x count session data).1.lobby_players.length =
        session.lobby_players.length := by
  intro count
  induction count with
  | zero => intro x session data; rfl
  | succ count ih =>
    intro x session data
    simp only [join_lobby_entries]
    rw [ih, join_lobby_entry_length]

/-- A lobby-join command of the expected size is handled: the handler returns
forward=true, and the roster keeps the length it had after the optional reset. -/
theorem process_server_65_67_68_returns (CmdT : JoinLobbyRecord) (flags : ClientFlag)
    (session : LinkedSession) (command flag : Nat) (data : List Nat)
    (hsize : data.length = CmdT.entries + CmdT.entry_sizeof * flag) :
    ∃ s1 d,
      process_server_65_67_68 CmdT flags session command flag data = .returned true s1 d ∧
      s1.lobby_players.length =
        (if command = 0x67 then 12 else session.lobby_players.length) := by
  unfold process_server_65_67_68
  simp only [check_size_t_ok _ _ _ (le_of_eq hsize.symm) (le_of_eq hsize)]
  refine ⟨_, _, rfl, ?_⟩
  rw [join_lobby_entries_length]
  by_cases hc : command = 0x67
  · simp [hc]
  · simp [hc]

theorem resize_lobby_players_length (players : List LobbyPlayer) (n : Nat) :
    (resize_lobby_players players n).length = n := by
  unfold resize_lobby_players
  rw [List.length_append, List.length_take, List.length_replicate]
  omega

/-- The loop of process_server_64 on a licensed session, for iterations that stay
inside the four-entry arrays: it returns, keeps the length of the roster and every
field of the session other than the roster, and leaves the slots it does not visit
as they were. -/
theorem join_game_entries_licensed (CmdT : JoinGameRecord) (license : License) :
    ∀ (count x : Nat) (session : LinkedSession) (data : List Nat),
      session.license = some license → x + count ≤ 4 →
      ∃ s d,
        join_game_entries CmdT x count session data = .returned true s d ∧
        s.lobby_players.length = session.lobby_players.length ∧
        (∀ i, i < x ∨ x + count ≤ i → s.lobby_players[i]? = session.lobby_players[i]?) := by
  intro count
  induction count with
  | zero =>
    intro x session data _ _
    exact ⟨session, data, rfl, rfl, fun _ _ => rfl⟩
  | succ count ih =>
    intro x session data hlicense hx
    have hx4 : ¬ (x ≥ 4) := by omega
    have step : ∀ (p : LobbyPlayer) (d1 : List Nat), ∃ s d,
        join_game_entries CmdT (x + 1) count
          { session with lobby_players := session.lobby_players.set x p } d1 =
          .returned true s d ∧
        s.lobby_players.length = session.lobby_players.length ∧
        (∀ i, i < x ∨ x + (count + 1) ≤ i →
          s.lobby_players[i]? = session.lobby_players[i]?) := by
      intro p d1
      obtain ⟨s, d, h1, h2, h3⟩ := ih (x + 1)
        { session with lobby_players := session.lobby_players.set x p } d1 hlicense (by omega)
      refine ⟨s, d, h1, ?_, ?_⟩
      · rw [h2]; simp only [List.length_set]
      · intro i hi
        rw [h3 i (by omega)]
        simp only []
        rw [List.getElem?_set_ne (by omega)]
    simp only [join_game_entries, if_neg hx4, hlicense]
    by_cases hr : load_le 4 data
        (CmdT.lobby_data + CmdT.lobby_data_sizeof * x + CmdT.lobby_data_guild_card) =
        session.remote_guild_card_number
    · simp only [hr, if_true]
      rw [← hlicense]
      exact step _ _
    · simp only [hr, if_false]
      rw [← hlicense]
      exact step _ _

/-- A game-join command of the expected size with a flag of at most 4 is handled on
a licensed session: the handler returns forward=true, the roster has four entries,
and the slots from the flag on are those of the resized roster it started from. -/
theorem process_server_64_returns (CmdT : JoinGameRecord) (session : LinkedSession)
    (license : License) (flag : Nat) (data : List Nat)
    (hlicense : session.license = some license) (hflag : flag ≤ 4)
    (hsize : data.length = if session.sub_version ≥ 0x40 then CmdT.sizeof else CmdT.players_ep3) :
    ∃ s1 d,
      process_server_64 CmdT session flag data = .returned true s1 d ∧
      s1.lobby_players.length = 4 ∧
      ∀ i, flag ≤ i →
        s1.lobby_players[i]? = (resize_lobby_players session.lobby_players 4)[i]? := by
  obtain ⟨s, d, h1, h2, h3⟩ := join_game_entries_licensed CmdT license flag 0
    { session with
      lobby_players := resize_lobby_players session.lobby_players 4
      lobby_client_id := data.getD CmdT.client_id 0 }
    data hlicense (by omega)
  unfold process_server_64
  simp only [check_size_t_ok _ _ _ (le_of_eq hsize.symm) (le_of_eq hsize), h1]
  refine ⟨_, _, rfl, ?_, ?_⟩
  · rw [h2]; exact resize_lobby_players_length _ _
  · intro i hi
    exact h3 i (Or.inr (by omega))

/-- A change applied through the registry reaches exactly the session under the id. -/
theorem lookup_modify_session (server : ProxyServer) (id : Nat)
    (change : LinkedSession → LinkedSession) :
    (server.modify_session id change).id_to_session.lookup id =
      (server.id_to_session.lookup id).map change := by
  unfold ProxyServer.modify_session
  simp only
  induction server.id_to_session with
  | nil => rfl
  | cons entry rest ih =>
    obtain ⟨k, v⟩ := entry
    by_cases hk : k = id
    · subst hk
      simp only [List.map_cons, if_true, List.lookup_cons, beq_self_eq_true, Option.map_some']
    · have hne : (id == k) = false := by
        simp only [beq_eq_false_iff_ne, ne_eq]
        exact fun h => hk h.symm
      simp only [List.map_cons, if_neg hk, List.lookup_cons, hne]
      exact ih

/-- A change applied through the registry leaves the sessions under other ids. -/
theorem lookup_modify_session_other (server : ProxyServer) (id other : Nat)
    (change : LinkedSession → LinkedSession) (hother : other ≠ id) :
    (server.modify_session id change).id_to_session.lookup other =
      server.id_to_session.lookup other := by
  unfold ProxyServer.modify_session
  simp only
  induction server.id_to_session with
  | nil => rfl
  | cons entry rest ih =>
    obtain ⟨k, v⟩ := entry
    by_cases hk : k = id
    · subst hk
      have hne : (other == k) = false := by
        simp only [beq_eq_false_iff_ne, ne_eq]
        exact hother
      simp only [List.map_cons, if_true, List.lookup_cons, hne]
      exact ih
    · simp only [List.map_cons, if_neg hk, List.lookup_cons]
      rw [ih]

/-- A change applied through the registry leaves the registered ids. -/
theorem modify_session_keys (server : ProxyServer) (id : Nat)
    (change : LinkedSession → LinkedSession) :
    (server.modify_session id change).id_to_session.map Prod.fst =
      server.id_to_session.map Prod.fst := by
  unfold ProxyServer.modify_session
  simp only [List.map_map]
  apply List.map_congr_left
  intro entry _
  simp only [Function.comp]
  split <;> rfl

/-- An entry appended to a registry without the key is found under the key. -/
theorem lookup_append_new {β : Type} (l : List (Nat × β)) (k : Nat) (v : β)
    (hnone : l.lookup k = none) : (l ++ [(k, v)]).lookup k = some v := by
  induction l with
  | nil => simp [List.lookup]
  | cons entry rest ih =>
    obtain ⟨k1, v1⟩ := entry
    by_cases hk : k = k1
    · subst hk
      simp [List.lookup] at hnone
    · have hne : (k == k1) = false := by
        simp only [beq_eq_false_iff_ne, ne_eq]
        exact hk
      simp only [List.lookup, hne] at hnone
      simp only [List.cons_append, List.lookup, hne]
      exact ih hnone

/-- The counter of unlicensed session ids stays in the reserved range when an id is
taken, and the id taken is the counter. -/
theorem take_unlicensed_session_id_range (server : ProxyServer)
    (hlow : 0xFF00000000000001 ≤ server.next_unlicensed_session_id)
    (hhigh : server.next_unlicensed_session_id ≤ 0xFFFFFFFFFFFFFFFF) :
    0xFF00000000000001 ≤ server.take_unlicensed_session_id.2.next_unlicensed_session_id ∧
    server.take_unlicensed_session_id.2.next_unlicensed_session_id ≤ 0xFFFFFFFFFFFFFFFF := by
  simp only [ProxyServer.take_unlicensed_session_id, Nat.reducePow]
  split <;> omega

/-- The counter after on_client_connect is the counter before, or the counter after
an id was taken. -/
theorem on_client_connect_counter (state : ServerState) (env : Env) (server : ProxyServer)
    (bev_address : Nat) (bev : Bufferevent) (listen_port : Nat) (version : GameVersion)
    (default_destination : Option Sockaddr) :
    (server.on_client_connect state env bev_address bev listen_port version
      default_destination).server.next_unlicensed_session_id =
      server.next_unlicensed_session_id ∨
    (server.on_client_connect state env bev_address bev listen_port version
      default_destination).server.next_unlicensed_session_id =
      server.take_unlicensed_session_id.2.next_unlicensed_session_id := by
  unfold ProxyServer.on_client_connect
  split
  · right
    simp only
    split
    · rfl
    · split <;> rfl
  · left
    simp only
    split
    · rfl
    · cases version <;> rfl

/-- The counter of unlicensed session ids is in the reserved range after any
sequence of connections to a server whose counter is in the range. -/
theorem after_connections_range (state : ServerState) (env : Env)
    (connections : List ClientConnection) (server : ProxyServer)
    (hlow : 0xFF00000000000001 ≤ server.next_unlicensed_session_id)
    (hhigh : server.next_unlicensed_session_id ≤ 0xFFFFFFFFFFFFFFFF) :
    0xFF00000000000001 ≤
      (ProxyServer.after_connections state env server connections).next_unlicensed_session_id ∧
    (ProxyServer.after_connections state env server connections).next_unlicensed_session_id ≤
      0xFFFFFFFFFFFFFFFF := by
  induction connections generalizing server with
  | nil => exact ⟨hlow, hhigh⟩
  | cons c rest ih =>
    unfold ProxyServer.after_connections
    have hstep := take_unlicensed_session_id_range server hlow hhigh
    rcases on_client_connect_counter state env server c.bev_address c.bev c.listen_port
      c.version c.default_destination with h | h
    · exact ih _ (by rw [h]; exact hlow) (by rw [h]; exact hhigh)
    · exact ih _ (by rw [h]; exact hstep.1) (by rw [h]; exact hstep.2)

/-- A direct connection leaves a session registered under the id it took. -/
theorem on_client_connect_direct_registers (state : ServerState) (env : Env)
    (server : ProxyServer) (bev_address : Nat) (bev : Bufferevent) (listen_port : Nat)
    (destination : Sockaddr) :
    ((server.on_client_connect state env bev_address bev listen_port GameVersion.PATCH
      (some destination)).server.id_to_session.lookup
        server.take_unlicensed_session_id.1).isSome = true := by
  unfold ProxyServer.on_client_connect
  simp only [decide_True]
  split
  · rename_i h
    exact h
  · rename_i h
    have hnone : server.take_unlicensed_session_id.2.id_to_session.lookup
        server.take_unlicensed_session_id.1 = none :=
      Option.not_isSome_iff_eq_none.mp h
    split <;> simp [ServerStep.server, lookup_append_new _ _ _ hnone]

/-- A direct connection always takes an id from the counter. -/
theorem on_client_connect_direct_counter (state : ServerState) (env : Env)
    (server : ProxyServer) (bev_address : Nat) (bev : Bufferevent) (listen_port : Nat)
    (destination : Sockaddr) :
    (server.on_client_connect state env bev_address bev listen_port GameVersion.PATCH
      (some destination)).server.next_unlicensed_session_id =
      server.take_unlicensed_session_id.2.next_unlicensed_session_id := by
  unfold ProxyServer.on_client_connect
  simp only [decide_True]
  split
  · rfl
  · split <;> rfl

/-- A connect that returns has cancelled the timer, and connect returns when the
destination is an IPv4 address and the socket connects. -/
theorem connect_cancels_timer (env : Env) (session : LinkedSession) :
    (∀ s, connect env session = .done s → s.timeout_usecs = none) ∧
    (session.next_destination.ss_family = AF_INET →
      env.socket_connect_ok session.next_destination = true →
      ∃ s, connect env session = .done s ∧ s.timeout_usecs = none) := by
  unfold connect
  constructor
  · intro s h
    simp only at h
    split at h
    · exact absurd h (by simp)
    · split at h
      · exact absurd h (by simp)
      · injection h with h
        rw [← h]
  · intro hdest hconnect
    simp only [hdest, ne_eq, not_true_eq_false, if_false, hconnect, Bool.true_eq_false]
    exact ⟨_, rfl, rfl⟩

/-- A resume_inner that returns has cancelled the timer, and resume_inner returns when
no client is attached, the destination is an IPv4 address and the socket connects. -/
theorem resume_inner_cancels_timer (env : Env) (session : LinkedSession)
    (client_bev : Bufferevent) (client_input_crypt client_output_crypt : Option Crypt)
    (detector_crypt : Option DetectorCrypt) :
    (∀ s, resume_inner env session client_bev client_input_crypt client_output_crypt
        detector_crypt = .done s → s.timeout_usecs = none) ∧
    (session.client_bev = none → session.next_destination.ss_family = AF_INET →
      env.socket_connect_ok session.next_destination = true →
      ∃ s, resume_inner env session client_bev client_input_crypt client_output_crypt
        detector_crypt = .done s ∧ s.timeout_usecs = none) := by
  unfold resume_inner
  constructor
  · intro s h
    split at h
    · exact absurd h (by simp)
    · split at h
      · exact absurd h (by simp)
      · exact (connect_cancels_timer env _).1 s h
  · intro hclient hdest hconnect
    rw [if_neg (by simp [hclient]), if_neg (by simp [hdest])]
    exact (connect_cancels_timer env _).2 hdest hconnect

/-- A field assignment fills the field exactly. -/
theorem assign_field_length (n : Nat) (value : List Nat) :
    (assign_field n value).length = n := by
  simp [assign_field]

/-- Writing one list of fields after another. -/
theorem write_fields_append (a b : List (Nat × List Nat)) :
    ∀ record, write_fields record (a ++ b) = write_fields (write_fields record a) b := by
  induction a with
  | nil => intro record; rfl
  | cons field rest ih =>
    intro record
    simp only [List.cons_append, write_fields]
    exact ih _

/-- Fields that lie inside the record leave its size. -/
theorem write_fields_length (fields : List (Nat × List Nat)) :
    ∀ record, (∀ f ∈ fields, f.1 + f.2.length ≤ record.length) →
      (write_fields record fields).length = record.length := by
  induction fields with
  | nil => intro record _; rfl
  | cons field rest ih =>
    intro record hfit
    have hfield := hfit field (List.mem_cons_self _ _)
    have hlen := store_bytes_length record field.2 field.1 hfield
    simp only [write_fields]
    rw [ih _ (fun f hf => by rw [hlen]; exact hfit f (List.mem_cons_of_mem _ hf)), hlen]

/-- A byte outside every field written is left as it was. -/
theorem write_fields_getElem?_other (fields : List (Nat × List Nat)) (i : Nat) :
    ∀ record, (∀ f ∈ fields, f.1 + f.2.length ≤ record.length) →
      (∀ f ∈ fields, i < f.1 ∨ f.1 + f.2.length ≤ i) →
      (write_fields record fields)[i]? = record[i]? := by
  induction fields with
  | nil => intro record _ _; rfl
  | cons field rest ih =>
    intro record hfit hout
    have hfield := hfit field (List.mem_cons_self _ _)
    have hlen := store_bytes_length record field.2 field.1 hfield
    simp only [write_fields]
    rw [ih _ (fun f hf => by rw [hlen]; exact hfit f (List.mem_cons_of_mem _ hf))
      (fun f hf => hout f (List.mem_cons_of_mem _ hf))]
    rcases hout field (List.mem_cons_self _ _) with h | h
    · exact store_bytes_getElem?_lt _ _ _ _ (by omega) h
    · exact store_bytes_getElem?_ge _ _ _ _ hfield h

/-- A little-endian field written once, and not overlapped by the fields written
after it, reads back the value written. -/
theorem load_le_write_fields (pre post : List (Nat × List Nat)) (off n v : Nat)
    (record : List Nat)
    (hpre : ∀ f ∈ pre, f.1 + f.2.length ≤ record.length)
    (hfield : off + n ≤ record.length)
    (hpost : ∀ f ∈ post, f.1 + f.2.length ≤ record.length)
    (hdisjoint : ∀ f ∈ post, f.1 + f.2.length ≤ off ∨ off + n ≤ f.1) :
    load_le n (write_fields record (pre ++ (off, le_bytes n v) :: post)) off = v % 256 ^ n := by
  have hlen1 := write_fields_length pre record hpre
  rw [write_fields_append]
  simp only [write_fields]
  have hlen2 : (store_bytes (write_fields record pre) off (le_bytes n v)).length =
      record.length := by
    rw [store_bytes_length _ _ _ (by rw [le_bytes_length, hlen1]; exact hfield), hlen1]
  rw [load_le_congr _ (store_bytes (write_fields record pre) off (le_bytes n v)) off n]
  · exact load_le_store_le _ _ _ _ (by rw [hlen1]; exact hfield)
  · intro i h1 h2
    apply write_fields_getElem?_other
    · intro f hf
      rw [hlen2]
      exact hpost f hf
    · intro f hf
      rcases hdisjoint f hf with h | h
      · right; omega
      · left; omega

/-- The assignments to a login record start with the player tag and the guild card
number; all the others lie after these two fields and inside the record. -/
theorem login_fields_spec (CmdT : LoginRecord) (hwf : CmdT.well_formed)
    (session : LinkedSession) (license : License) (unused : Nat) :
    ∃ tail, login_fields CmdT session license unused =
      (CmdT.player_tag,
        le_bytes 4 (if session.remote_guild_card_number = 0 then 0xFFFF0000 else 0x00010000)) ::
      (CmdT.guild_card_number,
        le_bytes 4 (if session.remote_guild_card_number = 0 then 0xFFFFFFFF
                    else session.remote_guild_card_number)) :: tail ∧
      ∀ f ∈ tail, CmdT.guild_card_number + 4 ≤ f.1 ∧ f.1 + f.2.length ≤ CmdT.sizeof := by
  refine ⟨_, rfl, ?_⟩
  obtain ⟨h1, h2, h3, h4, h5, h6, h7, h8, h9, h10, h11, h12⟩ := hwf
  intro f hf
  simp only [List.mem_cons, List.mem_singleton, List.not_mem_nil, or_false] at hf
  rcases hf with rfl | rfl | rfl | rfl | rfl | rfl | rfl | rfl <;>
    simp only [le_bytes_length, assign_field_length, List.length_singleton] <;>
    omega

/-- The record image built from the login assignments and further fields behind the
C_Login_PC_9D part has the full size, and its player tag and guild card number read
what was assigned. -/
theorem login_record_spec (CmdT : LoginRecord) (hwf : CmdT.well_formed)
    (session : LinkedSession) (license : License) (unused total : Nat)
    (extra : List (Nat × List Nat)) (htotal : CmdT.sizeof ≤ total)
    (hextra : ∀ f ∈ extra, CmdT.sizeof ≤ f.1 ∧ f.1 + f.2.length ≤ total) :
    (write_fields (List.replicate total 0)
      (login_fields CmdT session license unused ++ extra)).length = total ∧
    load_le 4 (write_fields (List.replicate total 0)
      (login_fields CmdT session license unused ++ extra)) CmdT.player_tag =
      (if session.remote_guild_card_number = 0 then 0xFFFF0000 else 0x00010000) ∧
    load_le 4 (write_fields (List.replicate total 0)
      (login_fields CmdT session license unused ++ extra)) CmdT.guild_card_number =
      (if session.remote_guild_card_number = 0 then 0xFFFFFFFF
       else session.remote_guild_card_number % 2 ^ 32) := by
  obtain ⟨tail, hfields, htail⟩ := login_fields_spec CmdT hwf session license unused
  have hwf2 := hwf
  obtain ⟨h1, h2, h3, h4, h5, h6, h7, h8, h9, h10, h11, h12⟩ := hwf2
  have hrest : ∀ f ∈ tail ++ extra,
      CmdT.guild_card_number + 4 ≤ f.1 ∧
      f.1 + f.2.length ≤ (List.replicate total 0).length := by
    intro f hf
    rw [List.length_replicate]
    rcases List.mem_append.mp hf with h | h
    · have := htail f h
      omega
    · have := hextra f h
      omega
  rw [hfields]
  refine ⟨?_, ?_, ?_⟩
  · rw [write_fields_length, List.length_replicate]
    intro f hf
    rw [List.length_replicate]
    simp only [List.cons_append, List.mem_cons] at hf
    rcases hf with rfl | rfl | hf
    · simp only [le_bytes_length]; omega
    · simp only [le_bytes_length]; omega
    · have := hrest f hf
      rw [List.length_replicate] at this
      omega
  · have h := load_le_write_fields [] ((CmdT.guild_card_number,
        le_bytes 4 (if session.remote_guild_card_number = 0 then 0xFFFFFFFF
                    else session.remote_guild_card_number)) :: (tail ++ extra))
      CmdT.player_tag 4
      (if session.remote_guild_card_number = 0 then 0xFFFF0000 else 0x00010000)
      (List.replicate total 0) (fun f hf => absurd hf (List.not_mem_nil f))
      (by rw [List.length_replicate]; omega)
      (by
        intro f hf
        simp only [List.mem_cons] at hf
        rcases hf with rfl | hf
        · simp only [le_bytes_length, List.length_replicate]; omega
        · exact (hrest f hf).2)
      (by
        intro f hf
        simp only [List.mem_cons] at hf
        rcases hf with rfl | hf
        · right; exact h1
        · right; have := (hrest f hf).1; omega)
    simp only [List.nil_append, List.cons_append] at h ⊢
    rw [h]
    split <;> rfl
  · have h := load_le_write_fields [(CmdT.player_tag,
        le_bytes 4 (if session.remote_guild_card_number = 0 then 0xFFFF0000 else 0x00010000))]
      (tail ++ extra) CmdT.guild_card_number 4
      (if session.remote_guild_card_number = 0 then 0xFFFFFFFF
       else session.remote_guild_card_number)
      (List.replicate total 0)
      (by
        intro f hf
        simp only [List.mem_singleton] at hf
        subst hf
        simp only [le_bytes_length, List.length_replicate]; omega)
      (by rw [List.length_replicate]; omega)
      (fun f hf => (hrest f hf).2)
      (fun f hf => Or.inr (hrest f hf).1)
    simp only [List.singleton_append, List.cons_append, List.nil_append] at h ⊢
    rw [h]
    split
    · rfl
    · norm_num

/-- Reading a field that lies inside a prefix of a record. -/
theorem load_le_take (data : List Nat) (size off n : Nat) (h : off + n ≤ size) :
    load_le n (data.take size) off = load_le n data off := by
  apply load_le_congr
  intro i _ h2
  rw [List.getElem?_take_of_lt (by omega)]

/-- On a licensed session with a connected server process_server_gc_9A writes one
0x9E command with flag 1 toward the server and returns false: a prefix of the
record image, whole without a remembered guild card and without the unused space
otherwise. -/
theorem process_server_gc_9A_licensed (CmdT : LoginWithUnusedSpaceRecord)
    (session : LinkedSession) (license : License) (data : List Nat)
    (hwf : CmdT.well_formed) (hlicense : session.license = some license)
    (hserver : session.server_bev.isSome = true) :
    ∃ record frame : List Nat,
      process_server_gc_9A CmdT session data =
        .returned false (send_command session true 0x9E 0x01 frame) data ∧
      record.length = CmdT.sizeof ∧
      frame = record.take
        (CmdT.sizeof -
          (if session.remote_guild_card_number ≠ 0 then CmdT.unused_space_size else 0)) ∧
      frame.length =
        CmdT.sizeof -
          (if session.remote_guild_card_number ≠ 0 then CmdT.unused_space_size else 0) ∧
      load_le 4 frame CmdT.base.player_tag =
        (if session.remote_guild_card_number = 0 then 0xFFFF0000 else 0x00010000) ∧
      load_le 4 frame CmdT.base.guild_card_number =
        (if session.remote_guild_card_number = 0 then 0xFFFFFFFF
         else session.remote_guild_card_number % 2 ^ 32) := by
  obtain ⟨hbase, h1, h2, h3, h4, h5⟩ := hwf
  have hbase2 := hbase
  obtain ⟨b1, b2, b3, b4, b5, b6, b7, b8, b9, b10, b11, b12⟩ := hbase2
  obtain ⟨hlen, htag, hcard⟩ := login_record_spec CmdT.base hbase session license 0 CmdT.sizeof
    [(CmdT.client_config,
      assign_field CmdT.client_config_size session.remote_client_config_data)]
    (by omega)
    (by
      intro f hf
      simp only [List.mem_singleton] at hf
      subst hf
      simp only [assign_field_length]
      omega)
  have hsize : CmdT.sizeof -
      (if session.remote_guild_card_number ≠ 0 then CmdT.unused_space_size else 0) ≤
      CmdT.sizeof := Nat.sub_le _ _
  have hfield : CmdT.base.guild_card_number + 4 ≤ CmdT.sizeof -
      (if session.remote_guild_card_number ≠ 0 then CmdT.unused_space_size else 0) := by
    split <;> omega
  have hframe : ((write_fields (List.replicate CmdT.sizeof 0)
      (login_fields CmdT.base session license 0 ++
        [(CmdT.client_config,
          assign_field CmdT.client_config_size session.remote_client_config_data)])).take
      (CmdT.sizeof -
        (if session.remote_guild_card_number ≠ 0 then CmdT.unused_space_size else 0))).length =
      CmdT.sizeof -
        (if session.remote_guild_card_number ≠ 0 then CmdT.unused_space_size else 0) := by
    rw [List.length_take, hlen]
    exact Nat.min_eq_left hsize
  refine ⟨_, _, ?_, hlen, rfl, hframe, ?_, ?_⟩
  · unfold process_server_gc_9A
    simp only [hlicense]
    rw [send_to_end_done _ true 0x9E 0x01 _ (by rw [hframe]; split <;> omega)
      (by simpa using hserver)]
    rfl
  · rw [load_le_take _ _ _ _ (by omega), htag]
  · rw [load_le_take _ _ _ _ hfield, hcard]

/-- On a licensed PATCH, PC or GC session with a connected server, the server-init
handler returns false having keyed the two server-side ciphers with the seeds of
the frame and left the two client-side ciphers. -/
theorem server_init_licensed_ciphers (records : LoginRecords)
    (session : LinkedSession) (license : License) (command flag : Nat) (data : List Nat)
    (hlicense : session.license = some license)
    (hmin : S_ServerInit_DC_PC_GC_02_17_92_9B.after_message ≤ data.length)
    (hmax : data.length ≤ 0xFFFF)
    (hserver : session.server_bev.isSome = true)
    (hPC : records.C_Login_PC_9D.well_formed)
    (hDB : records.C_VerifyLicense_GC_DB.well_formed)
    (hGC : records.C_LoginWithUnusedSpace_GC_9E.well_formed)
    (hnot : ¬ (session.version = GameVersion.PATCH ∧ command = 0x17))
    (hversion : session.version = GameVersion.PATCH ∨ session.version = GameVersion.PC ∨
      session.version = GameVersion.GC) :
    ∃ s,
      process_server_pc_gc_patch_02_17 records session command flag data =
        .returned false s data ∧
      s.client_input_crypt = session.client_input_crypt ∧
      s.client_output_crypt = session.client_output_crypt ∧
      s.server_input_crypt =
        some (if session.version = GameVersion.GC then
                Crypt.PSOGCEncryption
                  (load_le 4 data S_ServerInit_DC_PC_GC_02_17_92_9B.server_key)
              else
                Crypt.PSOPCEncryption
                  (load_le 4 data S_ServerInit_DC_PC_GC_02_17_92_9B.server_key)) ∧
      s.server_output_crypt =
        some (if session.version = GameVersion.GC then
                Crypt.PSOGCEncryption
                  (load_le 4 data S_ServerInit_DC_PC_GC_02_17_92_9B.client_key)
              else
                Crypt.PSOPCEncryption
                  (load_le 4 data S_ServerInit_DC_PC_GC_02_17_92_9B.client_key)) := by
  unfold process_server_pc_gc_patch_02_17
  rw [if_neg hnot]
  simp only [check_size_t_ok _ _ _ hmin hmax, hlicense]
  rcases hversion with hv | hv | hv
  · simp only [hv]
    rw [send_to_end_done _ true 0x02 0x00 [] rfl (by simpa using hserver)]
    exact ⟨_, rfl, rfl, rfl, rfl, rfl⟩
  · simp only [hv]
    obtain ⟨hlen, _, _⟩ := login_record_spec records.C_Login_PC_9D hPC session license
      0xFFFFFFFFFFFF0000 records.C_Login_PC_9D.sizeof [] (le_refl _)
      (fun f hf => absurd hf (List.not_mem_nil f))
    rw [List.append_nil] at hlen
    rw [send_to_end_done _ true 0x9D 0x00 _ (by rw [hlen]; exact hPC.2.2.2.2.2.2.2.2.2.2.2)
      (by simpa using hserver)]
    exact ⟨_, rfl, rfl, rfl, rfl, rfl⟩
  · simp only [hv]
    by_cases hc : command = 0x17
    · rw [if_pos hc]
      obtain ⟨d1, d2, d3, d4, d5, d6, d7⟩ := hDB
      rw [send_to_end_done _ true 0xDB 0x00 _
        (by
          rw [write_fields_length, List.length_replicate]
          · exact d7
          · intro f hf
            rw [List.length_replicate]
            simp only [List.mem_cons, List.mem_singleton, List.not_mem_nil, or_false] at hf
            rcases hf with rfl | rfl | rfl | rfl | rfl | rfl <;>
              simp only [le_bytes_length, assign_field_length] <;> omega)
        (by simpa using hserver)]
      exact ⟨_, rfl, rfl, rfl, rfl, rfl⟩
    · rw [if_neg hc]
      obtain ⟨record, frame, hrun, _⟩ := process_server_gc_9A_licensed
        records.C_LoginWithUnusedSpace_GC_9E
        { session with
          license := some license
          version := GameVersion.GC
          server_input_crypt :=
            some (Crypt.PSOGCEncryption
              (load_le 4 data S_ServerInit_DC_PC_GC_02_17_92_9B.server_key))
          server_output_crypt :=
            some (Crypt.PSOGCEncryption
              (load_le 4 data S_ServerInit_DC_PC_GC_02_17_92_9B.client_key)) }
        license data hGC rfl hserver
      rw [hrun]
      exact ⟨_, rfl, rfl, rfl, rfl, rfl⟩

/-- The entry written through the pointer is the one found under the key. -/
theorem saving_files_update_lookup (table : List (List Nat × SavingFile)) (key : List Nat)
    (sf old : SavingFile) (h : table.lookup key = some old) :
    (saving_files_update table key sf).lookup key = some sf := by
  unfold saving_files_update
  induction table with
  | nil => simp at h
  | cons entry rest ih =>
    obtain ⟨k, v⟩ := entry
    by_cases hk : k = key
    · subst hk
      simp only [List.map_cons, if_true, List.lookup_cons, beq_self_eq_true]
    · have hne : (key == k) = false := by
        simp only [beq_eq_false_iff_ne, ne_eq]
        exact fun h => hk h.symm
      simp only [List.lookup_cons, hne] at h
      simp only [List.map_cons, if_neg hk, List.lookup_cons, hne]
      exact ih h

/-- A write through the pointer leaves the entries under other keys. -/
theorem saving_files_update_lookup_other (table : List (List Nat × SavingFile))
    (key other : List Nat) (sf : SavingFile) (hother : other ≠ key) :
    (saving_files_update table key sf).lookup other = table.lookup other := by
  unfold saving_files_update
  induction table with
  | nil => rfl
  | cons entry rest ih =>
    obtain ⟨k, v⟩ := entry
    by_cases hk : k = key
    · subst hk
      have hne : (other == k) = false := by
        simp only [beq_eq_false_iff_ne, ne_eq]
        exact hother
      simp only [List.map_cons, if_true, List.lookup_cons, hne]
      exact ih
    · simp only [List.map_cons, if_neg hk, List.lookup_cons]
      rw [ih]

/-- After the erase nothing is found under the key. -/
theorem saving_files_erase_lookup (table : List (List Nat × SavingFile)) (key : List Nat) :
    (saving_files_erase table key).lookup key = none := by
  unfold saving_files_erase
  induction table with
  | nil => rfl
  | cons entry rest ih =>
    obtain ⟨k, v⟩ := entry
    by_cases hk : k = key
    · subst hk
      simp only [List.filter_cons, ne_eq, not_true_eq_false, decide_False, Bool.false_eq_true,
        if_false]
      exact ih
    · have hne : (key == k) = false := by
        simp only [beq_eq_false_iff_ne, ne_eq]
        exact fun h => hk h.symm
      simp only [List.filter_cons, ne_eq, hk, not_false_eq_true, decide_True, if_true,
        List.lookup_cons, hne]
      exact ih

/-- The erase leaves the entries under other keys. -/
theorem saving_files_erase_lookup_other (table : List (List Nat × SavingFile))
    (key other : List Nat) (hother : other ≠ key) :
    (saving_files_erase table key).lookup other = table.lookup other := by
  unfold saving_files_erase
  induction table with
  | nil => rfl
  | cons entry rest ih =>
    obtain ⟨k, v⟩ := entry
    by_cases hk : k = key
    · subst hk
      have hne : (other == k) = false := by
        simp only [beq_eq_false_iff_ne, ne_eq]
        exact hother
      simp only [List.filter_cons, ne_eq, not_true_eq_false, decide_False, Bool.false_eq_true,
        if_false, List.lookup_cons, hne]
      exact ih
    · simp only [List.filter_cons, ne_eq, hk, not_false_eq_true, decide_True, if_true,
        List.lookup_cons]
      rw [ih]

/-- The commands send_command_excluding_client sends: one to every client present
other than the one excluded, in slot order, each with the opcode, flag and payload
given. -/
theorem send_command_excluding_client_spec (l : Lobby) (c : Client) (command flag : Nat)
    (data : List Nat) :
    (send_command_excluding_client l c command flag data).map (fun d => d.target) =
      (l.clients.filterMap id).filter (fun t => decide (t.address ≠ c.address)) ∧
    ∀ d ∈ send_command_excluding_client l c command flag data,
      d.command = command ∧ d.flag = flag ∧ d.data = data := by
  unfold send_command_excluding_client
  induction l.clients with
  | nil => simp
  | cons slot rest ih =>
    cases slot with
    | none => simpa using ih
    | some t =>
      by_cases h : t.address = c.address
      · simpa [h] using ih
      · obtain ⟨ih1, ih2⟩ := ih
        constructor
        · simp only [List.filterMap_cons, if_neg h, List.map_cons, id]
          rw [ih1, List.filter_cons_of_pos (by simpa using h)]
        · intro d hd
          simp only [List.filterMap_cons, if_neg h, List.mem_cons] at hd
          rcases hd with rfl | hd
          · exact ⟨rfl, rfl, rfl⟩
          · exact ih2 d hd

/-- The commands the public episode-3 branch of forward_subcommand sends: one to
every client present that is not the sender and has the episode-3 flag. -/
theorem forward_subcommand_ep3_spec (EPISODE_3_GAMES : Nat) (clients : List (Option Client))
    (c : Client) (command flag : Nat) (data : List Nat) :
    (clients.filterMap fun slot =>
      match slot with
      | none => none
      | some target =>
        if target.address = c.address ∨ target.flags &&& EPISODE_3_GAMES = 0 then none
        else
          some ({ target := target, command := command, flag := flag, data := data } :
            Delivery)).map (fun d => d.target) =
      (clients.filterMap id).filter
        (fun t => decide (t.address ≠ c.address ∧ t.flags &&& EPISODE_3_GAMES ≠ 0)) ∧
    ∀ d ∈ (clients.filterMap fun slot =>
      match slot with
      | none => none
      | some target =>
        if target.address = c.address ∨ target.flags &&& EPISODE_3_GAMES = 0 then none
        else
          some ({ target := target, command := command, flag := flag, data := data } :
            Delivery)),
      d.command = command ∧ d.flag = flag ∧ d.data = data := by
  induction clients with
  | nil => simp
  | cons slot rest ih =>
    cases slot with
    | none => simpa using ih
    | some t =>
      obtain ⟨ih1, ih2⟩ := ih
      by_cases h : t.address = c.address ∨ t.flags &&& EPISODE_3_GAMES = 0
      · have hfilter : ¬ (t.address ≠ c.address ∧ t.flags &&& EPISODE_3_GAMES ≠ 0) := by
          intro ⟨h1, h2⟩
          rcases h with h | h
          · exact h1 h
          · exact h2 h
        constructor
        · simp only [List.filterMap_cons, if_pos h, id]
          rw [List.filter_cons_of_neg (by simpa using hfilter)]
          exact ih1
        · intro d hd
          simp only [List.filterMap_cons, if_pos h] at hd
          exact ih2 d hd
      · have hfilter : t.address ≠ c.address ∧ t.flags &&& EPISODE_3_GAMES ≠ 0 :=
          ⟨fun h1 => h (Or.inl h1), fun h2 => h (Or.inr h2)⟩
        constructor
        · simp only [List.filterMap_cons, if_neg h, List.map_cons, id]
          rw [ih1, List.filter_cons_of_pos (by simpa using hfilter)]
        · intro d hd
          simp only [List.filterMap_cons, if_neg h, List.mem_cons] at hd
          rcases hd with rfl | hd
          · exact ⟨rfl, rfl, rfl⟩
          · exact ih2 d hd

/-- After the erase of a key from an association list nothing is found under it. -/
theorem lookup_filter_ne {β : Type} (table : List (Nat × β)) (key : Nat) :
    (table.filter fun entry => entry.1 ≠ key).lookup key = none := by
  induction table with
  | nil => rfl
  | cons entry rest ih =>
    obtain ⟨k, v⟩ := entry
    by_cases hk : k = key
    · subst hk
      simp only [List.filter_cons, ne_eq, not_true_eq_false, decide_False, Bool.false_eq_true,
        if_false]
      exact ih
    · have hne : (key == k) = false := by
        simp only [beq_eq_false_iff_ne, ne_eq]
        exact fun h => hk h.symm
      simp only [List.filter_cons, ne_eq, hk, not_false_eq_true, decide_True, if_true,
        List.lookup_cons, hne]
      exact ih

/-- An entry appended under one key is not found under another. -/
theorem lookup_append_other {β : Type} (table : List (Nat × β)) (key other : Nat) (v : β)
    (hother : other ≠ key) : (table ++ [(key, v)]).lookup other = table.lookup other := by
  induction table with
  | nil =>
    have hne : (other == key) = false := by
      simp only [beq_eq_false_iff_ne, ne_eq]
      exact hother
    simp [List.lookup_cons, hne]
  | cons entry rest ih =>
    obtain ⟨k, w⟩ := entry
    simp only [List.cons_append, List.lookup_cons]
    rw [ih]

/-- The emplace of a linked session: the session found under the id afterwards is
the one that was registered, or the new one. -/
theorem lookup_emplace_session (server : ProxyServer) (id : Nat) (session : LinkedSession) :
    (server.emplace_session id session).id_to_session.lookup id =
      some ((server.id_to_session.lookup id).getD session) ∧
    ∀ other, other ≠ id →
      (server.emplace_session id session).id_to_session.lookup other =
        server.id_to_session.lookup other := by
  unfold ProxyServer.emplace_session
  cases hfound : server.id_to_session.lookup id with
  | none =>
    simp only [Option.isSome_none, Bool.false_eq_true, if_false, Option.getD_none]
    exact ⟨lookup_append_new _ _ _ hfound, fun other hother => lookup_append_other _ _ _ _ hother⟩
  | some found =>
    rw [Option.isSome_some, if_pos rfl, Option.getD_some]
    exact ⟨hfound, fun _ _ => rfl⟩

/-- The resume from an unlinked session leaves the id, the license, the dialect and
the destination of the linked session. -/
theorem resume_from_unlinked_keeps (env : Env) (session : UnlinkedSession) (vars : LoginState)
    (linked : LinkedSession) :
    (resume_from_unlinked env session vars linked).id = linked.id ∧
    (resume_from_unlinked env session vars linked).license = linked.license ∧
    (resume_from_unlinked env session vars linked).version = linked.version ∧
    (resume_from_unlinked env session vars linked).next_destination =
      linked.next_destination := by
  unfold resume_from_unlinked resume resume_bb resume_inner connect
  simp only
  split <;> split <;> (try split) <;> (try split) <;>
    exact ⟨rfl, rfl, rfl, rfl⟩

/-- The resume from an unlinked session of a linked session without a client, with an
IPv4 destination the socket connects to: the session ends connected, with the
transport and the ciphers of the unlinked session on the client side, no server-side
cipher yet, and the timer cancelled. -/
theorem resume_from_unlinked_connected (env : Env) (session : UnlinkedSession)
    (vars : LoginState) (linked : LinkedSession)
    (hclient : linked.client_bev = none)
    (hdest : linked.next_destination.ss_family = AF_INET)
    (hconnect : env.socket_connect_ok linked.next_destination = true) :
    (resume_from_unlinked env session vars linked).client_bev = some session.bev ∧
    is_connected (resume_from_unlinked env session vars linked) = true ∧
    (resume_from_unlinked env session vars linked).client_input_crypt = session.crypt_in ∧
    (resume_from_unlinked env session vars linked).client_output_crypt = session.crypt_out ∧
    (resume_from_unlinked env session vars linked).detector_crypt = session.detector_crypt ∧
    (resume_from_unlinked env session vars linked).server_input_crypt = none ∧
    (resume_from_unlinked env session vars linked).server_output_crypt = none ∧
    (resume_from_unlinked env session vars linked).timeout_usecs = none := by
  unfold resume_from_unlinked resume resume_bb resume_inner connect
  simp only [hclient, hdest, hconnect, Option.isSome_none, Bool.false_eq_true, if_false, ne_eq,
    not_true_eq_false, Bool.true_eq_false]
  split <;> exact ⟨rfl, rfl, rfl, rfl, rfl, rfl, rfl, rfl⟩

theorem add_hp_subcommands_zero (lobby_client_id fuel : Nat) :
    add_hp_subcommands lobby_client_id fuel 0 = [] := by
  cases fuel <;> simp [add_hp_subcommands]

theorem add_hp_subcommands_four_rounds (lobby_client_id fuel : Nat) (h : 4 ≤ fuel) :
    add_hp_subcommands lobby_client_id fuel 1020 =
      [0x9A, 0x02, lobby_client_id % 256, 0x00, 0x00, 0x00, PlayerStatsChange.ADD_HP, 0xFF,
       0x9A, 0x02, lobby_client_id % 256, 0x00, 0x00, 0x00, PlayerStatsChange.ADD_HP, 0xFF,
       0x9A, 0x02, lobby_client_id % 256, 0x00, 0x00, 0x00, PlayerStatsChange.ADD_HP, 0xFF,
       0x9A, 0x02, lobby_client_id % 256, 0x00, 0x00, 0x00, PlayerStatsChange.ADD_HP, 0xFF] := by
  obtain ⟨f, rfl⟩ := Nat.exists_eq_add_of_le' h
  simp [add_hp_subcommands, add_hp_subcommands_zero, le_bytes, PlayerStatsChange.ADD_HP]

/-- The value a card field reads after the rewrite of both card fields of a record. -/
theorem replace_two_cards_field (data : List Nat) (f1 f2 old new f : Nat)
    (h12 : f1 + 4 ≤ f2) (h2 : f2 + 4 ≤ data.length) (hnew : new < 2 ^ 32)
    (hf : f = f1 ∨ f = f2) :
    load_le 4 (replace_card (replace_card data f1 old new) f2 old new) f =
      (if load_le 4 data f = old then new else load_le 4 data f) := by
  obtain ⟨_, h1, h3, _⟩ := replace_two_cards data f1 f2 old new h12 h2 hnew
  rcases hf with rfl | rfl
  · exact h1
  · exact h3

/-- On a licensed session, process_server_41 on a record of the expected size returns
the record with both card fields rewritten. -/
theorem process_server_41_licensed (CmdT : TwoCardRecord) (session : LinkedSession)
    (license : License) (data : List Nat) (hlicense : session.license = some license)
    (hsize : data.length = CmdT.sizeof) :
    process_server_41 CmdT session data =
      .returned true session
        (replace_card
          (replace_card data CmdT.first_guild_card_number session.remote_guild_card_number
            license.serial_number)
          CmdT.second_guild_card_number session.remote_guild_card_number
          license.serial_number) := by
  unfold process_server_41
  simp only [hlicense]
  rw [check_size_t_ok _ _ _ (by omega) (by omega)]

/-- On a licensed session, process_client_40 on a record of the expected size returns
the record with both card fields rewritten. -/
theorem process_client_40_licensed (session : LinkedSession) (license : License)
    (data : List Nat) (hlicense : session.license = some license)
    (hsize : data.length = C_GuildCardSearch_40.sizeof) :
    process_client_40 session data =
      .returned true session
        (replace_card
          (replace_card data C_GuildCardSearch_40.first_guild_card_number
            license.serial_number session.remote_guild_card_number)
          C_GuildCardSearch_40.second_guild_card_number license.serial_number
          session.remote_guild_card_number) := by
  unfold process_client_40
  simp only [hlicense]
  rw [check_size_t_ok _ _ _ (by omega) (by omega)]

/-- Whatever the loop of the sort returns is the list of the slots of the listed ids. -/
theorem sort_inventory_items_of_ok (find_item : PlayerInventory → Nat → Except String Nat)
    (inventory : PlayerInventory) :
    ∀ (item_ids : List Nat) (sorted : List PlayerInventoryItem),
      sort_inventory_items find_item inventory item_ids = .ok sorted →
      sorted = item_ids.map (sorted_slot find_item inventory) := by
  intro item_ids
  induction item_ids with
  | nil =>
    intro sorted h
    simp only [sort_inventory_items, Except.ok.injEq] at h
    rw [← h, List.map_nil]
  | cons item_id item_ids ih =>
    intro sorted h
    unfold sort_inventory_items at h
    by_cases hid : item_id = 0xFFFFFFFF
    · rw [if_pos hid] at h
      cases hrec : sort_inventory_items find_item inventory item_ids with
      | error e => rw [hrec] at h; cases h
      | ok rest =>
        rw [hrec] at h
        simp only [Except.ok.injEq] at h
        rw [← h, List.map_cons, ← ih rest hrec]
        unfold sorted_slot
        rw [if_pos hid]
    · rw [if_neg hid] at h
      cases hfind : find_item inventory item_id with
      | error e => rw [hfind] at h; cases h
      | ok index =>
        rw [hfind] at h
        cases hitem : inventory.items[index]? with
        | none => simp only [hitem] at h; cases h
        | some item =>
          simp only [hitem] at h
          cases hrec : sort_inventory_items find_item inventory item_ids with
          | error e => rw [hrec] at h; cases h
          | ok rest =>
            rw [hrec] at h
            simp only [Except.ok.injEq] at h
            rw [← h, List.map_cons, ← ih rest hrec]
            unfold sorted_slot
            rw [if_neg hid, hfind]
            simp only [List.getD_eq_getElem?_getD, hitem, Option.getD_some]

/-- The loop of the sort returns when every listed id is 0xFFFFFFFF or is found at an
index inside the array of items. -/
theorem sort_inventory_items_accepted
    (find_item : PlayerInventory → Nat → Except String Nat) (inventory : PlayerInventory) :
    ∀ item_ids : List Nat,
      (∀ item_id ∈ item_ids, item_id = 0xFFFFFFFF ∨
        ∃ index item, find_item inventory item_id = .ok index ∧
          inventory.items[index]? = some item) →
      sort_inventory_items find_item inventory item_ids =
        .ok (item_ids.map (sorted_slot find_item inventory)) := by
  intro item_ids
  induction item_ids with
  | nil =>
    intro _
    rfl
  | cons item_id item_ids ih =>
    intro h
    have hrec := ih (fun id hid => h id (List.mem_cons_of_mem _ hid))
    unfold sort_inventory_items
    by_cases hid : item_id = 0xFFFFFFFF
    · rw [if_pos hid, hrec, List.map_cons]
      unfold sorted_slot
      rw [if_pos hid]
    · rcases h item_id (List.mem_cons_self _ _) with h1 | ⟨index, item, hfind, hitem⟩
      · exact absurd h1 hid
      · rw [if_neg hid, hfind]
        simp only [hitem, hrec, List.map_cons]
        unfold sorted_slot
        rw [if_neg hid, hfind]
        simp only [List.getD_eq_getElem?_getD, hitem, Option.getD_some]

/-- The completed payload in closed form: the bytes of the array past the size of the
payload when the payload is shorter than the array, then zeros up to 8 bytes. -/
theorem complete_reconnect_payload_eq (prev data : List Nat) :
    complete_reconnect_payload prev data =
      (if data.length < prev.length then data ++ prev.drop data.length else data) ++
        List.replicate (8 - max data.length prev.length) 0 := by
  unfold complete_reconnect_payload
  simp only [S_Reconnect_19.sizeof]
  by_cases h : data.length < prev.length
  · have hlen : (data ++ prev.drop data.length).length = prev.length := by
      rw [List.length_append, List.length_drop]; omega
    rw [if_pos h, hlen, Nat.max_eq_right (Nat.le_of_lt h)]
    by_cases h8 : prev.length < 8
    · rw [if_pos h8]
    · rw [if_neg h8, show 8 - prev.length = 0 by omega, List.replicate_zero, List.append_nil]
  · rw [if_neg h, Nat.max_eq_left (by omega)]
    by_cases h8 : data.length < 8
    · rw [if_pos h8]
    · rw [if_neg h8, show 8 - data.length = 0 by omega, List.replicate_zero, List.append_nil]

theorem complete_reconnect_payload_length_eq (prev data : List Nat) (hn : data.length < 8) :
    (complete_reconnect_payload prev data).length = max 8 prev.length := by
  rw [complete_reconnect_payload_eq]
  by_cases h : data.length < prev.length
  · rw [if_pos h, List.length_append, List.length_append, List.length_drop,
      List.length_replicate]
    omega
  · rw [if_neg h, List.length_append, List.length_replicate]
    omega

/-- Saving the start of a payload over the start of the array does not change what the
payload is completed to. -/
theorem complete_reconnect_payload_after_save (prev data : List Nat) :
    complete_reconnect_payload
      (store_bytes prev 0 (data.take (min data.length prev.length))) data =
      complete_reconnect_payload prev data := by
  have hlen : (store_bytes prev 0 (data.take (min data.length prev.length))).length =
      prev.length :=
    store_bytes_length _ _ _ (by rw [List.length_take]; omega)
  rw [complete_reconnect_payload_eq, complete_reconnect_payload_eq, hlen]
  by_cases h : data.length < prev.length
  · rw [if_pos h, if_pos h, Nat.min_eq_left (Nat.le_of_lt h), List.take_length,
      store_bytes_zero_start, List.drop_left]
  · rw [if_neg h, if_neg h]

/-- What process_server_game_19_patch_14 does with a 0x19 whose completed payload c
has an accepted size. -/
theorem process_server_game_19_of_payload (env : Env) (session : LinkedSession)
    (data c : List Nat)
    (hc : complete_reconnect_payload session.prev_server_command_bytes data = c)
    (hmin : 8 ≤ c.length) (hmax : c.length ≤ 0xB0) :
    (process_server_game_19_patch_14 env session 0x19 data).session.next_destination =
      { ss_family := AF_INET, sin_addr := load_le 4 c 0, sin_port := htons (load_le 2 c 4) } ∧
    (session.client_bev = none →
      ∃ s2, process_server_game_19_patch_14 env session 0x19 data = .returned false s2 c) ∧
    (∀ bev, session.client_bev = some bev → bev.fd < 0 →
      ∃ s2, process_server_game_19_patch_14 env session 0x19 data =
        .returned true s2 (store_le 2 c 4 session.local_port)) := by
  have hsize : check_size_t c.length S_Reconnect_19.sizeof 0xB0 = .ok () :=
    check_size_t_ok _ _ _ hmin hmax
  refine ⟨?_, ?_, ?_⟩
  · unfold process_server_game_19_patch_14
    simp only [hc, hsize]
    cases hb : session.client_bev with
    | none =>
      by_cases hp : session.enable_remote_ip_crc_patch = true <;>
        simp [hp, hb, Outcome.session, S_Reconnect_19.address, S_Reconnect_19.port]
    | some bev =>
      by_cases hp : session.enable_remote_ip_crc_patch = true <;>
      by_cases hfd : bev.fd ≥ 0 <;>
      by_cases hfam : (env.getsockname bev.fd).ss_family = AF_INET <;>
        simp [hp, hb, hfd, hfam, Outcome.session, S_Reconnect_19.address, S_Reconnect_19.port]
  · intro hb
    unfold process_server_game_19_patch_14
    simp only [hc, hsize]
    by_cases hp : session.enable_remote_ip_crc_patch = true <;>
      simp [hp, hb]
  · intro bev hb hfd
    have hfd2 : ¬ (0 ≤ bev.fd) := by omega
    unfold process_server_game_19_patch_14
    simp only [hc, hsize]
    by_cases hp : session.enable_remote_ip_crc_patch = true <;>
      simp [hp, hb, hfd2, S_Reconnect_19.port]

/-! ### Sessions without a license -/

/-- C1: on a connected licensed session, for every S->C 0x04 payload of accepted size
(at least the 8 bytes before the config block, at most the whole record),
process_server_dc_pc_gc_04 returns forward=true, the session remembers the
guild-card number carried by the incoming payload, the forwarded payload carries the
license serial in the guild-card field, and it has the same length and the same
bytes outside that field. -/
theorem process_server_dc_pc_gc_04_masks_guild_card (env : Env) (session : LinkedSession)
    (license : License) (data : List Nat)
    (hlicense : session.license = some license)
    (hserial : license.serial_number < 2 ^ 32)
    (hclient : session.client_bev.isSome) (hserver : session.server_bev.isSome)
    (hmin : S_UpdateClientConfig_DC_PC_GC_04.cfg ≤ data.length)
    (hmax : data.length ≤ S_UpdateClientConfig_DC_PC_GC_04.sizeof) :
    ∃ s1 data1,
      process_server_dc_pc_gc_04 env session data = .returned true s1 data1 ∧
      s1.remote_guild_card_number = load_le 4 data 4 ∧
      load_le 4 data1 4 = license.serial_number ∧
      data1.length = data.length ∧
      ∀ i, (i < 4 ∨ 8 ≤ i) → data1[i]? = data[i]? := by
  have hlen : 4 + 4 ≤ data.length := by
    simpa [S_UpdateClientConfig_DC_PC_GC_04.cfg] using hmin
  have hload : load_le 4 (store_le 4 data 4 license.serial_number) 4 = license.serial_number := by
    rw [load_le_store_le data 4 4 _ hlen]
    exact Nat.mod_eq_of_lt (by norm_num at hserial ⊢; exact hserial)
  have hother : ∀ i, (i < 4 ∨ 8 ≤ i) →
      (store_le 4 data 4 license.serial_number)[i]? = data[i]? := fun i hi =>
    store_le_getElem?_other data 4 4 _ i hlen (by omega)
  unfold process_server_dc_pc_gc_04
  rw [check_size_t_ok _ _ _ hmin hmax]
  simp only [S_UpdateClientConfig_DC_PC_GC_04.guild_card_number]
  by_cases hsame : session.remote_guild_card_number = load_le 4 data 4
  · rw [if_neg (by simpa using hsame)]
    simp only [Step.andThen, hlicense]
    by_cases hhad : session.remote_guild_card_number = 0
    · simp only [hhad, ne_eq, not_true_eq_false, decide_False, if_true]
      rw [send_to_end_done _ true 0x96 0 _ (by simp [le_bytes_length])
        (by simpa using hserver)]
      exact ⟨_, _, rfl, by simp [send_command, ← hsame, hhad], hload,
        store_le_length data 4 4 _ hlen, hother⟩
    · simp only [ne_eq, hhad, not_false_eq_true, decide_True, Bool.true_eq_false, if_false]
      exact ⟨_, _, rfl, hsame, hload, store_le_length data 4 4 _ hlen, hother⟩
  · rw [if_pos (by simpa using hsame)]
    obtain ⟨payload, hp⟩ := send_text_message_to_client_done env
      { session with remote_guild_card_number := load_le 4 data 4 } 0x11
      (str_bytes "The remote server\nhas assigned your\nGuild Card number as\n\tC6" ++
            str_bytes (toString (load_le 4 data 4))) hclient
    rw [hp]
    simp only [Step.andThen, send_command, hlicense]
    by_cases hhad : session.remote_guild_card_number = 0
    · simp only [hhad, ne_eq, not_true_eq_false, decide_False, if_true]
      rw [send_to_end_done _ true 0x96 0 _ (by simp [le_bytes_length])
        (by simpa using hserver)]
      exact ⟨_, _, rfl, by simp [send_command], hload,
        store_le_length data 4 4 _ hlen, hother⟩
    · simp only [ne_eq, hhad, not_false_eq_true, decide_True, Bool.true_eq_false, if_false]
      exact ⟨_, _, rfl, rfl, hload, store_le_length data 4 4 _ hlen, hother⟩

/-- C1 at the instance of scenario E1: serial 0x12345678, remote assignment 7777777. -/
theorem process_server_dc_pc_gc_04_masks_guild_card_witness :
    ∃ s1 data1,
      process_server_dc_pc_gc_04 example_env example_session example_04 =
        .returned true s1 data1 ∧
      s1.remote_guild_card_number = 7777777 ∧
      load_le 4 data1 4 = 0x12345678 := by
  obtain ⟨s1, data1, h1, h2, h3, _, _⟩ :=
    process_server_dc_pc_gc_04_masks_guild_card example_env example_session example_license
      example_04 rfl (by decide) rfl rfl (by decide) (by decide)
  exact ⟨s1, data1, h1, by rw [h2]; decide, h3⟩

/-- C2: on a licensed session with remote guild card r and serial s, the S->C handlers
of 0x06, 0x41 and 0x81 return forward=true for a payload of accepted size, leave the
session and the payload length as they were, make each named guild-card field (0x06:
guild_card_number; 0x41: searcher and result; 0x81: from and to) read s when it read
r and leave it as it was otherwise, and change no byte outside a field that read r. -/
theorem process_server_06_41_81_mask_remote_cards (session : LinkedSession)
    (license : License) (CmdT41 CmdT81 : TwoCardRecord) (data06 data41 data81 : List Nat)
    (hlicense : session.license = some license)
    (hserial : license.serial_number < 2 ^ 32)
    (hmin06 : SC_TextHeader_01_06_11_B0_EE.sizeof ≤ data06.length)
    (hmax06 : data06.length ≤ 0xFFFF)
    (hwf41 : CmdT41.well_formed) (hsize41 : data41.length = CmdT41.sizeof)
    (hwf81 : CmdT81.well_formed) (hsize81 : data81.length = CmdT81.sizeof) :
    (∃ d, process_server_dc_pc_gc_06 session data06 = .returned true session d ∧
      d.length = data06.length ∧
      load_le 4 d 4 =
        (if load_le 4 data06 4 = session.remote_guild_card_number then license.serial_number
         else load_le 4 data06 4) ∧
      ∀ i, (i < 4 ∨ 8 ≤ i ∨ load_le 4 data06 4 ≠ session.remote_guild_card_number) →
        d[i]? = data06[i]?) ∧
    (∃ d, process_server_41 CmdT41 session data41 = .returned true session d ∧
      d.length = data41.length ∧
      load_le 4 d CmdT41.first_guild_card_number =
        (if load_le 4 data41 CmdT41.first_guild_card_number = session.remote_guild_card_number
         then license.serial_number else load_le 4 data41 CmdT41.first_guild_card_number) ∧
      load_le 4 d CmdT41.second_guild_card_number =
        (if load_le 4 data41 CmdT41.second_guild_card_number = session.remote_guild_card_number
         then license.serial_number else load_le 4 data41 CmdT41.second_guild_card_number) ∧
      ∀ i,
        (i < CmdT41.first_guild_card_number ∨ CmdT41.first_guild_card_number + 4 ≤ i ∨
          load_le 4 data41 CmdT41.first_guild_card_number ≠ session.remote_guild_card_number) →
        (i < CmdT41.second_guild_card_number ∨ CmdT41.second_guild_card_number + 4 ≤ i ∨
          load_le 4 data41 CmdT41.second_guild_card_number ≠ session.remote_guild_card_number) →
        d[i]? = data41[i]?) ∧
    (∃ d, process_server_81 CmdT81 session data81 = .returned true session d ∧
      d.length = data81.length ∧
      load_le 4 d CmdT81.first_guild_card_number =
        (if load_le 4 data81 CmdT81.first_guild_card_number = session.remote_guild_card_number
         then license.serial_number else load_le 4 data81 CmdT81.first_guild_card_number) ∧
      load_le 4 d CmdT81.second_guild_card_number =
        (if load_le 4 data81 CmdT81.second_guild_card_number = session.remote_guild_card_number
         then license.serial_number else load_le 4 data81 CmdT81.second_guild_card_number) ∧
      ∀ i,
        (i < CmdT81.first_guild_card_number ∨ CmdT81.first_guild_card_number + 4 ≤ i ∨
          load_le 4 data81 CmdT81.first_guild_card_number ≠ session.remote_guild_card_number) →
        (i < CmdT81.second_guild_card_number ∨ CmdT81.second_guild_card_number + 4 ≤ i ∨
          load_le 4 data81 CmdT81.second_guild_card_number ≠ session.remote_guild_card_number) →
        d[i]? = data81[i]?) := by
  have h06 : 4 + 4 ≤ data06.length := by
    simpa [SC_TextHeader_01_06_11_B0_EE.sizeof] using hmin06
  refine ⟨?_, ?_, ?_⟩
  · unfold process_server_dc_pc_gc_06
    simp only [hlicense, check_size_t_ok _ _ _ hmin06 hmax06,
      SC_TextHeader_01_06_11_B0_EE.guild_card_number]
    refine ⟨_, rfl, replace_card_length data06 4 _ _ h06,
      load_le_replace_card data06 4 _ _ h06 hserial, ?_⟩
    intro i hi
    rcases hi with hi | hi | hi
    · exact replace_card_getElem?_other data06 4 _ _ i h06 (Or.inl hi)
    · exact replace_card_getElem?_other data06 4 _ _ i h06 (Or.inr hi)
    · rw [replace_card_of_ne data06 4 _ _ hi]
  · unfold process_server_41
    simp only [hlicense, check_size_t_ok _ _ _ (le_of_eq hsize41.symm) (le_of_eq hsize41)]
    exact ⟨_, rfl, replace_two_cards data41 _ _ _ _ hwf41.1 (by rw [hsize41]; exact hwf41.2)
      hserial⟩
  · unfold process_server_81
    simp only [hlicense, check_size_t_ok _ _ _ (le_of_eq hsize81.symm) (le_of_eq hsize81)]
    exact ⟨_, rfl, replace_two_cards data81 _ _ _ _ hwf81.1 (by rw [hsize81]; exact hwf81.2)
      hserial⟩

set_option maxRecDepth 8000 in
/-- C2 at a concrete instance: remote number 7777777, serial 0x12345678, other player 42. -/
theorem process_server_06_41_81_mask_remote_cards_witness :
    (∃ d, process_server_dc_pc_gc_06 example_session_assigned example_06 =
        .returned true example_session_assigned d ∧ load_le 4 d 4 = 0x12345678) ∧
    (∃ d, process_server_41 S_GuildCardSearchResult_DC_GC_41 example_session_assigned
        example_41 = .returned true example_session_assigned d ∧
      load_le 4 d 4 = 0x12345678 ∧ load_le 4 d 8 = 42) ∧
    (∃ d, process_server_81 SC_SimpleMail_GC_81 example_session_assigned example_81 =
        .returned true example_session_assigned d ∧
      load_le 4 d 4 = 42 ∧ load_le 4 d 0x18 = 0x12345678) := by
  obtain ⟨⟨d06, a1, _, a3, _⟩, ⟨d41, b1, _, b3, b4, _⟩, ⟨d81, c1, _, c3, c4, _⟩⟩ :=
    process_server_06_41_81_mask_remote_cards example_session_assigned example_license
      S_GuildCardSearchResult_DC_GC_41 SC_SimpleMail_GC_81 example_06 example_41 example_81
      rfl (by decide) (by decide) (by decide) (by decide) (by decide) (by decide) (by decide)
  exact ⟨⟨d06, a1, a3.trans (by decide)⟩, ⟨d41, b1, b3.trans (by decide), b4.trans (by decide)⟩,
    ⟨d81, c1, c3.trans (by decide), c4.trans (by decide)⟩⟩

/-- C4: on a licensed session with remote guild card r and serial s, for every C->S
0x40 payload of exactly the size of C_GuildCardSearch_40, process_client_40 returns
forward=true with the session unchanged, the searcher and the target field each read
r if they read s and are unchanged otherwise, the length is kept and no byte outside
a field that read s changes; on an unlicensed session every payload is forwarded
unchanged. -/
theorem process_client_40_translates_serial (session : LinkedSession) (data : List Nat)
    (hremote : session.remote_guild_card_number < 2 ^ 32) :
    (∀ license, session.license = some license →
      data.length = C_GuildCardSearch_40.sizeof →
      ∃ d, process_client_40 session data = .returned true session d ∧
        d.length = data.length ∧
        load_le 4 d 4 =
          (if load_le 4 data 4 = license.serial_number then session.remote_guild_card_number
           else load_le 4 data 4) ∧
        load_le 4 d 8 =
          (if load_le 4 data 8 = license.serial_number then session.remote_guild_card_number
           else load_le 4 data 8) ∧
        ∀ i, (i < 4 ∨ 8 ≤ i ∨ load_le 4 data 4 ≠ license.serial_number) →
          (i < 8 ∨ 12 ≤ i ∨ load_le 4 data 8 ≠ license.serial_number) →
          d[i]? = data[i]?) ∧
    (session.license = none → process_client_40 session data = .returned true session data) := by
  constructor
  · intro license hlicense hsize
    unfold process_client_40
    simp only [hlicense, check_size_t_ok _ _ _ (le_of_eq hsize.symm) (le_of_eq hsize)]
    exact ⟨_, rfl, replace_two_cards data 4 8 _ _ (by omega)
      (by rw [hsize]; decide) hremote⟩
  · intro hnone
    unfold process_client_40
    simp only [hnone]

/-- C4 at the instance of scenario E1: the client searches for 0x12345678 and the
server sees a search for 7777777. -/
theorem process_client_40_translates_serial_witness :
    ∃ d, process_client_40 example_session_assigned example_40 =
        .returned true example_session_assigned d ∧
      load_le 4 d 4 = 7777777 ∧ load_le 4 d 8 = 7777777 := by
  obtain ⟨d, h1, _, h3, h4, _⟩ :=
    (process_client_40_translates_serial example_session_assigned example_40
      (by decide)).1 example_license rfl (by decide)
  exact ⟨d, h1, h3.trans (by decide), h4.trans (by decide)⟩

/-- C3: on a licensed session with remote guild card r and serial s, for a 0x88 or
0xC4 frame with flag n: process_server_88 throws unless the payload size is exactly
n entries, process_server_C4 accepts every payload of at least n entries (up to the
0xFFFF frame bound); when accepted, the handler returns forward=true, each of the
first n entries whose guild card read r reads s, every other entry keeps its card,
and no byte outside a rewritten field changes, in particular no trailing byte. -/
theorem process_server_88_C4_rewrite_entries (session : LinkedSession) (license : License)
    (CmdT : CardEntry) (n : Nat) (data88 dataC4 : List Nat)
    (hlicense : session.license = some license)
    (hserial : license.serial_number < 2 ^ 32)
    (hwf : CmdT.well_formed) :
    (data88.length ≠ S_ArrowUpdateEntry_88.sizeof * n →
      ∃ e, process_server_88 session n data88 = .threw e session) ∧
    (data88.length = S_ArrowUpdateEntry_88.sizeof * n →
      ∃ d, process_server_88 session n data88 = .returned true session d ∧
        d.length = data88.length ∧
        (∀ j, j < n →
          load_le 4 d (12 * j + 4) =
            (if load_le 4 data88 (12 * j + 4) = session.remote_guild_card_number
             then license.serial_number else load_le 4 data88 (12 * j + 4))) ∧
        (∀ i,
          (∀ j, j < n → i < 12 * j + 4 ∨ 12 * j + 4 + 4 ≤ i ∨
            load_le 4 data88 (12 * j + 4) ≠ session.remote_guild_card_number) →
          d[i]? = data88[i]?)) ∧
    (CmdT.sizeof * n ≤ dataC4.length → dataC4.length ≤ 0xFFFF →
      ∃ d, process_server_C4 CmdT session n dataC4 = .returned true session d ∧
        d.length = dataC4.length ∧
        (∀ j, j < n →
          load_le 4 d (CmdT.sizeof * j + CmdT.guild_card_number) =
            (if load_le 4 dataC4 (CmdT.sizeof * j + CmdT.guild_card_number) =
                session.remote_guild_card_number
             then license.serial_number
             else load_le 4 dataC4 (CmdT.sizeof * j + CmdT.guild_card_number))) ∧
        (∀ i,
          (∀ j, j < n → i < CmdT.sizeof * j + CmdT.guild_card_number ∨
            CmdT.sizeof * j + CmdT.guild_card_number + 4 ≤ i ∨
            load_le 4 dataC4 (CmdT.sizeof * j + CmdT.guild_card_number) ≠
              session.remote_guild_card_number) →
          d[i]? = dataC4[i]?) ∧
        (∀ i, CmdT.sizeof * n ≤ i → d[i]? = dataC4[i]?)) := by
  refine ⟨?_, ?_, ?_⟩
  · intro hne
    unfold process_server_88 check_size_t
    simp only [hlicense]
    by_cases hlt : data88.length < S_ArrowUpdateEntry_88.sizeof * n
    · rw [if_pos hlt]
      exact ⟨_, rfl⟩
    · rw [if_neg hlt, if_pos (by omega)]
      exact ⟨_, rfl⟩
  · intro hsize
    obtain ⟨h1, h2, h3⟩ := rewrite_entries_spec S_ArrowUpdateEntry_88 (by decide)
      session.remote_guild_card_number license.serial_number hserial n 0 data88
      (by rw [Nat.zero_add, hsize])
    unfold process_server_88
    simp only [hlicense, check_size_t_ok _ _ _ (le_of_eq hsize.symm) (le_of_eq hsize)]
    refine ⟨_, rfl, h1, ?_, ?_⟩
    · intro j hj
      exact h2 j (Nat.zero_le j) (by omega)
    · intro i hi
      exact h3 i (fun j _ hj => hi j (by omega))
  · intro hmin hmax
    obtain ⟨h1, h2, h3⟩ := rewrite_entries_spec CmdT hwf
      session.remote_guild_card_number license.serial_number hserial n 0 dataC4
      (by rw [Nat.zero_add]; exact hmin)
    unfold process_server_C4
    simp only [hlicense, check_size_t_ok _ _ _ hmin hmax]
    refine ⟨_, rfl, h1, ?_, ?_, ?_⟩
    · intro j hj
      exact h2 j (Nat.zero_le j) (by omega)
    · intro i hi
      exact h3 i (fun j _ hj => hi j (by omega))
    · intro i hi
      apply h3
      intro j _ hj
      have hj1 : CmdT.sizeof * (j + 1) ≤ CmdT.sizeof * n := Nat.mul_le_mul_left _ (by omega)
      have hj2 : CmdT.sizeof * (j + 1) = CmdT.sizeof * j + CmdT.sizeof := Nat.mul_succ _ _
      unfold CardEntry.well_formed at hwf
      right; left
      omega

set_option maxRecDepth 8000 in
/-- C3 at a concrete instance: a 0x88 of two entries, the same payload one byte too
long, and a 0xC4 of two entries with four trailing bytes. -/
theorem process_server_88_C4_rewrite_entries_witness :
    (∃ e, process_server_88 example_session_assigned 2 (example_88 ++ [0]) =
        .threw e example_session_assigned) ∧
    (∃ d, process_server_88 example_session_assigned 2 example_88 =
        .returned true example_session_assigned d ∧
      load_le 4 d 4 = 0x12345678 ∧ load_le 4 d 16 = 42) ∧
    (∃ d, process_server_C4 S_ChoiceSearchResultEntry_GC_C4 example_session_assigned 2
        example_C4 = .returned true example_session_assigned d ∧
      load_le 4 d 0 = 0x12345678 ∧ load_le 4 d 0xD4 = 42 ∧ d[0x1A8]? = some 0xDE) := by
  have long := (process_server_88_C4_rewrite_entries example_session_assigned example_license
    S_ChoiceSearchResultEntry_GC_C4 2 (example_88 ++ [0]) example_C4 rfl (by decide)
    (by decide)).1 (by decide)
  obtain ⟨_, exact, tail⟩ :=
    process_server_88_C4_rewrite_entries example_session_assigned example_license
      S_ChoiceSearchResultEntry_GC_C4 2 example_88 example_C4 rfl (by decide) (by decide)
  obtain ⟨d88, a1, _, a3, _⟩ := exact (by decide)
  obtain ⟨dC4, b1, _, b3, _, b5⟩ := tail (by decide) (by decide)
  exact ⟨long, ⟨d88, a1, (a3 0 (by decide)).trans (by decide),
      (a3 1 (by decide)).trans (by decide)⟩,
    ⟨dC4, b1, (b3 0 (by decide)).trans (by decide), (b3 1 (by decide)).trans (by decide),
      (b5 0x1A8 (by decide)).trans (by decide)⟩⟩

set_option maxRecDepth 8000 in
/-- C5, counterexample: in scenario E2 (saved login of 0x98 bytes, CRC patch flag on,
remote_ip_crc 0xDEADBEEF) the replayed 0x93 frame does not carry
0xDEADBEEF XOR 0x4DC8BED2 at bytes 0x94 to 0x97. -/
theorem process_server_bb_03_spec_constant_counterexample :
    ∃ s3 d frame,
      process_server_bb_03 example_server_state example_bb_session example_bb_03 =
        .returned false s3 d ∧
      s3.sent = [frame] ∧ frame.to_server = true ∧ frame.command = 0x93 ∧
      (frame.data.drop 0x94).take 4 = [0xDD, 0xAC, 0xDB, 0x46] ∧
      le_bytes 4 (xor32 0xDEADBEEF 0x4DC8BED2) = [0x3D, 0x00, 0x65, 0x93] ∧
      (frame.data.drop 0x94).take 4 ≠ le_bytes 4 (xor32 0xDEADBEEF 0x4DC8BED2) :=
  ⟨_, _, _, rfl, rfl, rfl, rfl, by decide, by decide, by decide⟩

/-- C5, amended: in process_server_bb_03 on a resumed D5 session (detector cipher
present) with a connected server, the CRC patch flag set and a saved login frame of
at least 0x98 bytes (a multiple of 4), for a server-init payload of accepted size
the handler returns forward=false and replays exactly one 0x93 frame toward the
server whose bytes 0x94 to 0x97 are remote_ip_crc XOR 0x98761232 (the sum
1309539928 + 1248334810) in little-endian order and whose other bytes are those
of the saved frame. -/
theorem process_server_bb_03_replays_patched_login (s : ServerState)
    (session : LinkedSession) (detector : DetectorCrypt) (data : List Nat)
    (hdetector : session.detector_crypt = some detector)
    (hlogin : 0x98 ≤ session.login_command_bb.length)
    (hquad : session.login_command_bb.length % 4 = 0)
    (hpatch : session.enable_remote_ip_crc_patch = true)
    (hserver : session.server_bev.isSome)
    (hmin : S_ServerInit_BB_03.after_message ≤ data.length)
    (hmax : data.length ≤ 0xFFFF) :
    ∃ s3 frame,
      process_server_bb_03 s session data = .returned false s3 data ∧
      s3.sent = session.sent ++ [frame] ∧
      frame.to_server = true ∧ frame.command = 0x93 ∧ frame.flag = 0 ∧
      frame.data.length = session.login_command_bb.length ∧
      (frame.data.drop 0x94).take 4 = le_bytes 4 (xor32 session.remote_ip_crc 0x98761232) ∧
      ∀ i, (i < 0x94 ∨ 0x98 ≤ i) → frame.data[i]? = session.login_command_bb[i]? := by
  have hne : session.login_command_bb ≠ [] := by
    intro h
    rw [h] at hlogin
    simp at hlogin
  have hlen : (store_le 4 session.login_command_bb 0x94
      (xor32 session.remote_ip_crc (1309539928 + 1248334810))).length =
      session.login_command_bb.length := store_le_length _ _ _ _ (by omega)
  unfold process_server_bb_03
  simp only [check_size_t_ok _ _ _ hmin hmax, hdetector, if_neg hne, hpatch]
  rw [if_pos ⟨trivial, hlogin⟩]
  simp only []
  rw [send_to_end_done _ true 0x93 0 _ (by rw [hlen]; exact hquad) (by simpa using hserver)]
  refine ⟨_, _, rfl, rfl, rfl, rfl, rfl, hlen, ?_, ?_⟩
  · exact take_drop_store_le _ _ _ _ (by omega)
  · intro i hi
    exact store_le_getElem?_other _ _ _ _ i (by omega) (by omega)

set_option maxRecDepth 8000 in
/-- C5, amended, at the instance of scenario E2. -/
theorem process_server_bb_03_replays_patched_login_witness :
    ∃ s3 frame,
      process_server_bb_03 example_server_state example_bb_session example_bb_03 =
        .returned false s3 example_bb_03 ∧
      s3.sent = [frame] ∧ frame.command = 0x93 ∧
      (frame.data.drop 0x94).take 4 = le_bytes 4 (xor32 0xDEADBEEF 0x98761232) := by
  obtain ⟨s3, frame, h1, h2, _, h4, _, _, h7, _⟩ :=
    process_server_bb_03_replays_patched_login example_server_state example_bb_session
      { possible_keys := [], expected_first_data := [0xB4, 0, 0x93, 0, 0, 0, 0, 0], seed := [] }
      example_bb_03 rfl (by decide) (by decide) rfl rfl (by decide) (by decide)
  exact ⟨s3, frame, h1, h2, h4, h7⟩

/-- C6: for every S->C 0xB2 payload and flag f on a session with file saving off: if
the pinned function-call return value is non-negative (and fits the 32-bit
return_value field) and the server is connected, process_server_B2 sends exactly one
frame, toward the server, with opcode 0xB3, flag f and an 8-byte payload holding
that value and a zero checksum, and returns forward=false; if the value is negative
it sends nothing and returns forward=true with session and payload unchanged. -/
theorem process_server_B2_blocks_function_call (env : Env) (session : LinkedSession)
    (flag : Nat) (data : List Nat) (hsave : session.save_files = false) :
    (0 ≤ session.function_call_return_value →
      session.function_call_return_value < 2 ^ 32 →
      session.server_bev.isSome →
      ∃ s2 frame,
        process_server_B2 env session flag data = .returned false s2 data ∧
        s2.sent = session.sent ++ [frame] ∧
        frame.to_server = true ∧ frame.command = 0xB3 ∧ frame.flag = flag ∧
        frame.data.length = 8 ∧
        (load_le 4 frame.data 0 : Int) = session.function_call_return_value ∧
        load_le 4 frame.data 4 = 0) ∧
    (session.function_call_return_value < 0 →
      process_server_B2 env session flag data = .returned true session data) := by
  constructor
  · intro hpos hfit hserver
    unfold process_server_B2
    simp only [hsave, Bool.false_eq_true, if_false]
    rw [if_pos (by simpa using hpos)]
    rw [send_to_end_done _ true 0xB3 flag _ (by simp [le_bytes_length])
      (by simpa using hserver)]
    refine ⟨_, _, rfl, rfl, rfl, rfl, rfl, by simp [le_bytes_length], ?_, ?_⟩
    · have htake : load_le 4 (le_bytes 4 session.function_call_return_value.toNat ++
          le_bytes 4 0) 0 = session.function_call_return_value.toNat % 256 ^ 4 := by
        unfold load_le
        rw [List.drop_zero, List.take_left' (le_bytes_length 4 _), le_value_le_bytes]
      simp only [send_command]
      rw [htake]
      omega
    · simp only [send_command]
      unfold load_le
      rw [List.drop_left' (le_bytes_length 4 _)]
      rfl
  · intro hneg
    unfold process_server_B2
    simp only [hsave, Bool.false_eq_true, if_false]
    rw [if_neg (by omega)]

/-- C6 at the instance of scenario E3: return value 0x12345678, a 0xB2 of 20 bytes. -/
theorem process_server_B2_blocks_function_call_witness :
    ∃ s2 frame,
      process_server_B2 example_env example_session_blocking 0x05 (List.replicate 20 0xAB) =
        .returned false s2 (List.replicate 20 0xAB) ∧
      s2.sent = [frame] ∧ frame.to_server = true ∧ frame.command = 0xB3 ∧
      frame.flag = 0x05 ∧ frame.data.length = 8 ∧
      (load_le 4 frame.data 0 : Int) = 0x12345678 ∧ load_le 4 frame.data 4 = 0 :=
  (process_server_B2_blocks_function_call example_env example_session_blocking 0x05
    (List.replicate 20 0xAB) rfl).1 (by decide) (by decide) rfl

/-- C7, the code at a failing input: in scenario E4 the client sits in roster slot 0
and another player in slot 1; process_client_dc_pc_gc_A0_A1 returns forward=false
and sends 0x69 leave commands for slot 0, the own slot of the client, and for
slot 1. -/
theorem process_client_A0_A1_leave_for_own_slot :
    ∃ s4,
      process_client_dc_pc_gc_A0_A1 example_server_state example_env example_lobby_session [] =
        .returned false s4 [] ∧
      example_lobby_session.lobby_client_id = 0 ∧
      ((s4.sent.filter (fun f => f.command = 0x69)).map (fun f => (f.to_server, f.flag))) =
        [(false, 0), (false, 1)] :=
  ⟨_, rfl, rfl, by decide⟩

/-- C8, counterexample: on a session whose prev_server_command_bytes array holds 6
bytes, the size the comment of the handler states, a server command whose payload
starts AA BB CC DD EE FF 00 11 leaves AA BB CC DD EE FF in the array, and the
3-byte 0x19 payload 22 33 44 is completed to 22 33 44 DD EE FF 00 00, not to
22 33 44 DD EE FF 00 11: the last two bytes are zero padding.  A 0x19 payload of 6
bytes is completed with zeros only.  The address and the port are read from
22 33 44 DD and EE FF. -/
theorem process_server_game_19_six_byte_array_counterexample :
    example_session_six.prev_server_command_bytes.length = 6 ∧
    (on_server_input (fun s from_server c f d => forward_command s (!from_server) c f d)
      example_session_six 0x60 0
      [0xAA, 0xBB, 0xCC, 0xDD, 0xEE, 0xFF, 0x00, 0x11]).prev_server_command_bytes =
      [0xAA, 0xBB, 0xCC, 0xDD, 0xEE, 0xFF] ∧
    complete_reconnect_payload example_session_E5_six.prev_server_command_bytes
      [0x22, 0x33, 0x44] = [0x22, 0x33, 0x44, 0xDD, 0xEE, 0xFF, 0x00, 0x00] ∧
    complete_reconnect_payload example_session_E5_six.prev_server_command_bytes
      [0x22, 0x33, 0x44] ≠ [0x22, 0x33, 0x44, 0xDD, 0xEE, 0xFF, 0x00, 0x11] ∧
    complete_reconnect_payload example_session_E5_six.prev_server_command_bytes
      [0x01, 0x02, 0x03, 0x04, 0x05, 0x06] =
      [0x01, 0x02, 0x03, 0x04, 0x05, 0x06, 0x00, 0x00] ∧
    (∃ s2,
      process_server_game_19_patch_14 example_env example_session_E5_six 0x19
        [0x22, 0x33, 0x44] =
        .returned true s2 ([0x22, 0x33, 0x44, 0xDD] ++ le_bytes 2 9100 ++ [0x00, 0x00]) ∧
      le_bytes 4 s2.next_destination.sin_addr = [0x22, 0x33, 0x44, 0xDD] ∧
      le_bytes 2 (ntohs s2.next_destination.sin_port) = [0xEE, 0xFF]) :=
  ⟨by decide, by decide, by decide, by decide, by decide, ⟨_, rfl, by decide, by decide⟩⟩

/-- C8, amended: for every S->C 0x19 payload of n < 8 bytes on a session whose saved
previous-command array holds L bytes b0..b(L-1), with L at most 0xB0,
process_server_game_19_patch_14 completes the payload to its own n bytes, followed
by b(n)..b(L-1) when n < L, followed by zeros up to 8 bytes.  For L = 6 a payload
of n < 6 bytes gets b(n)..b5 and two zeros and a payload of 6 or 7 bytes gets zeros
only; for L = 8 a payload gets b(n)..b7.  The next destination of the session is
then the IPv4 address read from bytes 0 to 3 and the port read from bytes 4 and 5
of the completed payload; with no client transport the completed payload is
returned as is, and for a client on a virtual connection only its port field is
replaced before forwarding. -/
theorem process_server_game_19_completes_undersized (env : Env) (session : LinkedSession)
    (data : List Nat) (hn : data.length < 8)
    (hsize : session.prev_server_command_bytes.length ≤ 0xB0) :
    complete_reconnect_payload session.prev_server_command_bytes data =
      (if data.length < session.prev_server_command_bytes.length then
        data ++ session.prev_server_command_bytes.drop data.length
      else data) ++
        List.replicate (8 - max data.length session.prev_server_command_bytes.length) 0 ∧
    (complete_reconnect_payload session.prev_server_command_bytes data).length =
      max 8 session.prev_server_command_bytes.length ∧
    (session.prev_server_command_bytes.length = 6 → data.length < 6 →
      complete_reconnect_payload session.prev_server_command_bytes data =
        data ++ session.prev_server_command_bytes.drop data.length ++ [0, 0]) ∧
    (session.prev_server_command_bytes.length = 6 → 6 ≤ data.length →
      complete_reconnect_payload session.prev_server_command_bytes data =
        data ++ List.replicate (8 - data.length) 0) ∧
    (session.prev_server_command_bytes.length = 8 →
      complete_reconnect_payload session.prev_server_command_bytes data =
        data ++ session.prev_server_command_bytes.drop data.length) ∧
    (process_server_game_19_patch_14 env session 0x19 data).session.next_destination =
      { ss_family := AF_INET
        sin_addr := load_le 4 (complete_reconnect_payload session.prev_server_command_bytes data) 0
        sin_port :=
          htons (load_le 2 (complete_reconnect_payload session.prev_server_command_bytes data) 4) } ∧
    (session.client_bev = none →
      ∃ s2, process_server_game_19_patch_14 env session 0x19 data =
        .returned false s2 (complete_reconnect_payload session.prev_server_command_bytes data)) ∧
    (∀ bev, session.client_bev = some bev → bev.fd < 0 →
      ∃ s2, process_server_game_19_patch_14 env session 0x19 data =
        .returned true s2
          (store_le 2 (complete_reconnect_payload session.prev_server_command_bytes data) 4
            session.local_port)) := by
  have heq := complete_reconnect_payload_eq session.prev_server_command_bytes data
  have hlen := complete_reconnect_payload_length_eq session.prev_server_command_bytes data hn
  obtain ⟨k1, k2, k3⟩ := process_server_game_19_of_payload env session data _ rfl
    (by rw [hlen]; omega) (by rw [hlen]; omega)
  refine ⟨heq, hlen, ?_, ?_, ?_, k1, k2, k3⟩
  · intro h6 hlt
    rw [heq, h6, if_pos hlt, Nat.max_eq_right (by omega)]
    rfl
  · intro h6 hge
    rw [heq, h6, if_neg (by omega), Nat.max_eq_left hge]
  · intro h8
    rw [heq, h8, if_pos hn, Nat.max_eq_right (by omega)]
    exact List.append_nil _

/-- C8, amended, at the instance of scenario E5 with a 6-byte array: saved bytes
AA BB CC DD EE FF and payload 22 33 44 give 22 33 44 DD EE FF 00 00, address bytes
22 33 44 DD and port bytes EE FF. -/
theorem process_server_game_19_completes_undersized_witness :
    complete_reconnect_payload example_session_E5_six.prev_server_command_bytes
      [0x22, 0x33, 0x44] = [0x22, 0x33, 0x44, 0xDD, 0xEE, 0xFF, 0x00, 0x00] ∧
    le_bytes 4 (process_server_game_19_patch_14 example_env example_session_E5_six 0x19
      [0x22, 0x33, 0x44]).session.next_destination.sin_addr = [0x22, 0x33, 0x44, 0xDD] ∧
    le_bytes 2 (ntohs (process_server_game_19_patch_14 example_env example_session_E5_six 0x19
      [0x22, 0x33, 0x44]).session.next_destination.sin_port) = [0xEE, 0xFF] := by
  obtain ⟨_, _, h1, _, _, h3, _, _⟩ :=
    process_server_game_19_completes_undersized example_env example_session_E5_six
      [0x22, 0x33, 0x44] (by decide) (by decide)
  have h2 := h1 (by decide) (by decide)
  refine ⟨h2.trans (by decide), ?_, ?_⟩
  · rw [h3, h2]; decide
  · rw [h3, h2]; decide

/-- C9, counterexample: a server command with the 9-byte payload 01 .. 09 is followed
by the 3-byte 0x19 payload 22 33 44 on a session with a virtual client and a 6-byte
array.  The last 8 bytes of the previous payload are 02 .. 09, so the claim predicts
the completed payload 22 33 44 05 06 07 08 09; the array holds the first bytes
01 .. 06, and the code forwards 22 33 44 04, the listener port and two zeros and
connects to the address 22 33 44 04. -/
theorem on_server_input_last_bytes_counterexample :
    (on_server_input (fun s from_server c f d => forward_command s (!from_server) c f d)
      example_session_six 0x60 0 [1, 2, 3, 4, 5, 6, 7, 8, 9]).prev_server_command_bytes =
      [1, 2, 3, 4, 5, 6] ∧
    ∃ s2,
      on_server_input (fun s _ c _ d => process_server_game_19_patch_14 example_env s c d)
        (on_server_input (fun s from_server c f d => forward_command s (!from_server) c f d)
          example_session_six 0x60 0 [1, 2, 3, 4, 5, 6, 7, 8, 9])
        0x19 0 [0x22, 0x33, 0x44] =
        .returned true s2 ([0x22, 0x33, 0x44, 0x04] ++ le_bytes 2 9100 ++ [0x00, 0x00]) ∧
      le_bytes 4 s2.next_destination.sin_addr = [0x22, 0x33, 0x44, 0x04] ∧
      [0x22, 0x33, 0x44] ++ (([1, 2, 3, 4, 5, 6, 7, 8, 9].drop (9 - 8)).drop 3) =
        [0x22, 0x33, 0x44, 0x05, 0x06, 0x07, 0x08, 0x09] ∧
      le_bytes 4 s2.next_destination.sin_addr ≠
        ([0x22, 0x33, 0x44] ++ (([1, 2, 3, 4, 5, 6, 7, 8, 9].drop (9 - 8)).drop 3)).take 4 :=
  ⟨by decide, _, rfl, by decide, by decide, by decide⟩

/-- C9, amended: on a session whose prev_server_command_bytes array holds L bytes, with
L at most 0xB0, on_server_input saves the FIRST L bytes of the payload of each
server command of at least L bytes (before the command is processed); when the next server command is an S->C 0x19 of n < 8 bytes, the bytes
that complete it are bytes n to L-1 of those first L bytes of the previous payload
(none when n is L or more), followed by zeros up to 8 bytes: the next destination
is parsed from the payload completed so, and that completed payload is what the
handler returns (as is with no client transport, with only the port replaced for a
client on a virtual connection). -/
theorem on_server_input_saves_first_bytes (env : Env)
    (process : LinkedSession → Bool → Nat → Nat → List Nat → LinkedSession)
    (hprocess : ∀ s from_server command flag data,
      (process s from_server command flag data).prev_server_command_bytes =
        s.prev_server_command_bytes)
    (session : LinkedSession) (command flag flag19 : Nat) (previous data : List Nat)
    (hsize : session.prev_server_command_bytes.length ≤ 0xB0)
    (hNL : session.prev_server_command_bytes.length ≤ previous.length)
    (hn : data.length < 8) :
    (on_server_input process session command flag previous).prev_server_command_bytes =
      previous.take session.prev_server_command_bytes.length ∧
    complete_reconnect_payload (previous.take session.prev_server_command_bytes.length) data =
      (if data.length < session.prev_server_command_bytes.length then
        data ++ (previous.take session.prev_server_command_bytes.length).drop data.length
      else data) ++
        List.replicate (8 - max data.length session.prev_server_command_bytes.length) 0 ∧
    (on_server_input (fun s _ c _ d => process_server_game_19_patch_14 env s c d)
        (on_server_input process session command flag previous) 0x19 flag19
        data).session.next_destination =
      { ss_family := AF_INET
        sin_addr :=
          load_le 4 (complete_reconnect_payload
            (previous.take session.prev_server_command_bytes.length) data) 0
        sin_port :=
          htons (load_le 2 (complete_reconnect_payload
            (previous.take session.prev_server_command_bytes.length) data) 4) } ∧
    ((on_server_input process session command flag previous).client_bev = none →
      ∃ s2,
        on_server_input (fun s _ c _ d => process_server_game_19_patch_14 env s c d)
          (on_server_input process session command flag previous) 0x19 flag19 data =
          .returned false s2
            (complete_reconnect_payload
              (previous.take session.prev_server_command_bytes.length) data)) ∧
    (∀ bev, (on_server_input process session command flag previous).client_bev = some bev →
      bev.fd < 0 →
      ∃ s2,
        on_server_input (fun s _ c _ d => process_server_game_19_patch_14 env s c d)
          (on_server_input process session command flag previous) 0x19 flag19 data =
          .returned true s2
            (store_le 2
              (complete_reconnect_payload
                (previous.take session.prev_server_command_bytes.length) data) 4
              (on_server_input process session command flag previous).local_port)) := by
  have htake : (previous.take session.prev_server_command_bytes.length).length =
      session.prev_server_command_bytes.length := by
    rw [List.length_take]; omega
  have hsaved : (on_server_input process session command flag previous).prev_server_command_bytes =
      previous.take session.prev_server_command_bytes.length := by
    unfold on_server_input
    rw [hprocess]
    simp only [Nat.min_eq_right hNL]
    exact store_bytes_zero_full _ _ (by rw [List.length_take]; omega)
  have hform := complete_reconnect_payload_eq
    (previous.take session.prev_server_command_bytes.length) data
  rw [htake] at hform
  have hlen := complete_reconnect_payload_length_eq
    (previous.take session.prev_server_command_bytes.length) data hn
  rw [htake] at hlen
  generalize on_server_input process session command flag previous = s1 at hsaved ⊢
  have hc : complete_reconnect_payload
      (store_bytes s1.prev_server_command_bytes 0
        (data.take (min data.length s1.prev_server_command_bytes.length))) data =
      complete_reconnect_payload (previous.take session.prev_server_command_bytes.length)
        data := by
    rw [complete_reconnect_payload_after_save, hsaved]
  obtain ⟨k1, k2, k3⟩ := process_server_game_19_of_payload env
    { s1 with
      prev_server_command_bytes :=
        store_bytes s1.prev_server_command_bytes 0
          (data.take (min data.length s1.prev_server_command_bytes.length)) }
    data _ hc (by rw [hlen]; omega) (by rw [hlen]; omega)
  refine ⟨hsaved, hform, ?_, ?_, ?_⟩
  · unfold on_server_input
    exact k1
  · intro hb
    unfold on_server_input
    exact k2 hb
  · intro bev hb hfd
    unfold on_server_input
    exact k3 bev hb hfd

/-- C9, amended, at a concrete instance with a 6-byte array: the previous command
01 .. 09 is forwarded by the default handler, then the 0x19 payload 22 33 44
arrives. -/
theorem on_server_input_saves_first_bytes_witness :
    (on_server_input (fun s from_server c f d => forward_command s (!from_server) c f d)
        example_session_six 0x60 0 [1, 2, 3, 4, 5, 6, 7, 8, 9]).prev_server_command_bytes =
      [1, 2, 3, 4, 5, 6] ∧
    (on_server_input (fun s _ c _ d => process_server_game_19_patch_14 example_env s c d)
        (on_server_input (fun s from_server c f d => forward_command s (!from_server) c f d)
          example_session_six 0x60 0 [1, 2, 3, 4, 5, 6, 7, 8, 9])
        0x19 0 [0x22, 0x33, 0x44]).session.next_destination =
      { ss_family := AF_INET
        sin_addr := load_le 4 [0x22, 0x33, 0x44, 4, 5, 6, 0, 0] 0
        sin_port := htons (load_le 2 [0x22, 0x33, 0x44, 4, 5, 6, 0, 0] 4) } := by
  obtain ⟨h1, _, h2, _, _⟩ :=
    on_server_input_saves_first_bytes example_env
      (fun s from_server c f d => forward_command s (!from_server) c f d)
      (fun s from_server command flag data =>
        forward_command_prev_server_command_bytes s (!from_server) command flag data)
      example_session_six 0x60 0 0 [1, 2, 3, 4, 5, 6, 7, 8, 9] [0x22, 0x33, 0x44]
      (by decide) (by decide) (by decide)
  exact ⟨h1, h2⟩

set_option maxRecDepth 8000 in
/-- C10, counterexample: with opcode 0x14 and a payload of 0xB1 bytes the handler
raises the size error instead of returning forward=false. -/
theorem process_server_patch_14_oversized_counterexample :
    (∃ s, process_server_game_19_patch_14 example_env example_session 0x14
        (List.replicate 0xB1 0) = .threw "command too large" s) ∧
    ∀ s d, process_server_game_19_patch_14 example_env example_session 0x14
        (List.replicate 0xB1 0) ≠ .returned false s d := by
  have h : ∃ s, process_server_game_19_patch_14 example_env example_session 0x14
      (List.replicate 0xB1 0) = .threw "command too large" s := ⟨_, rfl⟩
  refine ⟨h, ?_⟩
  obtain ⟨s0, hs0⟩ := h
  intro s d
  rw [hs0]
  exact fun hne => Outcome.noConfusion hne

/-- C10, amended: process_server_game_19_patch_14 invoked with opcode 0x14 never
returns forward=true, for every payload and every session state: it returns
forward=false or raises an error.  When a client transport is present and the
completed payload has at most 0xB0 bytes, the session it leaves behind has both
server-side ciphers reset to none, both client-side ciphers unchanged and the next
destination set to the address and port fields of the payload (the port as stored
in the command, without htons); if moreover the connection attempt succeeds, the
handler returns forward=false with the completed payload. -/
theorem process_server_patch_14_never_forwards (env : Env) (session : LinkedSession)
    (data : List Nat) :
    (∀ forward s d,
      process_server_game_19_patch_14 env session 0x14 data = .returned forward s d →
      forward = false) ∧
    ((complete_reconnect_payload session.prev_server_command_bytes data).length ≤ 0xB0 →
      session.client_bev.isSome →
      (process_server_game_19_patch_14 env session 0x14 data).session.server_input_crypt =
        none ∧
      (process_server_game_19_patch_14 env session 0x14 data).session.server_output_crypt =
        none ∧
      (process_server_game_19_patch_14 env session 0x14 data).session.client_input_crypt =
        session.client_input_crypt ∧
      (process_server_game_19_patch_14 env session 0x14 data).session.client_output_crypt =
        session.client_output_crypt ∧
      (process_server_game_19_patch_14 env session 0x14 data).session.next_destination =
        { ss_family := AF_INET
          sin_addr :=
            load_le 4 (complete_reconnect_payload session.prev_server_command_bytes data) 0
          sin_port :=
            load_le 2 (complete_reconnect_payload session.prev_server_command_bytes data) 4 } ∧
      (env.socket_connect_ok
          { ss_family := AF_INET
            sin_addr :=
              load_le 4 (complete_reconnect_payload session.prev_server_command_bytes data) 0
            sin_port :=
              load_le 2 (complete_reconnect_payload session.prev_server_command_bytes data) 4 } =
          true →
        ∃ s4, process_server_game_19_patch_14 env session 0x14 data =
          .returned false s4
            (complete_reconnect_payload session.prev_server_command_bytes data))) := by
  constructor
  · have hnever : (process_server_game_19_patch_14 env session 0x14 data).forwards = false := by
      by_cases hmax :
          (complete_reconnect_payload session.prev_server_command_bytes data).length ≤ 0xB0
      · have hsize := check_size_t_ok _ _ _
          (complete_reconnect_payload_length session.prev_server_command_bytes data) hmax
        unfold process_server_game_19_patch_14
        simp only [S_Reconnect_19.sizeof, hsize]
        cases hb : session.client_bev with
        | none =>
          by_cases hp : session.enable_remote_ip_crc_patch = true <;>
            simp [hp, hb, Outcome.forwards]
        | some bev =>
          by_cases hp : session.enable_remote_ip_crc_patch = true <;>
          by_cases hok : env.socket_connect_ok
            { ss_family := AF_INET
              sin_addr :=
                load_le 4 (complete_reconnect_payload session.prev_server_command_bytes data) 0
              sin_port :=
                load_le 2 (complete_reconnect_payload session.prev_server_command_bytes data) 4 } =
            true <;>
            simp [hp, hb, hok, connect, Step.andThen, Outcome.forwards,
              S_Reconnect_19.address, S_Reconnect_19.port]
      · have hsize := check_size_t_too_large _ 8 0xB0
          (complete_reconnect_payload_length session.prev_server_command_bytes data)
          (by omega)
        unfold process_server_game_19_patch_14
        simp only [S_Reconnect_19.sizeof, hsize, Outcome.forwards]
    intro forward s d h
    rw [h] at hnever
    exact hnever
  · intro hmax hclient
    have hsize := check_size_t_ok _ _ _
      (complete_reconnect_payload_length session.prev_server_command_bytes data) hmax
    obtain ⟨bev, hb⟩ := Option.isSome_iff_exists.mp hclient
    unfold process_server_game_19_patch_14
    simp only [S_Reconnect_19.sizeof, hsize, S_Reconnect_19.address, S_Reconnect_19.port]
    by_cases hp : session.enable_remote_ip_crc_patch = true <;>
    by_cases hok : env.socket_connect_ok
          { ss_family := AF_INET
            sin_addr :=
              load_le 4 (complete_reconnect_payload session.prev_server_command_bytes data) 0
            sin_port :=
              load_le 2 (complete_reconnect_payload session.prev_server_command_bytes data) 4 } =
          true <;>
      simp [hp, hb, hok, connect, Step.andThen, Outcome.session]

/-- C10, amended, at a concrete instance: a patch session with armed ciphers receives
the 0x14 payload 0A 00 00 05 2A F9 00 00. -/
theorem process_server_patch_14_never_forwards_witness :
    (process_server_game_19_patch_14 example_env example_patch_session 0x14
      [0x0A, 0x00, 0x00, 0x05, 0x2A, 0xF9, 0x00, 0x00]).session.server_input_crypt = none ∧
    (process_server_game_19_patch_14 example_env example_patch_session 0x14
      [0x0A, 0x00, 0x00, 0x05, 0x2A, 0xF9, 0x00, 0x00]).session.server_output_crypt = none ∧
    (process_server_game_19_patch_14 example_env example_patch_session 0x14
      [0x0A, 0x00, 0x00, 0x05, 0x2A, 0xF9, 0x00, 0x00]).session.client_input_crypt =
      some (Crypt.PSOPCEncryption 1) ∧
    ∃ s4, process_server_game_19_patch_14 example_env example_patch_session 0x14
      [0x0A, 0x00, 0x00, 0x05, 0x2A, 0xF9, 0x00, 0x00] =
      .returned false s4 [0x0A, 0x00, 0x00, 0x05, 0x2A, 0xF9, 0x00, 0x00] := by
  obtain ⟨h1, h2, h3, _, _, h6⟩ :=
    (process_server_patch_14_never_forwards example_env example_patch_session
      [0x0A, 0x00, 0x00, 0x05, 0x2A, 0xF9, 0x00, 0x00]).2 (by decide) rfl
  exact ⟨h1, h2, h3, h6 rfl⟩

/-- C11: for an S->C 0x19 on a session whose client is on a virtual connection (client
transport present, descriptor negative) and a completed payload of accepted size,
process_server_game_19_patch_14 returns forward=true and the forwarded payload
differs from the completed incoming payload only in the port field, bytes 4 and 5,
which holds the local listener port of the session: the length, the four address
bytes and all bytes from offset 6 on are unchanged. -/
theorem process_server_game_19_virtual_rewrites_port (env : Env) (session : LinkedSession)
    (bev : Bufferevent) (data : List Nat)
    (hclient : session.client_bev = some bev) (hvirtual : bev.fd < 0)
    (hport : session.local_port < 2 ^ 16)
    (hmax : (complete_reconnect_payload session.prev_server_command_bytes data).length ≤ 0xB0) :
    ∃ s2 d,
      process_server_game_19_patch_14 env session 0x19 data = .returned true s2 d ∧
      d.length = (complete_reconnect_payload session.prev_server_command_bytes data).length ∧
      load_le 2 d 4 = session.local_port ∧
      ∀ i, (i < 4 ∨ 6 ≤ i) →
        d[i]? = (complete_reconnect_payload session.prev_server_command_bytes data)[i]? := by
  have hmin := complete_reconnect_payload_length session.prev_server_command_bytes data
  have hsize := check_size_t_ok _ _ _ hmin hmax
  have hfd : ¬ (0 ≤ bev.fd) := by omega
  have hfield : 4 + 2 ≤
      (complete_reconnect_payload session.prev_server_command_bytes data).length := by omega
  have hout : ∃ s2, process_server_game_19_patch_14 env session 0x19 data =
      .returned true s2
        (store_le 2 (complete_reconnect_payload session.prev_server_command_bytes data) 4
          session.local_port) := by
    unfold process_server_game_19_patch_14
    simp only [S_Reconnect_19.sizeof, hsize]
    by_cases hp : session.enable_remote_ip_crc_patch = true <;>
      simp [hp, hclient, hfd, S_Reconnect_19.port]
  obtain ⟨s2, hs2⟩ := hout
  refine ⟨s2, _, hs2, store_le_length _ 4 2 _ hfield, ?_, ?_⟩
  · rw [load_le_store_le _ 4 2 _ hfield]
    exact Nat.mod_eq_of_lt (by norm_num at hport ⊢; exact hport)
  · intro i hi
    exact store_le_getElem?_other _ 4 2 _ i hfield (by omega)

/-- C11 at the instance of scenario E5: the client is on a virtual connection and the
listener port is 9100; the completed payload 22 33 44 DD EE FF 00 11 is forwarded
as 22 33 44 DD, the port, 00 11. -/
theorem process_server_game_19_virtual_rewrites_port_witness :
    ∃ s2 d,
      process_server_game_19_patch_14 example_env example_session_E5 0x19 [0x22, 0x33, 0x44] =
        .returned true s2 d ∧
      d.length = 8 ∧ load_le 2 d 4 = 9100 ∧
      d[0]? = some 0x22 ∧ d[3]? = some 0xDD ∧ d[6]? = some 0x00 ∧ d[7]? = some 0x11 := by
  obtain ⟨s2, d, h1, h2, h3, h4⟩ :=
    process_server_game_19_virtual_rewrites_port example_env example_session_E5
      { fd := -1 } [0x22, 0x33, 0x44] rfl (by decide) (by decide) (by decide)
  exact ⟨s2, d, h1, h2.trans (by decide), h3, (h4 0 (by decide)).trans (by decide),
    (h4 3 (by decide)).trans (by decide), (h4 6 (by decide)).trans (by decide),
    (h4 7 (by decide)).trans (by decide)⟩

/-- C12, counterexample: with command suppression enabled, a 0x06 payload whose text
starts with a tab, the byte C and a dollar sign is not dropped. -/
theorem process_client_06_tab_C_counterexample :
    example_session.suppress_newserv_commands = true ∧
    example_chat_tab_C.drop 8 = [0x09, 0x43, 0x24, 0x00] ∧
    process_client_06 example_env example_session example_chat_tab_C =
      .returned true example_session example_chat_tab_C ∧
    process_client_06 example_env example_session example_chat_tab_C ≠
      .returned false example_session example_chat_tab_C := by
  decide

/-- C12, amended: for every C->S 0x06 payload of at least 12 bytes on a session with
command suppression enabled, if the text starting at payload offset 8 begins with
a dollar sign, or begins with a tab followed by one byte other than the letter C
followed by a dollar sign, then process_client_06 returns forward=false with the
session and the payload unchanged; with suppression disabled the handler never
drops a frame. -/
theorem process_client_06_drops_commands (env : Env) (session : LinkedSession)
    (data : List Nat) :
    (session.suppress_newserv_commands = true → 12 ≤ data.length →
      (data.getD 8 0 = 0x24 ∨
        (data.getD 8 0 = 0x09 ∧ data.getD 9 0 ≠ 0x43 ∧ data.getD 10 0 = 0x24)) →
      process_client_06 env session data = .returned false session data) ∧
    (session.suppress_newserv_commands = false →
      (process_client_06 env session data).forwards = true) := by
  constructor
  · intro hs hlen htext
    unfold process_client_06
    rw [if_pos hlen, if_pos ⟨hs, htext⟩]
  · intro hs
    unfold process_client_06
    by_cases hlen : data.length ≥ 12 <;>
    by_cases hf : session.enable_chat_filter = true <;>
      simp [hlen, hs, hf, Outcome.forwards]

/-- C12, amended, at a concrete instance: tab, the letter E and a dollar sign. -/
theorem process_client_06_drops_commands_witness :
    process_client_06 example_env example_session example_chat_tab_E =
      .returned false example_session example_chat_tab_E :=
  (process_client_06_drops_commands example_env example_session example_chat_tab_E).1
    rfl (by decide) (by decide)

/-- C13: with switch assist enabled and both endpoints connected, for two C->S
subcommand-0x05 frames A then B that both have enabled set and switch_id other than
0xFFFF: handling A caches A; handling B on any session whose cached command is A
(nothing in between replaced it) sends exactly one copy of A toward the server and
then one toward the client, returns forward=true with B unchanged and caches B, so
that the forward of B that follows comes after both copies. -/
theorem process_client_switch_assist_replays (SwitchT : SwitchRecord)
    (session later : LinkedSession) (flag : Nat) (A B : List Nat)
    (hquad : SwitchT.sizeof % 4 = 0)
    (hassist : session.enable_switch_assist = true)
    (hclient : session.client_bev.isSome) (hserver : session.server_bev.isSome)
    (hcached : session.last_switch_enabled_command.getD 0 0 = 0x05 →
      session.last_switch_enabled_command.length = SwitchT.sizeof)
    (hA : A.length = SwitchT.sizeof) (hA0 : A.getD 0 0 = 0x05)
    (hAenabled : A.getD SwitchT.enabled 0 ≠ 0)
    (hAswitch : load_le 2 A SwitchT.switch_id ≠ 0xFFFF)
    (hB : B.length = SwitchT.sizeof) (hB0 : B.getD 0 0 = 0x05)
    (hBenabled : B.getD SwitchT.enabled 0 ≠ 0)
    (hBswitch : load_le 2 B SwitchT.switch_id ≠ 0xFFFF)
    (hlater : later.last_switch_enabled_command = A)
    (hlater_assist : later.enable_switch_assist = true)
    (hlater_client : later.client_bev.isSome) (hlater_server : later.server_bev.isSome) :
    (∃ s1, process_client_60_62_6C_6D_C9_CB_void SwitchT session A = .returned true s1 A ∧
      s1.last_switch_enabled_command = A) ∧
    (∃ s2, process_client_60_62_6C_6D_C9_CB_void SwitchT later B = .returned true s2 B ∧
      s2.sent = later.sent ++
        [{ to_server := true, crypt := later.server_output_crypt, command := 0x60, flag := 0,
           data := A },
         { to_server := false, crypt := later.client_output_crypt, command := 0x60, flag := 0,
           data := A }] ∧
      s2.last_switch_enabled_command = B ∧
      (forward_command s2 true 0x60 flag B).sent = later.sent ++
        [{ to_server := true, crypt := later.server_output_crypt, command := 0x60, flag := 0,
           data := A },
         { to_server := false, crypt := later.client_output_crypt, command := 0x60, flag := 0,
           data := A },
         { to_server := true, crypt := later.server_output_crypt, command := 0x60, flag := flag,
           data := B }]) := by
  have hAne : A ≠ [] := by
    intro h; rw [h] at hA0; simp at hA0
  have hBne : B ≠ [] := by
    intro h; rw [h] at hB0; simp at hB0
  constructor
  · unfold process_client_60_62_6C_6D_C9_CB_void
    rw [if_pos ⟨hAne, hA0, hassist⟩]
    simp only [check_size_t_ok _ _ _ (le_of_eq hA.symm) (le_of_eq hA)]
    rw [if_pos ⟨hAenabled, hAswitch⟩]
    by_cases hc : session.last_switch_enabled_command.getD 0 0 = 0x05
    · have hlen : session.last_switch_enabled_command.length % 4 = 0 := by
        rw [hcached hc]; exact hquad
      simp only [hc, if_true]
      rw [send_to_end_done session true 0x60 0 _ hlen (by simpa using hserver)]
      simp only []
      rw [send_to_end_done _ false 0x60 0 _ (by simpa [send_command] using hlen)
        (by simpa [send_command] using hclient)]
      exact ⟨_, rfl, rfl⟩
    · simp only [hc, if_false]
      exact ⟨_, rfl, rfl⟩
  · obtain ⟨sbev, hsbev⟩ := Option.isSome_iff_exists.mp hlater_server
    have hlen : later.last_switch_enabled_command.length % 4 = 0 := by
      rw [hlater, hA]; exact hquad
    have hc : later.last_switch_enabled_command.getD 0 0 = 0x05 := by rw [hlater]; exact hA0
    unfold process_client_60_62_6C_6D_C9_CB_void
    rw [if_pos ⟨hBne, hB0, hlater_assist⟩]
    simp only [check_size_t_ok _ _ _ (le_of_eq hB.symm) (le_of_eq hB)]
    rw [if_pos ⟨hBenabled, hBswitch⟩]
    simp only [hc, if_true]
    rw [send_to_end_done later true 0x60 0 _ hlen (by simpa using hlater_server)]
    simp only []
    rw [send_to_end_done _ false 0x60 0 _ (by simpa [send_command] using hlen)
      (by simpa [send_command] using hlater_client)]
    refine ⟨_, rfl, ?_, rfl, ?_⟩
    · simp [Step.andThen, send_command, hlater]
    · simp [Step.andThen, send_command, forward_command, hlater, hsbev]

/-- C13 at a concrete instance: switch 0x0010 is enabled, then switch 0x0011. -/
theorem process_client_switch_assist_replays_witness :
    ∃ s2,
      process_client_60_62_6C_6D_C9_CB_void G_SwitchStateChanged_6x05
        { example_assist_session with last_switch_enabled_command := example_switch_A }
        example_switch_B = .returned true s2 example_switch_B ∧
      s2.sent.map (fun f => (f.to_server, f.data)) =
        [(true, example_switch_A), (false, example_switch_A)] ∧
      s2.last_switch_enabled_command = example_switch_B := by
  obtain ⟨_, s2, h1, h2, h3, _⟩ :=
    process_client_switch_assist_replays G_SwitchStateChanged_6x05 example_assist_session
      { example_assist_session with last_switch_enabled_command := example_switch_A }
      0 example_switch_A example_switch_B (by decide) rfl rfl rfl (by decide) (by decide)
      (by decide) (by decide) (by decide) (by decide) (by decide) (by decide) (by decide)
      rfl rfl rfl rfl
  exact ⟨s2, h1, by rw [h2]; decide, h3⟩

/-- C14, counterexample: a GC session without a license and a licensed PC session,
both with the infinite-HP flag set and a connected client, send nothing when the
client sends a take-damage subcommand 0x2F; the frame is forwarded unchanged. -/
theorem process_client_infinite_hp_counterexample :
    example_unlicensed_hp_session.infinite_hp = true ∧
    get_handler GameVersion.GC false 0x60 =
      Handler.process_client_60_62_6C_6D_C9_CB_G_SendGuildCard_GC_6x06 ∧
    process_client_60_62_6C_6D_C9_CB G_SendGuildCard_GC_6x06 G_SwitchStateChanged_6x05
      example_unlicensed_hp_session example_take_damage =
      .returned true example_unlicensed_hp_session example_take_damage ∧
    example_unlicensed_hp_session.sent = [] ∧
    example_pc_hp_session.infinite_hp = true ∧ example_pc_hp_session.license.isSome = true ∧
    get_handler GameVersion.PC false 0x60 = Handler.process_client_60_62_6C_6D_C9_CB_void ∧
    process_client_60_62_6C_6D_C9_CB_void G_SwitchStateChanged_6x05 example_pc_hp_session
      example_take_damage = .returned true example_pc_hp_session example_take_damage ∧
    example_pc_hp_session.sent = [] := by
  decide

/-- C14, amended: the handler tables give the subcommand opcodes 0x60, 0x62, 0x6C and
0x6D the template handler on GC and BB and its void specialization, which has no
infinite-HP or infinite-TP code, on DC and PC.  On a licensed session with a
connected client the template handler, for a payload whose first byte is 0x2F or
0x4C with the infinite-HP flag set, sends one 0x60 frame toward the client made of
four 0x9A stat-change subcommands adding 255 HP each, and for a first byte 0x48
with the infinite-TP flag set one 0x60 frame with a 0x9A subcommand adding 255 TP;
in both cases it returns forward=true with the payload unchanged. -/
theorem process_client_infinite_hp_tp (SendGuildCardCmdT : CardEntry)
    (SwitchT : SwitchRecord) (session : LinkedSession) (license : License) (data : List Nat)
    (hlicense : session.license = some license) (hclient : session.client_bev.isSome) :
    (∀ command, command = 0x60 ∨ command = 0x62 ∨ command = 0x6C ∨ command = 0x6D →
      get_handler GameVersion.GC false command =
        Handler.process_client_60_62_6C_6D_C9_CB_G_SendGuildCard_GC_6x06 ∧
      get_handler GameVersion.BB false command =
        Handler.process_client_60_62_6C_6D_C9_CB_G_SendGuildCard_BB_6x06 ∧
      get_handler GameVersion.DC false command =
        Handler.process_client_60_62_6C_6D_C9_CB_void ∧
      get_handler GameVersion.PC false command =
        Handler.process_client_60_62_6C_6D_C9_CB_void) ∧
    (session.infinite_hp = true → (data.getD 0 0 = 0x2F ∨ data.getD 0 0 = 0x4C) →
      ∃ s1,
        process_client_60_62_6C_6D_C9_CB SendGuildCardCmdT SwitchT session data =
          .returned true s1 data ∧
        s1.sent = session.sent ++
          [{ to_server := false, crypt := session.client_output_crypt, command := 0x60,
             flag := 0,
             data :=
               [0x9A, 0x02, session.lobby_client_id % 256, 0x00,
                0x00, 0x00, PlayerStatsChange.ADD_HP, 0xFF,
                0x9A, 0x02, session.lobby_client_id % 256, 0x00,
                0x00, 0x00, PlayerStatsChange.ADD_HP, 0xFF,
                0x9A, 0x02, session.lobby_client_id % 256, 0x00,
                0x00, 0x00, PlayerStatsChange.ADD_HP, 0xFF,
                0x9A, 0x02, session.lobby_client_id % 256, 0x00,
                0x00, 0x00, PlayerStatsChange.ADD_HP, 0xFF] }]) ∧
    (session.infinite_tp = true → data.getD 0 0 = 0x48 →
      ∃ s1,
        process_client_60_62_6C_6D_C9_CB SendGuildCardCmdT SwitchT session data =
          .returned true s1 data ∧
        s1.sent = session.sent ++
          [{ to_server := false, crypt := session.client_output_crypt, command := 0x60,
             flag := 0,
             data :=
               [0x9A, 0x02, session.lobby_client_id % 256, 0x00,
                0x00, 0x00, PlayerStatsChange.ADD_TP, 0xFF] }]) := by
  refine ⟨?_, ?_, ?_⟩
  · intro command hcommand
    rcases hcommand with h | h | h | h <;> subst h <;> decide
  · intro hhp hfirst
    have hne : data ≠ [] := by
      intro h; rw [h] at hfirst; simp at hfirst
    have h06 : ¬ data.getD 0 0 = 0x06 := by omega
    have h05 : ¬ data.getD 0 0 = 0x05 := by omega
    unfold process_client_60_62_6C_6D_C9_CB
    simp only [hlicense]
    rw [if_pos hne, if_neg h06, if_pos hfirst, if_pos hhp, add_hp_subcommands_1020]
    rw [send_to_end_done session false 0x60 0 _ (by simp [le_bytes_length])
      (by simpa using hclient)]
    simp only [Step.andThen]
    unfold process_client_60_62_6C_6D_C9_CB_void
    rw [if_neg (fun h => h05 h.2.1)]
    exact ⟨_, rfl, rfl⟩
  · intro htp hfirst
    have hne : data ≠ [] := by
      intro h; rw [h] at hfirst; simp at hfirst
    have h06 : ¬ data.getD 0 0 = 0x06 := by omega
    have h05 : ¬ data.getD 0 0 = 0x05 := by omega
    have h2F : ¬ (data.getD 0 0 = 0x2F ∨ data.getD 0 0 = 0x4C) := by omega
    unfold process_client_60_62_6C_6D_C9_CB
    simp only [hlicense]
    rw [if_pos hne, if_neg h06, if_neg h2F, if_pos hfirst, if_pos htp]
    rw [send_to_end_done session false 0x60 0 _ (by simp [le_bytes_length])
      (by simpa using hclient)]
    simp only [Step.andThen]
    unfold process_client_60_62_6C_6D_C9_CB_void
    rw [if_neg (fun h => h05 h.2.1)]
    exact ⟨_, rfl, rfl⟩

/-- C14, amended, at a concrete instance: a licensed GC session in roster slot 2 takes
damage. -/
theorem process_client_infinite_hp_tp_witness :
    ∃ s1,
      process_client_60_62_6C_6D_C9_CB G_SendGuildCard_GC_6x06 G_SwitchStateChanged_6x05
        example_gc_hp_session example_take_damage = .returned true s1 example_take_damage ∧
      s1.sent.map (fun f => (f.to_server, f.command, f.data.length)) = [(false, 0x60, 32)] := by
  obtain ⟨s1, h1, h2⟩ :=
    (process_client_infinite_hp_tp G_SendGuildCard_GC_6x06 G_SwitchStateChanged_6x05
      example_gc_hp_session example_license example_take_damage rfl rfl).2.1 rfl
      (by decide)
  exact ⟨s1, h1, by rw [h2]; decide⟩

/-- C15: for every S->C 0x67 lobby-join of the expected size followed by an S->C 0x69
leave of four bytes whose client_id is a slot k below 12, both handlers return
forward=true, and afterwards the roster still has 12 entries, the entry at slot k
has guild card 0 and an empty name, and every other entry is the one the roster
held right after the 0x67. -/
theorem process_server_67_then_69_clears_slot (CmdT : JoinLobbyRecord) (flags : ClientFlag)
    (session : LinkedSession) (flag : Nat) (join leave : List Nat) (k : Nat)
    (hjoin : join.length = CmdT.entries + CmdT.entry_sizeof * flag)
    (hleave : leave.length = S_LeaveLobby_66_69_Ep3_E9.sizeof)
    (hslot : leave.getD 0 0 = k) (hk : k < 12) :
    ∃ s1 d s2,
      process_server_65_67_68 CmdT flags session 0x67 flag join = .returned true s1 d ∧
      process_server_66_69 s1 leave = .returned true s2 leave ∧
      s2.lobby_players.length = 12 ∧
      s2.lobby_players[k]? = some { guild_card_number := 0, name := [] } ∧
      ∀ i, i ≠ k → s2.lobby_players[i]? = s1.lobby_players[i]? := by
  obtain ⟨s1, d, h1, hlen⟩ := process_server_65_67_68_returns CmdT flags session 0x67 flag
    join hjoin
  rw [if_pos rfl] at hlen
  have hin : ¬ (leave.getD 0 0 ≥ s1.lobby_players.length) := by rw [hslot, hlen]; omega
  refine ⟨s1, d,
    { s1 with
      lobby_players := s1.lobby_players.set k { guild_card_number := 0, name := [] } },
    h1, ?_, ?_, ?_, ?_⟩
  · unfold process_server_66_69
    simp only [check_size_t_ok _ _ _ (le_of_eq hleave.symm) (le_of_eq hleave)]
    rw [if_neg hin, hslot]
  · simp only [List.length_set, hlen]
  · simp [List.getElem?_set, hlen, hk]
  · intro i hi
    simp only []
    rw [List.getElem?_set_ne (Ne.symm hi)]

set_option maxRecDepth 20000 in
/-- C15 at a concrete instance: a 0x67 announcing player 42 in slot 1, then a 0x69 for
slot 1. -/
theorem process_server_67_then_69_clears_slot_witness :
    ∃ s1 d s2,
      process_server_65_67_68 S_JoinLobby_GC_65_67_68 example_client_flags
        example_lobby_session_assigned 0x67 1 (example_join_lobby 42 1) =
        .returned true s1 d ∧
      process_server_66_69 s1 example_leave = .returned true s2 example_leave ∧
      s2.lobby_players.length = 12 ∧
      s2.lobby_players[1]? = some { guild_card_number := 0, name := [] } ∧
      ∀ i, i ≠ 1 → s2.lobby_players[i]? = s1.lobby_players[i]? :=
  process_server_67_then_69_clears_slot S_JoinLobby_GC_65_67_68 example_client_flags
    example_lobby_session_assigned 1 (example_join_lobby 42 1) example_leave 1
    (by decide) (by decide) (by decide) (by decide)

set_option maxRecDepth 20000 in
/-- C16, counterexample: a licensed GC session handles a 0x64 game-join and then a
0x65 announcing another player; both are handled, and the roster has 4 entries, not
12. -/
theorem process_server_65_after_64_counterexample :
    ∃ s1 d1 s2 d2,
      process_server_64 S_JoinGame_GC_64 example_lobby_session_assigned 1 example_join_game =
        .returned true s1 d1 ∧
      process_server_65_67_68 S_JoinLobby_GC_65_67_68 example_client_flags s1 0x65 1
        (example_join_lobby 42 1) = .returned true s2 d2 ∧
      s2.lobby_players.length = 4 ∧ s2.lobby_players.length ≠ 12 := by
  obtain ⟨s1, d1, h1, h2, _⟩ := process_server_64_returns S_JoinGame_GC_64
    example_lobby_session_assigned example_license 1 example_join_game rfl (by decide)
    (by decide)
  obtain ⟨s2, d2, h3, h4⟩ := process_server_65_67_68_returns S_JoinLobby_GC_65_67_68
    example_client_flags s1 0x65 1 (example_join_lobby 42 1) (by decide)
  rw [if_neg (by decide), h2] at h4
  exact ⟨s1, d1, s2, d2, h1, h3, h4, by rw [h4]; decide⟩

/-- C16, amended: a successfully handled S->C 0x67 leaves a roster of exactly 12
entries from any session state; a successfully handled 0x65 or 0x68 keeps the length
the roster had (12 after a 0x67); a 0x64 game-join with a flag of at most 4 handled
on a licensed session leaves 4 entries, and so does a 0x65 or 0x68 handled after
it.  A lobby-join command is handled whenever its size is the header plus flag
entries. -/
theorem process_server_65_67_68_roster_length (CmdT : JoinLobbyRecord) (GameT : JoinGameRecord)
    (flags : ClientFlag) (session : LinkedSession) (command flag : Nat) (data : List Nat)
    (hsize : data.length = CmdT.entries + CmdT.entry_sizeof * flag) :
    (∃ s1 d,
      process_server_65_67_68 CmdT flags session command flag data = .returned true s1 d ∧
      (command = 0x67 → s1.lobby_players.length = 12) ∧
      (command ≠ 0x67 → s1.lobby_players.length = session.lobby_players.length)) ∧
    (∀ license game_flag game, session.license = some license → game_flag ≤ 4 →
      game.length = (if session.sub_version ≥ 0x40 then GameT.sizeof else GameT.players_ep3) →
      command ≠ 0x67 →
      ∃ s1 d1 s2 d2,
        process_server_64 GameT session game_flag game = .returned true s1 d1 ∧
        s1.lobby_players.length = 4 ∧
        process_server_65_67_68 CmdT flags s1 command flag data = .returned true s2 d2 ∧
        s2.lobby_players.length = 4) := by
  constructor
  · obtain ⟨s1, d, h1, h2⟩ := process_server_65_67_68_returns CmdT flags session command flag
      data hsize
    refine ⟨s1, d, h1, ?_, ?_⟩
    · intro hc
      rw [if_pos hc] at h2
      exact h2
    · intro hc
      rw [if_neg hc] at h2
      exact h2
  · intro license game_flag game hlicense hflag hgame hc
    obtain ⟨s1, d1, h1, h2, _⟩ := process_server_64_returns GameT session license game_flag
      game hlicense hflag hgame
    obtain ⟨s2, d2, h3, h4⟩ := process_server_65_67_68_returns CmdT flags s1 command flag
      data hsize
    rw [if_neg hc, h2] at h4
    exact ⟨s1, d1, s2, d2, h1, h2, h3, h4⟩

set_option maxRecDepth 20000 in
/-- C16, amended, at a concrete instance: a 0x67 and a 0x68 on the session of
scenario E4. -/
theorem process_server_65_67_68_roster_length_witness :
    (∃ s1 d,
      process_server_65_67_68 S_JoinLobby_GC_65_67_68 example_client_flags
        example_lobby_session_assigned 0x67 1 (example_join_lobby 42 1) =
        .returned true s1 d ∧ s1.lobby_players.length = 12) ∧
    (∃ s1 d,
      process_server_65_67_68 S_JoinLobby_GC_65_67_68 example_client_flags
        example_lobby_session_assigned 0x68 1 (example_join_lobby 42 1) =
        .returned true s1 d ∧ s1.lobby_players.length = 12) := by
  obtain ⟨s1, d, h1, h2, _⟩ :=
    (process_server_65_67_68_roster_length S_JoinLobby_GC_65_67_68 S_JoinGame_GC_64
      example_client_flags example_lobby_session_assigned 0x67 1 (example_join_lobby 42 1)
      (by decide)).1
  obtain ⟨t1, e, k1, _, k3⟩ :=
    (process_server_65_67_68_roster_length S_JoinLobby_GC_65_67_68 S_JoinGame_GC_64
      example_client_flags example_lobby_session_assigned 0x68 1 (example_join_lobby 42 1)
      (by decide)).1
  exact ⟨⟨s1, d, h1, h2 rfl⟩, ⟨t1, e, k1, (k3 (by decide)).trans (by decide)⟩⟩

set_option maxRecDepth 20000 in
/-- C17, the code at a failing input: the session of scenario E4 (player 42 in roster
slot 1) handles a 0x64 game-join with flag 1 that lists the client alone.  The
handler returns forward=true and the roster has 4 entries, but slot 1 still holds
player 42 from before the command. -/
theorem process_server_64_keeps_stale_slot :
    example_lobby_session_assigned.lobby_players[1]? =
      some { guild_card_number := 42, name := str_bytes "other" } ∧
    (process_server_64 S_JoinGame_GC_64 example_lobby_session_assigned 1
      example_join_game).forwards = true ∧
    (process_server_64 S_JoinGame_GC_64 example_lobby_session_assigned 1
      example_join_game).session.lobby_players =
      [{ guild_card_number := 0x12345678, name := [] },
       { guild_card_number := 42, name := str_bytes "other" },
       { guild_card_number := 0, name := [] },
       { guild_card_number := 0, name := [] }] := by
  decide

/-- C18: the two timeout constants are 300 and 10 seconds in microseconds, and the
product 5*60*1000000 fits a 32-bit int, so nothing wraps; LinkedSession::disconnect
arms the timer with 300 seconds when the session has a license and with 10 seconds
when it has none; a connect that returns has cancelled the timer, and so has every
resume overload that returns, since each ends in connect; after a disconnect, connect
and every resume overload return with the timer cancelled when the destination is an
IPv4 address and the socket connects. -/
theorem disconnect_arms_timer_connect_cancels (env : Env) (session : LinkedSession)
    (client_bev : Bufferevent) (client_input_crypt client_output_crypt : Option Crypt)
    (detector_crypt : Option DetectorCrypt) (sub_version : Nat)
    (character_name login_command_bb : List Nat)
    (hdest : session.next_destination.ss_family = AF_INET)
    (hconnect : env.socket_connect_ok session.next_destination = true) :
    LICENSED_SESSION_TIMEOUT_USECS = 5 * 60 * 1000000 ∧
    5 * 60 * 1000000 < 2 ^ 31 ∧
    LICENSED_SESSION_TIMEOUT_USECS = 300 * 1000000 ∧
    UNLICENSED_SESSION_TIMEOUT_USECS = 10 * 1000000 ∧
    (session.license.isSome = true →
      (disconnect session).timeout_usecs = some (300 * 1000000)) ∧
    (session.license = none → (disconnect session).timeout_usecs = some (10 * 1000000)) ∧
    (∀ s, connect env session = .done s → s.timeout_usecs = none) ∧
    (∀ s, resume env session client_bev client_input_crypt client_output_crypt detector_crypt
      sub_version character_name = .done s → s.timeout_usecs = none) ∧
    (∀ s, resume_bb env session client_bev client_input_crypt client_output_crypt
      detector_crypt login_command_bb = .done s → s.timeout_usecs = none) ∧
    (∀ s, resume_direct env session client_bev = .done s → s.timeout_usecs = none) ∧
    (∃ s, connect env (disconnect session) = .done s ∧ s.timeout_usecs = none) ∧
    (∃ s, resume env (disconnect session) client_bev client_input_crypt client_output_crypt
      detector_crypt sub_version character_name = .done s ∧ s.timeout_usecs = none) ∧
    (∃ s, resume_bb env (disconnect session) client_bev client_input_crypt
      client_output_crypt detector_crypt login_command_bb = .done s ∧
      s.timeout_usecs = none) ∧
    (∃ s, resume_direct env (disconnect session) client_bev = .done s ∧
      s.timeout_usecs = none) := by
  refine ⟨by decide, by decide, by decide, by decide, ?_, ?_, (connect_cancels_timer env _).1,
    (resume_inner_cancels_timer env _ _ _ _ _).1, (resume_inner_cancels_timer env _ _ _ _ _).1,
    (resume_inner_cancels_timer env _ _ _ _ _).1,
    (connect_cancels_timer env _).2 hdest hconnect,
    (resume_inner_cancels_timer env _ _ _ _ _).2 rfl hdest hconnect,
    (resume_inner_cancels_timer env _ _ _ _ _).2 rfl hdest hconnect,
    (resume_inner_cancels_timer env _ _ _ _ _).2 rfl hdest hconnect⟩
  · intro h
    simp only [disconnect, h, if_true]
    decide
  · intro h
    simp only [disconnect, h, Option.isSome_none, Bool.false_eq_true, if_false]
    decide

set_option maxRecDepth 8000 in
/-- C18 at a concrete instance: the licensed session of scenario E4 is disconnected,
which arms 300000000 microseconds, and resumed, which cancels the timer. -/
theorem disconnect_arms_timer_connect_cancels_witness :
    (disconnect example_lobby_session).timeout_usecs = some 300000000 ∧
    (∃ s, resume example_env (disconnect example_lobby_session) { fd := 9 } none none none
      0x30 (str_bytes "hero") = .done s ∧ s.timeout_usecs = none) :=
  have h := disconnect_arms_timer_connect_cancels example_env example_lobby_session
    { fd := 9 } none none none 0x30 (str_bytes "hero") [] (by decide) (by decide)
  ⟨h.2.2.2.2.1 (by decide), h.2.2.2.2.2.2.2.2.2.2.2.1⟩

/-- C19: when a stream of a registered session reports end-of-file or an error, the
session is disconnected: both transports are absent, is_connected is false, the four
ciphers are none, and the registry still holds the session under the same id, with
its id, license, roster and next destination unchanged; the registered ids and the
sessions under the other ids are unchanged too. -/
theorem disconnect_keeps_session_registered (server : ProxyServer) (id events : Nat)
    (is_server_stream : Bool) (session : LinkedSession)
    (hregistered : server.id_to_session.lookup id = some session)
    (hevents : events &&& (BEV_EVENT_EOF ||| BEV_EVENT_ERROR) ≠ 0) :
    (disconnect session).client_bev = none ∧
    (disconnect session).server_bev = none ∧
    is_connected (disconnect session) = false ∧
    (disconnect session).client_input_crypt = none ∧
    (disconnect session).client_output_crypt = none ∧
    (disconnect session).server_input_crypt = none ∧
    (disconnect session).server_output_crypt = none ∧
    (disconnect session).id = session.id ∧
    (disconnect session).license = session.license ∧
    (disconnect session).lobby_players = session.lobby_players ∧
    (disconnect session).next_destination = session.next_destination ∧
    (server.dispatch_on_stream_error id events is_server_stream).id_to_session.lookup id =
      some (disconnect session) ∧
    (server.dispatch_on_stream_error id events is_server_stream).id_to_session.map Prod.fst =
      server.id_to_session.map Prod.fst ∧
    ∀ other, other ≠ id →
      (server.dispatch_on_stream_error id events is_server_stream).id_to_session.lookup other =
        server.id_to_session.lookup other := by
  refine ⟨rfl, rfl, rfl, rfl, rfl, rfl, rfl, rfl, rfl, rfl, rfl, ?_, ?_, ?_⟩
  · unfold ProxyServer.dispatch_on_stream_error
    rw [lookup_modify_session, hregistered]
    simp only [Option.map_some', on_stream_error, if_pos hevents]
  · exact modify_session_keys _ _ _
  · intro other hother
    exact lookup_modify_session_other _ _ _ _ hother

set_option maxRecDepth 8000 in
/-- C19 at a concrete instance: the server stream of the session of scenario E4,
registered under its serial number, reports end-of-file. -/
theorem disconnect_keeps_session_registered_witness :
    is_connected example_lobby_session = true ∧
    is_connected (disconnect example_lobby_session) = false ∧
    (ProxyServer.dispatch_on_stream_error example_proxy_server 0x12345678 BEV_EVENT_EOF
      true).id_to_session.lookup 0x12345678 = some (disconnect example_lobby_session) ∧
    (disconnect example_lobby_session).lobby_players = example_lobby_session.lobby_players :=
  have h := disconnect_keeps_session_registered example_proxy_server 0x12345678 BEV_EVENT_EOF
    true example_lobby_session (by rfl) (by decide)
  ⟨by decide, h.2.2.1, h.2.2.2.2.2.2.2.2.2.2.2.1, h.2.2.2.2.2.2.2.2.2.1⟩

/-- C20: after any number of calls of on_client_connect on a new server, the id the
next direct connection takes is non-zero, has its top 8 bits equal to 0xFF, lies in
0xFF00000000000001..0xFFFFFFFFFFFFFFFF, and is the id under which the direct session
is registered; on a server whose counter stands at 0xFFFFFFFFFFFFFFFF a direct
connection takes that id and the next one takes 0xFF00000000000001. -/
theorem on_client_connect_mints_reserved_ids (state : ServerState) (env : Env)
    (prev_server_command_bytes_size : Nat) (connections : List ClientConnection)
    (server0 : ProxyServer) (bev_address : Nat) (bev : Bufferevent) (listen_port : Nat)
    (destination : Sockaddr) :
    (ProxyServer.after_connections state env (ProxyServer.new prev_server_command_bytes_size)
      connections).take_unlicensed_session_id.1 ≠ 0 ∧
    (ProxyServer.after_connections state env (ProxyServer.new prev_server_command_bytes_size)
      connections).take_unlicensed_session_id.1 / 2 ^ 56 = 0xFF ∧
    0xFF00000000000001 ≤
      (ProxyServer.after_connections state env (ProxyServer.new prev_server_command_bytes_size)
        connections).take_unlicensed_session_id.1 ∧
    (ProxyServer.after_connections state env (ProxyServer.new prev_server_command_bytes_size)
      connections).take_unlicensed_session_id.1 ≤ 0xFFFFFFFFFFFFFFFF ∧
    (((ProxyServer.after_connections state env
        (ProxyServer.new prev_server_command_bytes_size) connections).on_client_connect
      state env bev_address bev listen_port GameVersion.PATCH
      (some destination)).server.id_to_session.lookup
        (ProxyServer.after_connections state env
          (ProxyServer.new prev_server_command_bytes_size)
          connections).take_unlicensed_session_id.1).isSome = true ∧
    ProxyServer.take_unlicensed_session_id
      { server0 with next_unlicensed_session_id := 0xFFFFFFFFFFFFFFFF } =
      (0xFFFFFFFFFFFFFFFF, { server0 with next_unlicensed_session_id := 0xFF00000000000001 }) ∧
    (ProxyServer.on_client_connect state env
      { server0 with next_unlicensed_session_id := 0xFFFFFFFFFFFFFFFF } bev_address bev
      listen_port GameVersion.PATCH
      (some destination)).server.take_unlicensed_session_id.1 = 0xFF00000000000001 := by
  have hrange := after_connections_range state env connections
    (ProxyServer.new prev_server_command_bytes_size)
    (by simp only [ProxyServer.new]; omega) (by simp only [ProxyServer.new]; omega)
  have hwrap : ∀ server : ProxyServer,
      ProxyServer.take_unlicensed_session_id
        { server with next_unlicensed_session_id := 0xFFFFFFFFFFFFFFFF } =
        (0xFFFFFFFFFFFFFFFF,
          { server with next_unlicensed_session_id := 0xFF00000000000001 }) := by
    intro server
    simp [ProxyServer.take_unlicensed_session_id]
  have hid : ∀ server : ProxyServer,
      server.take_unlicensed_session_id.1 = server.next_unlicensed_session_id := fun _ => rfl
  rw [hid]
  refine ⟨by omega, by omega, hrange.1, hrange.2, ?_, hwrap server0, ?_⟩
  · rw [← hid]
    exact on_client_connect_direct_registers _ _ _ _ _ _ _
  · rw [hid, on_client_connect_direct_counter, hwrap server0]

/-- C21: ProxyServer::get_session fails exactly when the registry of linked sessions
is empty or holds more than one session; when it holds exactly one, that session is
returned; the registry is the same afterwards in every case. -/
theorem get_session_fails_iff (server : ProxyServer) :
    ((∃ what, server.get_session.1 = .error what) ↔
      (server.id_to_session.length = 0 ∨ server.id_to_session.length > 1)) ∧
    (server.id_to_session.length = 0 → server.get_session.1 = .error "no sessions exist") ∧
    (server.id_to_session.length > 1 →
      server.get_session.1 = .error "multiple sessions exist") ∧
    (∀ id session, server.id_to_session = [(id, session)] →
      server.get_session.1 = .ok session) ∧
    (server.id_to_session.length = 1 →
      ∃ entry, server.id_to_session = [entry] ∧ server.get_session.1 = .ok entry.2) ∧
    server.get_session.2 = server := by
  unfold ProxyServer.get_session
  cases hreg : server.id_to_session with
  | nil => simp
  | cons entry rest =>
    cases rest with
    | nil =>
      simp only [List.length_singleton, gt_iff_lt, lt_self_iff_false, if_false, one_ne_zero,
        or_self, iff_false, not_exists, false_implies, List.cons.injEq, and_true, true_and,
        exists_eq_left', implies_true, and_self, reduceCtorEq, not_false_eq_true]
      intro id session h
      rw [h]
    | cons second rest2 => simp

/-- C21 at concrete instances: a new server, a server with the session of scenario
E4, and a server with two sessions. -/
theorem get_session_fails_iff_witness :
    (ProxyServer.new 6).get_session.1 = .error "no sessions exist" ∧
    example_proxy_server.get_session.1 = .ok example_lobby_session ∧
    example_proxy_server.get_session.2 = example_proxy_server ∧
    (ProxyServer.get_session
      { example_proxy_server with
        id_to_session := [(0x12345678, example_lobby_session), (7, example_session)] }).1 =
      .error "multiple sessions exist" :=
  ⟨(get_session_fails_iff (ProxyServer.new 6)).2.1 rfl,
   (get_session_fails_iff example_proxy_server).2.2.2.1 _ _ rfl,
   (get_session_fails_iff example_proxy_server).2.2.2.2.2,
   (get_session_fails_iff _).2.2.1 (by decide)⟩

/-- C25: process_proxy_command always returns.  When the selected handler throws, the
session is disconnected as the handler left it: nothing is forwarded, both
transports and the four ciphers are absent and the idle timer is armed.  When the
handler returns true, the payload as the handler left it goes through
forward_command once, toward the opposite endpoint with the opcode and flag of the
frame: one frame is written when that endpoint is connected.  When the handler
returns false the session is the one the handler left and nothing is forwarded. -/
theorem process_proxy_command_catches_errors
    (run : Handler → LinkedSession → Nat → Nat → List Nat → Outcome)
    (session : LinkedSession) (from_server : Bool) (command flag : Nat) (data : List Nat) :
    (∃ s2, process_proxy_command run session from_server command flag data = .done s2) ∧
    (∀ what s,
      run (get_handler session.version from_server command) session command flag data =
        .threw what s →
      process_proxy_command run session from_server command flag data = .done (disconnect s) ∧
      (disconnect s).sent = s.sent ∧
      (disconnect s).client_bev = none ∧ (disconnect s).server_bev = none ∧
      is_connected (disconnect s) = false ∧
      (disconnect s).client_input_crypt = none ∧ (disconnect s).client_output_crypt = none ∧
      (disconnect s).server_input_crypt = none ∧ (disconnect s).server_output_crypt = none ∧
      (disconnect s).timeout_usecs =
        some (if s.license.isSome then LICENSED_SESSION_TIMEOUT_USECS
              else UNLICENSED_SESSION_TIMEOUT_USECS)) ∧
    (∀ s d,
      run (get_handler session.version from_server command) session command flag data =
        .returned true s d →
      process_proxy_command run session from_server command flag data =
        .done (forward_command s (!from_server) command flag d) ∧
      ((if from_server then s.client_bev else s.server_bev).isSome = true →
        forward_command s (!from_server) command flag d =
          { s with
            sent := s.sent ++
              [{ to_server := !from_server
                 crypt := if from_server then s.client_output_crypt
                          else s.server_output_crypt
                 command := command, flag := flag, data := d }] })) ∧
    (∀ s d,
      run (get_handler session.version from_server command) session command flag data =
        .returned false s d →
      process_proxy_command run session from_server command flag data = .done s) := by
  refine ⟨?_, ?_, ?_, ?_⟩
  · unfold process_proxy_command
    simp only
    cases run (get_handler session.version from_server command) session command flag data with
    | returned should_forward s d =>
      cases should_forward
      · exact ⟨_, rfl⟩
      · exact ⟨_, rfl⟩
    | threw what s => exact ⟨_, rfl⟩
  · intro what s h
    refine ⟨?_, rfl, rfl, rfl, rfl, rfl, rfl, rfl, rfl, rfl⟩
    unfold process_proxy_command
    simp only [h]
  · intro s d h
    constructor
    · unfold process_proxy_command
      simp only [h, if_true]
    · intro hpeer
      cases from_server
      · cases hbev : s.server_bev with
        | none => simp [hbev] at hpeer
        | some bev => simp [forward_command, send_command, hbev]
      · cases hbev : s.client_bev with
        | none => simp [hbev] at hpeer
        | some bev => simp [forward_command, send_command, hbev]
  · intro s d h
    unfold process_proxy_command
    simp only [h]
    rfl

set_option maxRecDepth 8000 in
/-- C25 at concrete instances of the GC tables: a 0x88 of the wrong size makes its
handler throw and the session ends disconnected; a C->S 0xA0 is dropped by its
handler; a 0x69 for slot 1 is forwarded to the client once. -/
theorem process_proxy_command_catches_errors_witness :
    (∃ s2,
      process_proxy_command (example_run example_env example_server_state)
        example_lobby_session true 0x88 1 [0x00, 0x00, 0x00] = .done s2 ∧
      is_connected s2 = false ∧ s2.sent = [] ∧ s2.timeout_usecs = some 300000000) ∧
    (∃ s2,
      process_proxy_command (example_run example_env example_server_state)
        example_lobby_session true 0x69 0 example_leave = .done s2 ∧
      s2.sent.map (fun f => (f.to_server, f.command, f.flag, f.data)) =
        [(false, 0x69, 0, example_leave)]) :=
  have h := process_proxy_command_catches_errors
    (example_run example_env example_server_state) example_lobby_session true 0x88 1
    [0x00, 0x00, 0x00]
  have k := process_proxy_command_catches_errors
    (example_run example_env example_server_state) example_lobby_session true 0x69 0
    example_leave
  ⟨⟨_, (h.2.1 "command too small" example_lobby_session (by decide)).1, by decide,
      by decide, by decide⟩,
   ⟨_, (k.2.2.1 (process_server_66_69 example_lobby_session example_leave).session
      example_leave (by decide)).1, by decide⟩⟩

set_option maxRecDepth 8000 in
/-- C26, counterexample: on a session without a server transport, send_to_end toward
the server raises an error, the handler of 0xB2 that sends a 0xB3 reply raises it
too, and process_proxy_command then disconnects the session, closing the client
transport that was connected. -/
theorem send_to_end_absent_endpoint_counterexample :
    example_session_server_absent.server_bev = none ∧
    example_session_server_absent.client_bev.isSome = true ∧
    send_to_end example_session_server_absent true 0xB3 0x05 (List.replicate 8 0) =
      .threw "session endpoint is not connected" example_session_server_absent ∧
    process_server_B2 example_env example_session_server_absent 0x05 (List.replicate 20 0xAB) =
      .threw "session endpoint is not connected" example_session_server_absent ∧
    process_proxy_command (example_run example_env example_server_state)
      example_session_server_absent true 0xB2 0x05 (List.replicate 20 0xAB) =
      .done (disconnect example_session_server_absent) ∧
    (disconnect example_session_server_absent).client_bev = none := by
  decide

/-- C26, amended: toward an endpoint that is not connected, forward_command drops the
frame and leaves the session as it is, raising nothing; send_to_end writes nothing
either but raises an error, "session endpoint is not connected" for a payload whose
size is a multiple of 4, and a handler that lets this error out has the session
disconnected by process_proxy_command. -/
theorem absent_endpoint_drop_or_throw
    (run : Handler → LinkedSession → Nat → Nat → List Nat → Outcome)
    (session : LinkedSession) (to_server : Bool) (command flag : Nat) (data : List Nat)
    (frame_command frame_flag : Nat) (frame : List Nat)
    (habsent : (if to_server then session.server_bev else session.client_bev) = none) :
    forward_command session to_server command flag data = session ∧
    (∃ what, send_to_end session to_server command flag data = .threw what session) ∧
    (data.length % 4 = 0 →
      send_to_end session to_server command flag data =
        .threw "session endpoint is not connected" session) ∧
    (∀ k : LinkedSession → Outcome,
      run (get_handler session.version (!to_server) frame_command) session frame_command
        frame_flag frame = (send_to_end session to_server command flag data).andThen k →
      process_proxy_command run session (!to_server) frame_command frame_flag frame =
        .done (disconnect session)) := by
  have hthrow : ∃ what, send_to_end session to_server command flag data = .threw what session := by
    unfold send_to_end
    by_cases hsize : data.length % 4 = 0
    · rw [if_neg (by simpa using hsize), habsent]
      exact ⟨_, rfl⟩
    · rw [if_pos hsize]
      exact ⟨_, rfl⟩
  refine ⟨?_, hthrow, ?_, ?_⟩
  · unfold forward_command
    rw [habsent]
  · intro hsize
    unfold send_to_end
    rw [if_neg (by simpa using hsize), habsent]
  · intro k hrun
    obtain ⟨what, hwhat⟩ := hthrow
    unfold process_proxy_command
    simp only [hrun, hwhat, Step.andThen]

set_option maxRecDepth 8000 in
/-- C26, amended, at a concrete instance: the session of scenario E3 without a server
transport. -/
theorem absent_endpoint_drop_or_throw_witness :
    forward_command example_session_server_absent true 0x60 0 [1, 2, 3, 4] =
      example_session_server_absent ∧
    send_to_end example_session_server_absent true 0xB3 0x05 (List.replicate 8 0) =
      .threw "session endpoint is not connected" example_session_server_absent :=
  ⟨(absent_endpoint_drop_or_throw (example_run example_env example_server_state)
      example_session_server_absent true 0x60 0 [1, 2, 3, 4] 0xB2 0 [] rfl).1,
   (absent_endpoint_drop_or_throw (example_run example_env example_server_state)
      example_session_server_absent true 0xB3 0x05 (List.replicate 8 0) 0xB2 0 []
      rfl).2.2.1 (by decide)⟩

/-- C24: on a licensed session with a connected server, process_server_gc_9A writes
exactly one command toward the server, a 0x9E with flag 1, and returns
forward=false.  Without a remembered remote guild card the payload is the full
record, with player_tag 0xFFFF0000 and guild card 0xFFFFFFFF; with one it is the
record shortened by exactly the size of the trailing unused space, with player_tag
0x00010000 and the remembered guild card.  On a session without a license nothing
is sent and the handler returns forward=true. -/
theorem process_server_gc_9A_sends_login (CmdT : LoginWithUnusedSpaceRecord)
    (session : LinkedSession) (data : List Nat)
    (hwf : CmdT.well_formed) (hserver : session.server_bev.isSome = true)
    (hcard : session.remote_guild_card_number < 2 ^ 32) :
    (∀ license, session.license = some license →
      ∃ record frame : List Nat,
        process_server_gc_9A CmdT session data =
          .returned false
            { session with
              sent := session.sent ++
                [{ to_server := true, crypt := session.server_output_crypt, command := 0x9E,
                   flag := 0x01, data := frame }] }
            data ∧
        record.length = CmdT.sizeof ∧
        (session.remote_guild_card_number = 0 →
          frame = record ∧
          load_le 4 frame CmdT.base.player_tag = 0xFFFF0000 ∧
          load_le 4 frame CmdT.base.guild_card_number = 0xFFFFFFFF) ∧
        (session.remote_guild_card_number ≠ 0 →
          frame = record.take (CmdT.sizeof - CmdT.unused_space_size) ∧
          frame.length + CmdT.unused_space_size = CmdT.sizeof ∧
          load_le 4 frame CmdT.base.player_tag = 0x00010000 ∧
          load_le 4 frame CmdT.base.guild_card_number = session.remote_guild_card_number)) ∧
    (session.license = none →
      process_server_gc_9A CmdT session data = .returned true session data) := by
  constructor
  · intro license hlicense
    obtain ⟨record, frame, hrun, hlen, hframe, hflen, htag, hgc⟩ :=
      process_server_gc_9A_licensed CmdT session license data hwf hlicense hserver
    obtain ⟨_, _, _, h3, _, _⟩ := hwf
    refine ⟨record, frame, ?_, hlen, ?_, ?_⟩
    · rw [hrun]
      rfl
    · intro hzero
      rw [if_pos hzero] at htag hgc
      refine ⟨?_, htag, hgc⟩
      rw [hframe, if_neg (by simpa using hzero), Nat.sub_zero, ← hlen, List.take_length]
    · intro hne
      rw [if_neg hne] at htag hgc
      rw [if_pos hne] at hframe hflen
      refine ⟨hframe, ?_, htag, ?_⟩
      · rw [hflen]
        omega
      · rw [hgc]
        exact Nat.mod_eq_of_lt hcard
  · intro hnone
    unfold process_server_gc_9A
    simp only [hnone]

set_option maxRecDepth 20000 in
/-- C24 at the instance of scenario E1: the session that remembers the remote guild
card 7777777 sends the 0x9E without the 0x64 bytes of unused space. -/
theorem process_server_gc_9A_sends_login_witness :
    ∃ record frame : List Nat,
      process_server_gc_9A C_LoginWithUnusedSpace_GC_9E example_lobby_session_assigned [] =
        .returned false
          { example_lobby_session_assigned with
            sent := [{ to_server := true, crypt := none, command := 0x9E, flag := 0x01,
                       data := frame }] }
          [] ∧
      record.length = 0x14C ∧ frame.length + 0x64 = 0x14C ∧
      load_le 4 frame 0 = 0x00010000 ∧ load_le 4 frame 4 = 7777777 := by
  obtain ⟨record, frame, h1, h2, _, h4⟩ :=
    (process_server_gc_9A_sends_login C_LoginWithUnusedSpace_GC_9E
      example_lobby_session_assigned [] (by decide) (by decide) (by decide)).1
      example_license rfl
  obtain ⟨_, h5, h6, h7⟩ := h4 (by decide)
  exact ⟨record, frame, h1, h2, h5, h6, h7⟩

/-- C23: a patch-dialect session that receives a 0x17 server-init fails with an
error.  Otherwise, on a licensed PATCH, PC or GC session with a connected server
and a server-init of accepted size, process_server_pc_gc_patch_02_17 returns
forward=false with the payload unchanged, leaves the two client-side ciphers as
they were, keys server-in with the server seed and server-out with the client seed
of the frame, and writes exactly one command toward the server: 0x02 with an empty
payload on PATCH, 0x9D on PC, 0xDB on GC when the opcode was 0x17 and 0x9E on GC
otherwise. -/
theorem process_server_02_17_licensed (records : LoginRecords) (session : LinkedSession)
    (license : License) (command flag : Nat) (data : List Nat)
    (hlicense : session.license = some license)
    (hmin : S_ServerInit_DC_PC_GC_02_17_92_9B.after_message ≤ data.length)
    (hmax : data.length ≤ 0xFFFF)
    (hserver : session.server_bev.isSome = true)
    (hPC : records.C_Login_PC_9D.well_formed)
    (hDB : records.C_VerifyLicense_GC_DB.well_formed)
    (hGC : records.C_LoginWithUnusedSpace_GC_9E.well_formed) :
    (session.version = GameVersion.PATCH → command = 0x17 →
      process_server_pc_gc_patch_02_17 records session command flag data =
        .threw "patch server sent 17 server init" session) ∧
    (¬ (session.version = GameVersion.PATCH ∧ command = 0x17) →
      (session.version = GameVersion.PATCH ∨ session.version = GameVersion.PC ∨
        session.version = GameVersion.GC) →
      ∃ s frame,
        process_server_pc_gc_patch_02_17 records session command flag data =
          .returned false s data ∧
        s.sent = session.sent ++ [frame] ∧
        frame.to_server = true ∧
        frame.command =
          (if session.version = GameVersion.PATCH then 0x02
           else if session.version = GameVersion.PC then 0x9D
           else if command = 0x17 then 0xDB else 0x9E) ∧
        (session.version = GameVersion.PATCH → frame.flag = 0 ∧ frame.data = []) ∧
        frame.crypt = s.server_output_crypt ∧
        s.client_input_crypt = session.client_input_crypt ∧
        s.client_output_crypt = session.client_output_crypt ∧
        s.server_input_crypt =
          some (if session.version = GameVersion.GC then
                  Crypt.PSOGCEncryption
                    (load_le 4 data S_ServerInit_DC_PC_GC_02_17_92_9B.server_key)
                else
                  Crypt.PSOPCEncryption
                    (load_le 4 data S_ServerInit_DC_PC_GC_02_17_92_9B.server_key)) ∧
        s.server_output_crypt =
          some (if session.version = GameVersion.GC then
                  Crypt.PSOGCEncryption
                    (load_le 4 data S_ServerInit_DC_PC_GC_02_17_92_9B.client_key)
                else
                  Crypt.PSOPCEncryption
                    (load_le 4 data S_ServerInit_DC_PC_GC_02_17_92_9B.client_key))) := by
  constructor
  · intro hv hc
    unfold process_server_pc_gc_patch_02_17
    rw [if_pos ⟨hv, hc⟩]
  · intro hnot hversion
    unfold process_server_pc_gc_patch_02_17
    rw [if_neg hnot]
    simp only [check_size_t_ok _ _ _ hmin hmax, hlicense]
    rcases hversion with hv | hv | hv
    · simp only [hv]
      rw [send_to_end_done _ true 0x02 0x00 [] rfl (by simpa using hserver)]
      exact ⟨_, _, rfl, rfl, rfl, rfl, fun _ => ⟨rfl, rfl⟩, rfl, rfl, rfl, rfl, rfl⟩
    · simp only [hv]
      obtain ⟨hlen, _, _⟩ := login_record_spec records.C_Login_PC_9D hPC session license
        0xFFFFFFFFFFFF0000 records.C_Login_PC_9D.sizeof [] (le_refl _)
        (fun f hf => absurd hf (List.not_mem_nil f))
      rw [List.append_nil] at hlen
      rw [send_to_end_done _ true 0x9D 0x00 _ (by rw [hlen]; exact hPC.2.2.2.2.2.2.2.2.2.2.2)
        (by simpa using hserver)]
      exact ⟨_, _, rfl, rfl, rfl, rfl, fun h => absurd h (by decide), rfl, rfl, rfl, rfl,
        rfl⟩
    · simp only [hv]
      by_cases hc : command = 0x17
      · rw [if_pos hc]
        obtain ⟨d1, d2, d3, d4, d5, d6, d7⟩ := hDB
        rw [send_to_end_done _ true 0xDB 0x00 _
          (by
            rw [write_fields_length, List.length_replicate]
            · exact d7
            · intro f hf
              rw [List.length_replicate]
              simp only [List.mem_cons, List.mem_singleton, List.not_mem_nil, or_false] at hf
              rcases hf with rfl | rfl | rfl | rfl | rfl | rfl <;>
                simp only [le_bytes_length, assign_field_length] <;> omega)
          (by simpa using hserver)]
        refine ⟨_, _, rfl, rfl, rfl, ?_, fun h => absurd h (by decide), rfl, rfl, rfl, rfl,
          rfl⟩
        simp [hc, send_command]
      · rw [if_neg hc]
        obtain ⟨record, frame, hrun, _⟩ := process_server_gc_9A_licensed
          records.C_LoginWithUnusedSpace_GC_9E
          { session with
            license := some license
            version := GameVersion.GC
            server_input_crypt :=
              some (Crypt.PSOGCEncryption
                (load_le 4 data S_ServerInit_DC_PC_GC_02_17_92_9B.server_key))
            server_output_crypt :=
              some (Crypt.PSOGCEncryption
                (load_le 4 data S_ServerInit_DC_PC_GC_02_17_92_9B.client_key)) }
          license data hGC rfl hserver
        rw [hrun]
        refine ⟨_, _, rfl, rfl, rfl, ?_, fun h => absurd h (by decide), rfl, rfl, rfl, rfl,
          rfl⟩
        simp [hc, send_command]

set_option maxRecDepth 20000 in
/-- C23 at concrete instances: the licensed GC session of scenario E4 receives a 0x17
and a 0x02 server-init with the seeds 0x11111111 and 0x22222222. -/
theorem process_server_02_17_licensed_witness :
    (∃ s frame,
      process_server_pc_gc_patch_02_17 example_login_records example_resumed_gc_session
        0x17 0 example_server_init = .returned false s example_server_init ∧
      s.sent = [frame] ∧ frame.to_server = true ∧ frame.command = 0xDB ∧
      s.client_output_crypt = some (Crypt.PSOGCEncryption 0xBBBBBBBB) ∧
      s.server_input_crypt = some (Crypt.PSOGCEncryption 0x11111111) ∧
      s.server_output_crypt = some (Crypt.PSOGCEncryption 0x22222222)) ∧
    (∃ s frame,
      process_server_pc_gc_patch_02_17 example_login_records example_resumed_gc_session
        0x02 0 example_server_init = .returned false s example_server_init ∧
      s.sent = [frame] ∧ frame.to_server = true ∧ frame.command = 0x9E) := by
  obtain ⟨s, frame, h1, h2, h3, h4, _, _, _, h8, h9, h10⟩ :=
    (process_server_02_17_licensed example_login_records example_resumed_gc_session
      example_license 0x17 0 example_server_init rfl (by decide) (by decide) (by decide)
      (by decide) (by decide) (by decide)).2 (by decide) (by decide)
  obtain ⟨t, frame2, k1, k2, k3, k4, _⟩ :=
    (process_server_02_17_licensed example_login_records example_resumed_gc_session
      example_license 0x02 0 example_server_init rfl (by decide) (by decide) (by decide)
      (by decide) (by decide) (by decide)).2 (by decide) (by decide)
  exact ⟨⟨s, frame, h1, h2, h3, h4.trans (by decide), h8.trans (by decide),
      h9.trans (by decide), h10.trans (by decide)⟩,
    ⟨t, frame2, k1, k2, k3, k4.trans (by decide)⟩⟩

set_option maxRecDepth 20000 in
/-- C22, counterexample: a licensed GC session resumed with the client-side ciphers of
the proxy's own handshake (seeds 0xAAAAAAAA and 0xBBBBBBBB) handles a 0x02
server-init with the seeds 0x11111111 and 0x22222222.  The handler completes, and
client-out is keyed with 0xBBBBBBBB while server-in is keyed with 0x11111111, and
client-in with 0xAAAAAAAA while server-out is keyed with 0x22222222. -/
theorem process_server_02_17_resumed_parity_counterexample :
    example_resumed_gc_session.license = some example_license ∧
    (process_server_pc_gc_patch_02_17 example_login_records example_resumed_gc_session
      0x02 0 example_server_init).forwards = false ∧
    (process_server_pc_gc_patch_02_17 example_login_records example_resumed_gc_session
      0x02 0 example_server_init).session.client_output_crypt =
      some (Crypt.PSOGCEncryption 0xBBBBBBBB) ∧
    (process_server_pc_gc_patch_02_17 example_login_records example_resumed_gc_session
      0x02 0 example_server_init).session.server_input_crypt =
      some (Crypt.PSOGCEncryption 0x11111111) ∧
    (process_server_pc_gc_patch_02_17 example_login_records example_resumed_gc_session
      0x02 0 example_server_init).session.client_input_crypt =
      some (Crypt.PSOGCEncryption 0xAAAAAAAA) ∧
    (process_server_pc_gc_patch_02_17 example_login_records example_resumed_gc_session
      0x02 0 example_server_init).session.server_output_crypt =
      some (Crypt.PSOGCEncryption 0x22222222) ∧
    (process_server_pc_gc_patch_02_17 example_login_records example_resumed_gc_session
      0x02 0 example_server_init).session.client_output_crypt ≠
    (process_server_pc_gc_patch_02_17 example_login_records example_resumed_gc_session
      0x02 0 example_server_init).session.server_input_crypt := by
  decide

/-- C22, amended: for a server-init of accepted size other than a 0x17 on the patch
dialect.  Without a license the handler forwards the frame to the client under the
cipher in force before, then keys all four ciphers from the frame: client-out and
server-in are the same cipher class with the server seed, server-out and client-in
the same class with the client seed (the GC class on GC, the PC class otherwise),
and the handler returns false.  With a license, on PATCH, PC or GC with a connected
server, only server-in and server-out are keyed so; client-in and client-out stay
as they were, so each pair agrees exactly when the client-side cipher already was
the cipher of that class and seed. -/
theorem process_server_02_17_cipher_parity (records : LoginRecords)
    (session : LinkedSession) (command flag : Nat) (data : List Nat)
    (hmin : S_ServerInit_DC_PC_GC_02_17_92_9B.after_message ≤ data.length)
    (hmax : data.length ≤ 0xFFFF)
    (hnot : ¬ (session.version = GameVersion.PATCH ∧ command = 0x17)) :
    (session.license = none →
      ∃ s,
        process_server_pc_gc_patch_02_17 records session command flag data =
          .returned false s data ∧
        s.sent = (forward_command session false command flag data).sent ∧
        s.client_output_crypt = s.server_input_crypt ∧
        s.server_output_crypt = s.client_input_crypt ∧
        s.server_input_crypt =
          some (if session.version = GameVersion.GC then
                  Crypt.PSOGCEncryption
                    (load_le 4 data S_ServerInit_DC_PC_GC_02_17_92_9B.server_key)
                else
                  Crypt.PSOPCEncryption
                    (load_le 4 data S_ServerInit_DC_PC_GC_02_17_92_9B.server_key)) ∧
        s.server_output_crypt =
          some (if session.version = GameVersion.GC then
                  Crypt.PSOGCEncryption
                    (load_le 4 data S_ServerInit_DC_PC_GC_02_17_92_9B.client_key)
                else
                  Crypt.PSOPCEncryption
                    (load_le 4 data S_ServerInit_DC_PC_GC_02_17_92_9B.client_key))) ∧
    (∀ license, session.license = some license →
      session.server_bev.isSome = true →
      records.C_Login_PC_9D.well_formed → records.C_VerifyLicense_GC_DB.well_formed →
      records.C_LoginWithUnusedSpace_GC_9E.well_formed →
      (session.version = GameVersion.PATCH ∨ session.version = GameVersion.PC ∨
        session.version = GameVersion.GC) →
      ∃ s,
        process_server_pc_gc_patch_02_17 records session command flag data =
          .returned false s data ∧
        s.client_input_crypt = session.client_input_crypt ∧
        s.client_output_crypt = session.client_output_crypt ∧
        s.server_input_crypt =
          some (if session.version = GameVersion.GC then
                  Crypt.PSOGCEncryption
                    (load_le 4 data S_ServerInit_DC_PC_GC_02_17_92_9B.server_key)
                else
                  Crypt.PSOPCEncryption
                    (load_le 4 data S_ServerInit_DC_PC_GC_02_17_92_9B.server_key)) ∧
        s.server_output_crypt =
          some (if session.version = GameVersion.GC then
                  Crypt.PSOGCEncryption
                    (load_le 4 data S_ServerInit_DC_PC_GC_02_17_92_9B.client_key)
                else
                  Crypt.PSOPCEncryption
                    (load_le 4 data S_ServerInit_DC_PC_GC_02_17_92_9B.client_key)) ∧
        (s.client_output_crypt = s.server_input_crypt ↔
          session.client_output_crypt = s.server_input_crypt) ∧
        (s.server_output_crypt = s.client_input_crypt ↔
          session.client_input_crypt = s.server_output_crypt)) := by
  constructor
  · intro hnone
    unfold process_server_pc_gc_patch_02_17
    rw [if_neg hnot]
    simp only [check_size_t_ok _ _ _ hmin hmax, hnone]
    by_cases hv : session.version = GameVersion.GC
    · rw [if_pos hv, if_pos hv, if_pos hv]
      exact ⟨_, rfl, rfl, rfl, rfl, rfl, rfl⟩
    · rw [if_neg hv, if_neg hv, if_neg hv]
      exact ⟨_, rfl, rfl, rfl, rfl, rfl, rfl⟩
  · intro license hlicense hserver hPC hDB hGC hversion
    obtain ⟨s, h1, h2, h3, h4, h5⟩ := server_init_licensed_ciphers records session
      license command flag data hlicense hmin hmax hserver hPC hDB hGC hnot hversion
    refine ⟨s, h1, h2, h3, h4, h5, ?_, ?_⟩
    · rw [h3]
    · rw [h2]
      exact eq_comm

set_option maxRecDepth 20000 in
/-- C22, amended, at a concrete instance: a GC session without a license handles a
0x02 server-init with the seeds 0x11111111 and 0x22222222. -/
theorem process_server_02_17_cipher_parity_witness :
    ∃ s,
      process_server_pc_gc_patch_02_17 example_login_records example_unlicensed_gc_session
        0x02 0 example_server_init = .returned false s example_server_init ∧
      s.client_output_crypt = some (Crypt.PSOGCEncryption 0x11111111) ∧
      s.server_input_crypt = some (Crypt.PSOGCEncryption 0x11111111) ∧
      s.server_output_crypt = some (Crypt.PSOGCEncryption 0x22222222) ∧
      s.client_input_crypt = some (Crypt.PSOGCEncryption 0x22222222) := by
  obtain ⟨s, h1, _, h3, h4, h5, h6⟩ :=
    (process_server_02_17_cipher_parity example_login_records example_unlicensed_gc_session
      0x02 0 example_server_init (by decide) (by decide) (by decide)).1 rfl
  exact ⟨s, h1, (h3.trans h5).trans (by decide), h5.trans (by decide),
    h6.trans (by decide), (h4.symm.trans h6).trans (by decide)⟩

/-- C27: with file saving on, for every chunk command of the record size.  When the
file it names is open with remaining counter R and the command declares D bytes,
W = min(D, 0x400) bytes of its data are appended to the file; the new counter is
R - W when W <= R and 0 otherwise, never more than R; the entry stays in the table
with the longer file and the new counter when that counter is not 0, and leaves the
table, its file closed with the bytes written, when it is 0; the other entries are
unchanged.  When the file it names is not open the session is unchanged.  In every
case the handler returns forward=true with the payload unchanged. -/
theorem process_server_13_A7_writes_chunk (session : LinkedSession) (data : List Nat)
    (hsave : session.save_files = true)
    (hsize : data.length = S_WriteFile_13_A7.sizeof) :
    (∀ sf,
      session.saving_files.lookup
        (declared_filename data S_WriteFile_13_A7.filename S_WriteFile_13_A7.filename_size) =
        some sf →
      ∃ s,
        process_server_13_A7 session data = .returned true s data ∧
        ((data.drop S_WriteFile_13_A7.data).take
          (min (load_le 4 data S_WriteFile_13_A7.data_size) 0x400)).length =
          min (load_le 4 data S_WriteFile_13_A7.data_size) 0x400 ∧
        (if min (load_le 4 data S_WriteFile_13_A7.data_size) 0x400 ≤ sf.remaining_bytes then
            sf.remaining_bytes - min (load_le 4 data S_WriteFile_13_A7.data_size) 0x400
          else 0) ≤ sf.remaining_bytes ∧
        ((if min (load_le 4 data S_WriteFile_13_A7.data_size) 0x400 ≤ sf.remaining_bytes then
            sf.remaining_bytes - min (load_le 4 data S_WriteFile_13_A7.data_size) 0x400
          else 0) ≠ 0 →
          s.saving_files.lookup
            (declared_filename data S_WriteFile_13_A7.filename
              S_WriteFile_13_A7.filename_size) =
            some
              { sf with
                f := sf.f ++ (data.drop S_WriteFile_13_A7.data).take
                  (min (load_le 4 data S_WriteFile_13_A7.data_size) 0x400)
                remaining_bytes :=
                  sf.remaining_bytes -
                    min (load_le 4 data S_WriteFile_13_A7.data_size) 0x400 } ∧
          s.saved_files = session.saved_files) ∧
        ((if min (load_le 4 data S_WriteFile_13_A7.data_size) 0x400 ≤ sf.remaining_bytes then
            sf.remaining_bytes - min (load_le 4 data S_WriteFile_13_A7.data_size) 0x400
          else 0) = 0 →
          s.saving_files.lookup
            (declared_filename data S_WriteFile_13_A7.filename
              S_WriteFile_13_A7.filename_size) = none ∧
          s.saved_files = session.saved_files ++
            [(String.mk (sf.output_filename.map Char.ofNat),
              sf.f ++ (data.drop S_WriteFile_13_A7.data).take
                (min (load_le 4 data S_WriteFile_13_A7.data_size) 0x400))]) ∧
        (s.saving_files.lookup
            (declared_filename data S_WriteFile_13_A7.filename
              S_WriteFile_13_A7.filename_size) = none ↔
          (if min (load_le 4 data S_WriteFile_13_A7.data_size) 0x400 ≤ sf.remaining_bytes then
            sf.remaining_bytes - min (load_le 4 data S_WriteFile_13_A7.data_size) 0x400
          else 0) = 0) ∧
        ∀ other,
          other ≠ declared_filename data S_WriteFile_13_A7.filename
            S_WriteFile_13_A7.filename_size →
          s.saving_files.lookup other = session.saving_files.lookup other) ∧
    (session.saving_files.lookup
        (declared_filename data S_WriteFile_13_A7.filename S_WriteFile_13_A7.filename_size) =
        none →
      process_server_13_A7 session data = .returned true session data) := by
  have hW : (if load_le 4 data S_WriteFile_13_A7.data_size > 0x400 then 0x400
      else load_le 4 data S_WriteFile_13_A7.data_size) =
      min (load_le 4 data S_WriteFile_13_A7.data_size) 0x400 := by
    rw [Nat.min_def]
    split <;> split <;> omega
  have hW400 : min (load_le 4 data S_WriteFile_13_A7.data_size) 0x400 ≤ 0x400 :=
    Nat.min_le_right _ _
  constructor
  · intro sf hopen
    unfold process_server_13_A7
    rw [if_pos hsave]
    simp only [check_size_t_ok _ _ _ (le_of_eq hsize.symm) (le_of_eq hsize), hopen, hW]
    have hchunk : ((data.drop S_WriteFile_13_A7.data).take
        (min (load_le 4 data S_WriteFile_13_A7.data_size) 0x400)).length =
        min (load_le 4 data S_WriteFile_13_A7.data_size) 0x400 := by
      rw [List.length_take, List.length_drop, hsize]
      simp only [S_WriteFile_13_A7.data, S_WriteFile_13_A7.sizeof] at hW400 ⊢
      omega
    by_cases hover : min (load_le 4 data S_WriteFile_13_A7.data_size) 0x400 > sf.remaining_bytes
    · have hle : ¬ min (load_le 4 data S_WriteFile_13_A7.data_size) 0x400 ≤
          sf.remaining_bytes := by omega
      rw [if_pos hover, if_neg hle]
      rw [if_pos rfl]
      refine ⟨_, rfl, hchunk, Nat.zero_le _, fun h => absurd rfl h, fun _ => ⟨?_, rfl⟩, ?_, ?_⟩
      · exact saving_files_erase_lookup _ _
      · exact ⟨fun _ => rfl, fun _ => saving_files_erase_lookup _ _⟩
      · intro other hother
        exact saving_files_erase_lookup_other _ _ _ hother
    · have hle : min (load_le 4 data S_WriteFile_13_A7.data_size) 0x400 ≤ sf.remaining_bytes := by
        omega
      simp only [if_neg hover, if_pos hle]
      by_cases hzero : sf.remaining_bytes -
          min (load_le 4 data S_WriteFile_13_A7.data_size) 0x400 = 0
      · rw [if_pos hzero]
        refine ⟨_, rfl, hchunk, Nat.sub_le _ _, fun h => absurd hzero h, fun _ => ⟨?_, rfl⟩,
          ?_, ?_⟩
        · exact saving_files_erase_lookup _ _
        · exact ⟨fun _ => hzero, fun _ => saving_files_erase_lookup _ _⟩
        · intro other hother
          exact saving_files_erase_lookup_other _ _ _ hother
      · rw [if_neg hzero]
        have hfound := saving_files_update_lookup session.saving_files
          (declared_filename data S_WriteFile_13_A7.filename S_WriteFile_13_A7.filename_size)
          { sf with
            f := sf.f ++ (data.drop S_WriteFile_13_A7.data).take
              (min (load_le 4 data S_WriteFile_13_A7.data_size) 0x400)
            remaining_bytes :=
              sf.remaining_bytes - min (load_le 4 data S_WriteFile_13_A7.data_size) 0x400 }
          sf hopen
        refine ⟨_, rfl, hchunk, Nat.sub_le _ _, fun _ => ⟨hfound, rfl⟩,
          fun h => absurd h hzero, ?_, ?_⟩
        · constructor
          · intro h
            rw [hfound] at h
            cases h
          · intro h
            exact absurd h hzero
        · intro other hother
          exact saving_files_update_lookup_other _ _ _ _ hother
  · intro hclosed
    unfold process_server_13_A7
    rw [if_pos hsave]
    simp only [check_size_t_ok _ _ _ (le_of_eq hsize.symm) (le_of_eq hsize), hclosed]

set_option maxRecDepth 20000 in
/-- C27 at a concrete instance: quest.bin is open with 0x500 bytes expected; a chunk
declaring 0x400 bytes leaves it open with 0x100 bytes expected and 0x400 bytes
written. -/
theorem process_server_13_A7_writes_chunk_witness :
    ∃ s,
      process_server_13_A7 example_saving_session (example_chunk 0x400) =
        .returned true s (example_chunk 0x400) ∧
      (s.saving_files.lookup (str_bytes "quest.bin")).map
        (fun sf => (sf.remaining_bytes, sf.f.length)) = some (0x100, 0x400) := by
  obtain ⟨s, h1, _, _, h4, _⟩ :=
    (process_server_13_A7_writes_chunk example_saving_session (example_chunk 0x400) rfl
      (by decide)).1
      { basename := str_bytes "quest.bin"
        output_filename := str_bytes "quest.bin.online.1650000000000000"
        remaining_bytes := 0x500
        f := [] }
      (by decide)
  have hname : declared_filename (example_chunk 0x400) S_WriteFile_13_A7.filename
      S_WriteFile_13_A7.filename_size = str_bytes "quest.bin" := by decide
  have hfound := (h4 (by decide)).1
  rw [hname] at hfound
  refine ⟨s, h1, ?_⟩
  rw [hfound]
  decide

/-- C30: the deliveries of forward_subcommand, for every lobby, sender and frame.  A
private opcode (0x62 or 0x6D) goes to nobody when the flag is max_clients or more
or the slot numbered by the flag is empty, and otherwise to the client in that slot
and to no one else.  A public opcode outside 0xC0..0xCF goes to every client
present in the lobby other than the sender.  An opcode in 0xC0..0xCF goes to nobody
when the sender lacks the episode-3 flag, and otherwise to the clients present that
have the flag and are not the sender.  The sender is never a target of its own
public subcommand.  Every delivery carries the opcode, the flag and the first
count * 4 bytes of the frame. -/
theorem forward_subcommand_delivers (EPISODE_3_GAMES : Nat) (l : Lobby) (c : Client)
    (command flag : Nat) (p : List Nat) (count : Nat) :
    ((command = 0x62 ∨ command = 0x6D) →
      (flag ≥ l.max_clients →
        forward_subcommand EPISODE_3_GAMES l c command flag p count = .ok []) ∧
      (flag < l.max_clients → l.clients[flag]? = some none →
        forward_subcommand EPISODE_3_GAMES l c command flag p count = .ok []) ∧
      (∀ target, flag < l.max_clients → l.clients[flag]? = some (some target) →
        forward_subcommand EPISODE_3_GAMES l c command flag p count =
          .ok [{ target := target, command := command, flag := flag,
                 data := p.take (count * 4) }])) ∧
    (command ≠ 0x62 → command ≠ 0x6D → command &&& 0xF0 ≠ 0xC0 →
      ∃ deliveries,
        forward_subcommand EPISODE_3_GAMES l c command flag p count = .ok deliveries ∧
        deliveries.map (fun d => d.target) =
          (l.clients.filterMap id).filter (fun t => decide (t.address ≠ c.address)) ∧
        ∀ d ∈ deliveries,
          d.command = command ∧ d.flag = flag ∧ d.data = p.take (count * 4)) ∧
    (command &&& 0xF0 = 0xC0 →
      (c.flags &&& EPISODE_3_GAMES = 0 →
        forward_subcommand EPISODE_3_GAMES l c command flag p count = .ok []) ∧
      (c.flags &&& EPISODE_3_GAMES ≠ 0 →
        ∃ deliveries,
          forward_subcommand EPISODE_3_GAMES l c command flag p count = .ok deliveries ∧
          deliveries.map (fun d => d.target) =
            (l.clients.filterMap id).filter
              (fun t => decide (t.address ≠ c.address ∧ t.flags &&& EPISODE_3_GAMES ≠ 0)) ∧
          ∀ d ∈ deliveries,
            d.command = command ∧ d.flag = flag ∧ d.data = p.take (count * 4))) ∧
    (command ≠ 0x62 → command ≠ 0x6D →
      ∀ deliveries,
        forward_subcommand EPISODE_3_GAMES l c command flag p count = .ok deliveries →
        ∀ d ∈ deliveries, d.target.address ≠ c.address) := by
  have hprivate_not_ep3 : (command = 0x62 ∨ command = 0x6D) → ¬ (command &&& 0xF0) = 0xC0 := by
    intro h
    rcases h with h | h <;> subst h <;> decide
  have hpublic : command ≠ 0x62 → command ≠ 0x6D → command_is_private command = false := by
    intro h1 h2
    simp [command_is_private, h1, h2]
  have hmem : ∀ (deliveries : List Delivery) (P : Client → Bool),
      deliveries.map (fun d => d.target) = (l.clients.filterMap id).filter P →
      ∀ d ∈ deliveries, P d.target = true := by
    intro deliveries P hmap d hd
    have : d.target ∈ deliveries.map (fun d => d.target) := List.mem_map_of_mem _ hd
    rw [hmap] at this
    exact (List.mem_filter.mp this).2
  refine ⟨?_, ?_, ?_, ?_⟩
  · intro hp
    have hep3 := hprivate_not_ep3 hp
    have hpriv : command_is_private command = true := by
      rcases hp with h | h <;> simp [command_is_private, h]
    refine ⟨?_, ?_, ?_⟩
    · intro hflag
      unfold forward_subcommand
      simp [hep3, hpriv, hflag]
    · intro hflag hslot
      unfold forward_subcommand
      simp [hep3, hpriv, Nat.not_le.mpr hflag, hslot]
    · intro target hflag hslot
      unfold forward_subcommand
      simp [hep3, hpriv, Nat.not_le.mpr hflag, hslot]
  · intro h1 h2 hep3
    obtain ⟨k1, k2⟩ := send_command_excluding_client_spec l c command flag (p.take (count * 4))
    refine ⟨_, ?_, k1, k2⟩
    unfold forward_subcommand
    simp [hep3, hpublic h1 h2]
  · intro hep3
    have hpriv : command_is_private command = false := by
      apply hpublic
      · intro h; exact hprivate_not_ep3 (Or.inl h) hep3
      · intro h; exact hprivate_not_ep3 (Or.inr h) hep3
    constructor
    · intro hc
      unfold forward_subcommand
      simp [hep3, hc]
    · intro hc
      obtain ⟨k1, k2⟩ := forward_subcommand_ep3_spec EPISODE_3_GAMES l.clients c command flag
        (p.take (count * 4))
      refine ⟨_, ?_, k1, k2⟩
      unfold forward_subcommand
      simp [hep3, hc, hpriv]
  · intro h1 h2 deliveries hrun d hd
    have hpriv := hpublic h1 h2
    by_cases hep3 : command &&& 0xF0 = 0xC0
    · by_cases hc : c.flags &&& EPISODE_3_GAMES = 0
      · unfold forward_subcommand at hrun
        simp [hep3, hc] at hrun
        subst hrun
        simp at hd
      · obtain ⟨k1, _⟩ := forward_subcommand_ep3_spec EPISODE_3_GAMES l.clients c command flag
          (p.take (count * 4))
        unfold forward_subcommand at hrun
        simp only [hep3, hc, hpriv, decide_True, and_false, if_false, Bool.false_eq_true,
          if_true, Except.ok.injEq] at hrun
        subst hrun
        have := hmem _ _ k1 d hd
        simp only [decide_eq_true_eq] at this
        exact this.1
    · obtain ⟨k1, _⟩ := send_command_excluding_client_spec l c command flag
        (p.take (count * 4))
      unfold forward_subcommand at hrun
      simp only [hep3, hpriv, decide_False, Bool.false_eq_true, false_and, if_false,
        Except.ok.injEq] at hrun
      subst hrun
      have := hmem _ _ k1 d hd
      simpa using this

/-- C30 at concrete instances: in a lobby with clients 1 (episode 3), 2 and 3
(episode 3) and an empty slot 2, client 1 sends a private frame for slot 1, a
private frame for the empty slot, a public frame and an episode-3 frame. -/
theorem forward_subcommand_delivers_witness :
    forward_subcommand example_EPISODE_3_GAMES example_lobby { address := 1, flags := 0x0002 }
      0x62 1 [0x06, 0x01, 0x00, 0x00] 1 =
      .ok [{ target := { address := 2, flags := 0 }, command := 0x62, flag := 1,
             data := [0x06, 0x01, 0x00, 0x00] }] ∧
    forward_subcommand example_EPISODE_3_GAMES example_lobby { address := 1, flags := 0x0002 }
      0x6D 2 [0x06, 0x01, 0x00, 0x00] 1 = .ok [] ∧
    (∃ deliveries,
      forward_subcommand example_EPISODE_3_GAMES example_lobby
        { address := 1, flags := 0x0002 } 0x60 0 [0x06, 0x01, 0x00, 0x00] 1 = .ok deliveries ∧
      deliveries.map (fun d => d.target.address) = [2, 3]) ∧
    (∃ deliveries,
      forward_subcommand example_EPISODE_3_GAMES example_lobby
        { address := 1, flags := 0x0002 } 0xC9 0 [0x06, 0x01, 0x00, 0x00] 1 = .ok deliveries ∧
      deliveries.map (fun d => d.target.address) = [3]) := by
  have h1 := (forward_subcommand_delivers example_EPISODE_3_GAMES example_lobby
    { address := 1, flags := 0x0002 } 0x62 1 [0x06, 0x01, 0x00, 0x00] 1).1 (Or.inl rfl)
  have h2 := (forward_subcommand_delivers example_EPISODE_3_GAMES example_lobby
    { address := 1, flags := 0x0002 } 0x6D 2 [0x06, 0x01, 0x00, 0x00] 1).1 (Or.inr rfl)
  obtain ⟨d3, h3, k3, _⟩ := (forward_subcommand_delivers example_EPISODE_3_GAMES example_lobby
    { address := 1, flags := 0x0002 } 0x60 0 [0x06, 0x01, 0x00, 0x00] 1).2.1
    (by decide) (by decide) (by decide)
  obtain ⟨d4, h4, k4, _⟩ := ((forward_subcommand_delivers example_EPISODE_3_GAMES example_lobby
    { address := 1, flags := 0x0002 } 0xC9 0 [0x06, 0x01, 0x00, 0x00] 1).2.2.1
    (by decide)).2 (by decide)
  have hmap : ∀ deliveries : List Delivery,
      deliveries.map (fun d => d.target.address) =
        (deliveries.map (fun d => d.target)).map (fun t => t.address) := by
    intro deliveries
    rw [List.map_map]
    rfl
  refine ⟨h1.2.2 _ (by decide) (by decide), h2.2.1 (by decide) (by decide),
    ⟨d3, h3, ?_⟩, ⟨d4, h4, ?_⟩⟩
  · rw [hmap, k3]
    decide
  · rw [hmap, k4]
    decide

set_option maxRecDepth 20000 in
/-- C29, counterexample: a disconnected linked session of the PC dialect is registered
under serial 0x12345678; an unlinked GC session logs in with a 0x9E that yields the
license with that serial.  The unlinked session is removed and the linked session
is not resumed: the registry of linked sessions is unchanged and the session still
has no client transport. -/
theorem on_unlinked_client_input_dialect_counterexample :
    (disconnect example_session).version = GameVersion.PC ∧
    example_unlinked_gc.version = GameVersion.GC ∧
    (ProxyServer.on_unlinked_client_input example_env example_services
      example_unlinked_records example_CLIENT_CONFIG_MAGIC example_default_client_config
      (example_unlinked_server [(0x12345678, disconnect example_session)]) 100
      [(0x9E, 0, example_login_9E example_proxy_client_config)]).id_to_session =
      [(0x12345678, disconnect example_session)] ∧
    (disconnect example_session).client_bev = none ∧
    is_connected (disconnect example_session) = false ∧
    (ProxyServer.on_unlinked_client_input example_env example_services
      example_unlinked_records example_CLIENT_CONFIG_MAGIC example_default_client_config
      (example_unlinked_server [(0x12345678, disconnect example_session)]) 100
      [(0x9E, 0, example_login_9E example_proxy_client_config)]).bev_to_unlinked_session =
      [] := by
  decide

/-- C29, amended: for the unlinked session registered under the address of a transport.
A first command whose opcode is not the login opcode of the dialect (0x9D on PC,
0x9E on GC, 0x93 on BB) removes the unlinked session and leaves the registry of
linked sessions.  When the commands yield a license L, the unlinked session is
removed, the sessions under other ids are unchanged, and: (1) a linked session
registered under the serial of L is resumed if it has the dialect of the unlinked
session, and is left as it is, with no session created, if it has another; (2)
otherwise, if the magic of the client config is CLIENT_CONFIG_MAGIC, a new linked
session for the address and port of that config is registered and resumed; (3)
otherwise, if the next destination of the unlinked session is an IPv4 address, a
new linked session for it is registered and resumed; (4) otherwise no linked
session is created.  A resume keeps the destination, and for a session without a
client, with an IPv4 destination the socket connects to, it attaches the transport
and ciphers of the unlinked session and ends connected. -/
theorem on_unlinked_client_input_promotes (env : Env) (services : LoginServices)
    (records : UnlinkedLoginRecords) (CLIENT_CONFIG_MAGIC : Nat)
    (default_client_config : ClientConfig) (server : ProxyServer) (bev_address : Nat)
    (session : UnlinkedSession) (commands : List (Nat × Nat × List Nat))
    (hsession : server.bev_to_unlinked_session.lookup bev_address = some session) :
    (∀ command flag data rest, commands = (command, flag, data) :: rest →
      (session.version = GameVersion.PC ∧ command ≠ 0x9D ∨
        session.version = GameVersion.GC ∧ command ≠ 0x9E ∨
        session.version = GameVersion.BB ∧ command ≠ 0x93) →
      (server.on_unlinked_client_input env services records CLIENT_CONFIG_MAGIC
        default_client_config bev_address commands).id_to_session = server.id_to_session ∧
      (server.on_unlinked_client_input env services records CLIENT_CONFIG_MAGIC
        default_client_config bev_address commands).bev_to_unlinked_session.lookup
        bev_address = none) ∧
    (∀ vars license,
      (on_client_input_commands services records session.version
        { license := none, sub_version := 0, character_name := [],
          client_config := default_client_config, login_command_bb := [] }
        commands).1 = vars →
      vars.license = some license →
      (server.on_unlinked_client_input env services records CLIENT_CONFIG_MAGIC
        default_client_config bev_address commands).bev_to_unlinked_session.lookup
        bev_address = none ∧
      (∀ other, other ≠ license.serial_number →
        (server.on_unlinked_client_input env services records CLIENT_CONFIG_MAGIC
          default_client_config bev_address commands).id_to_session.lookup other =
          server.id_to_session.lookup other) ∧
      (∀ linked, server.id_to_session.lookup license.serial_number = some linked →
        (linked.version = session.version →
          (server.on_unlinked_client_input env services records CLIENT_CONFIG_MAGIC
            default_client_config bev_address commands).id_to_session.lookup
            license.serial_number = some (resume_from_unlinked env session vars linked)) ∧
        (linked.version ≠ session.version →
          (server.on_unlinked_client_input env services records CLIENT_CONFIG_MAGIC
            default_client_config bev_address commands).id_to_session =
            server.id_to_session)) ∧
      (server.id_to_session.lookup license.serial_number = none →
        vars.client_config.magic = CLIENT_CONFIG_MAGIC →
        (server.on_unlinked_client_input env services records CLIENT_CONFIG_MAGIC
          default_client_config bev_address commands).id_to_session.lookup
          license.serial_number =
          some (resume_from_unlinked env session vars
            (LinkedSession.new_with_client_config session.local_port session.version
              server.prev_server_command_bytes_size license vars.client_config)) ∧
        (resume_from_unlinked env session vars
          (LinkedSession.new_with_client_config session.local_port session.version
            server.prev_server_command_bytes_size license
            vars.client_config)).next_destination =
          { ss_family := AF_INET
            sin_port := htons vars.client_config.proxy_destination_port
            sin_addr := htonl vars.client_config.proxy_destination_address }) ∧
      (server.id_to_session.lookup license.serial_number = none →
        vars.client_config.magic ≠ CLIENT_CONFIG_MAGIC →
        session.next_destination.ss_family = AF_INET →
        (server.on_unlinked_client_input env services records CLIENT_CONFIG_MAGIC
          default_client_config bev_address commands).id_to_session.lookup
          license.serial_number =
          some (resume_from_unlinked env session vars
            (LinkedSession.new_licensed session.local_port session.version
              server.prev_server_command_bytes_size license session.next_destination)) ∧
        (resume_from_unlinked env session vars
          (LinkedSession.new_licensed session.local_port session.version
            server.prev_server_command_bytes_size license
            session.next_destination)).next_destination = session.next_destination) ∧
      (server.id_to_session.lookup license.serial_number = none →
        vars.client_config.magic ≠ CLIENT_CONFIG_MAGIC →
        session.next_destination.ss_family ≠ AF_INET →
        (server.on_unlinked_client_input env services records CLIENT_CONFIG_MAGIC
          default_client_config bev_address commands).id_to_session =
          server.id_to_session)) ∧
    (∀ vars linked, linked.client_bev = none →
      linked.next_destination.ss_family = AF_INET →
      env.socket_connect_ok linked.next_destination = true →
      (resume_from_unlinked env session vars linked).client_bev = some session.bev ∧
      is_connected (resume_from_unlinked env session vars linked) = true ∧
      (resume_from_unlinked env session vars linked).client_input_crypt = session.crypt_in ∧
      (resume_from_unlinked env session vars linked).client_output_crypt =
        session.crypt_out ∧
      (resume_from_unlinked env session vars linked).timeout_usecs = none) := by
  have herased : ∀ s : ProxyServer,
      (s.erase_unlinked_session bev_address).bev_to_unlinked_session.lookup bev_address =
        none := fun s => lookup_filter_ne _ _
  have herase_id : ∀ s : ProxyServer,
      (s.erase_unlinked_session bev_address).id_to_session = s.id_to_session := fun _ => rfl
  refine ⟨?_, ?_, ?_⟩
  · intro command flag data rest hcommands hopcode
    have herror : ∃ e, on_client_input_command services records session.version
        { license := none, sub_version := 0, character_name := [],
          client_config := default_client_config, login_command_bb := [] }
        command data = .error e := by
      unfold on_client_input_command
      rcases hopcode with ⟨hv, hc⟩ | ⟨hv, hc⟩ | ⟨hv, hc⟩
      · rw [hv]; simp only [if_pos hc]; exact ⟨_, rfl⟩
      · rw [hv]; simp only [if_pos hc]; exact ⟨_, rfl⟩
      · rw [hv]; simp only [if_pos hc]; exact ⟨_, rfl⟩
    obtain ⟨e, he⟩ := herror
    unfold ProxyServer.on_unlinked_client_input
    simp only [hsession, hcommands, on_client_input_commands, he, if_true]
    exact ⟨rfl, herased _⟩
  · intro vars license hvars hlicense
    have hrun : server.on_unlinked_client_input env services records CLIENT_CONFIG_MAGIC
        default_client_config bev_address commands =
        match session_for_license CLIENT_CONFIG_MAGIC server session license
            vars.client_config with
        | none => server.erase_unlinked_session bev_address
        | some linked =>
          if linked.version ≠ session.version then
            (server.emplace_session license.serial_number linked).erase_unlinked_session
              bev_address
          else
            ((server.emplace_session license.serial_number linked).modify_session
              license.serial_number
              fun _ => resume_from_unlinked env session vars linked).erase_unlinked_session
              bev_address := by
      unfold ProxyServer.on_unlinked_client_input
      simp only [hsession, hvars, hlicense]
    rw [hrun]
    refine ⟨?_, ?_, ?_, ?_, ?_, ?_⟩
    · cases session_for_license CLIENT_CONFIG_MAGIC server session license
          vars.client_config with
      | none => exact herased _
      | some linked =>
        simp only
        split <;> exact herased _
    · intro other hother
      cases session_for_license CLIENT_CONFIG_MAGIC server session license
          vars.client_config with
      | none => rfl
      | some linked =>
        simp only
        split
        · exact (lookup_emplace_session server license.serial_number linked).2 other hother
        · rw [herase_id, lookup_modify_session_other _ _ _ _ hother]
          exact (lookup_emplace_session server license.serial_number linked).2 other hother
    · intro linked hfound
      have hfor : session_for_license CLIENT_CONFIG_MAGIC server session license
          vars.client_config = some linked := by
        unfold session_for_license
        rw [hfound]
      have hemplace : server.emplace_session license.serial_number linked = server := by
        unfold ProxyServer.emplace_session
        rw [hfound, Option.isSome_some, if_pos rfl]
      rw [hfor]
      simp only [hemplace]
      constructor
      · intro hv
        rw [if_neg (by simpa using hv)]
        rw [herase_id, lookup_modify_session, hfound]
        rfl
      · intro hv
        rw [if_pos hv]
        rfl
    · intro hnone hmagic
      have hfor : session_for_license CLIENT_CONFIG_MAGIC server session license
          vars.client_config =
          some (LinkedSession.new_with_client_config session.local_port session.version
            server.prev_server_command_bytes_size license vars.client_config) := by
        unfold session_for_license
        rw [hnone]
        simp only [hmagic, if_true]
      rw [hfor]
      constructor
      · simp only
        rw [if_neg (by
          intro h
          exact h rfl)]
        rw [herase_id, lookup_modify_session,
          (lookup_emplace_session server license.serial_number _).1]
        rfl
      · rw [(resume_from_unlinked_keeps env session vars _).2.2.2]
        rfl
    · intro hnone hmagic hdest
      have hfor : session_for_license CLIENT_CONFIG_MAGIC server session license
          vars.client_config =
          some (LinkedSession.new_licensed session.local_port session.version
            server.prev_server_command_bytes_size license session.next_destination) := by
        unfold session_for_license
        rw [hnone]
        simp only [hmagic, if_false, hdest, if_true]
      rw [hfor]
      constructor
      · simp only
        rw [if_neg (by
          intro h
          exact h rfl)]
        rw [herase_id, lookup_modify_session,
          (lookup_emplace_session server license.serial_number _).1]
        rfl
      · rw [(resume_from_unlinked_keeps env session vars _).2.2.2]
        rfl
    · intro hnone hmagic hdest
      have hfor : session_for_license CLIENT_CONFIG_MAGIC server session license
          vars.client_config = none := by
        unfold session_for_license
        rw [hnone]
        simp only [hmagic, if_false, hdest]
      rw [hfor]
      rfl
  · intro vars linked hclient hdest hconnect
    obtain ⟨h1, h2, h3, h4, _, _, _, h8⟩ :=
      resume_from_unlinked_connected env session vars linked hclient hdest hconnect
    exact ⟨h1, h2, h3, h4, h8⟩

set_option maxRecDepth 20000 in
/-- C29, amended, at a concrete instance: no linked session is registered, and the GC
login carries a client config with the magic sentinel and the destination 10.0.0.1,
port 9100.  A linked session for that destination is registered under the serial
and resumed with the transport of the unlinked session, which is removed. -/
theorem on_unlinked_client_input_promotes_witness :
    ∃ linked,
      (ProxyServer.on_unlinked_client_input example_env example_services
        example_unlinked_records example_CLIENT_CONFIG_MAGIC example_default_client_config
        (example_unlinked_server []) 100
        [(0x9E, 0, example_login_9E example_proxy_client_config)]).id_to_session.lookup
        0x12345678 = some linked ∧
      linked.next_destination =
        { ss_family := AF_INET, sin_port := htons 9100, sin_addr := htonl 0x0A000001 } ∧
      linked.client_bev = some { fd := 7 } ∧
      is_connected linked = true ∧
      (ProxyServer.on_unlinked_client_input example_env example_services
        example_unlinked_records example_CLIENT_CONFIG_MAGIC example_default_client_config
        (example_unlinked_server []) 100
        [(0x9E, 0, example_login_9E example_proxy_client_config)]).bev_to_unlinked_session.lookup
        100 = none := by
  have h := on_unlinked_client_input_promotes example_env example_services
    example_unlinked_records example_CLIENT_CONFIG_MAGIC example_default_client_config
    (example_unlinked_server []) 100 example_unlinked_gc
    [(0x9E, 0, example_login_9E example_proxy_client_config)] (by decide)
  obtain ⟨h1, _, _, h4, _⟩ := h.2.1 _ example_license rfl (by decide)
  obtain ⟨k1, k2⟩ := h4 (by decide) (by decide)
  obtain ⟨c1, c2, _⟩ := h.2.2
    (on_client_input_commands example_services example_unlinked_records
      example_unlinked_gc.version
      { license := none, sub_version := 0, character_name := [],
        client_config := example_default_client_config, login_command_bb := [] }
      [(0x9E, 0, example_login_9E example_proxy_client_config)]).1
    (LinkedSession.new_with_client_config example_unlinked_gc.local_port
      example_unlinked_gc.version
      (example_unlinked_server []).prev_server_command_bytes_size example_license
      (on_client_input_commands example_services example_unlinked_records
        example_unlinked_gc.version
        { license := none, sub_version := 0, character_name := [],
          client_config := example_default_client_config, login_command_bb := [] }
        [(0x9E, 0, example_login_9E example_proxy_client_config)]).1.client_config)
    (by decide) (by decide) (by decide)
  exact ⟨_, k1, k2.trans (by decide), c1.trans (by decide), c2, h1⟩


/-- C31: process_server_bb_22 always returns forward=true with the payload unchanged;
it sets the remote-IP CRC patch flag when the payload is 0x2C bytes long and its
FNV-1a-64 hash is 0x8AF8314316A27994, and leaves the whole session as it is in every
other case, so the flag is afterwards true exactly when the condition held or the
flag was true before. -/
theorem process_server_bb_22_latches_flag (fnv1a64 : List Nat → Nat)
    (session : LinkedSession) (data : List Nat) :
    (data.length = 0x2C ∧ fnv1a64 data = 0x8AF8314316A27994 →
      process_server_bb_22 fnv1a64 session data =
        .returned true { session with enable_remote_ip_crc_patch := true } data) ∧
    (¬ (data.length = 0x2C ∧ fnv1a64 data = 0x8AF8314316A27994) →
      process_server_bb_22 fnv1a64 session data = .returned true session data) ∧
    ((process_server_bb_22 fnv1a64 session data).session.enable_remote_ip_crc_patch = true ↔
      (data.length = 0x2C ∧ fnv1a64 data = 0x8AF8314316A27994) ∨
        session.enable_remote_ip_crc_patch = true) ∧
    (session.enable_remote_ip_crc_patch = false →
      ((process_server_bb_22 fnv1a64 session data).session.enable_remote_ip_crc_patch = true ↔
        data.length = 0x2C ∧ fnv1a64 data = 0x8AF8314316A27994)) ∧
    (process_server_bb_22 fnv1a64 session data).forwards = true ∧
    ∃ s, process_server_bb_22 fnv1a64 session data = .returned true s data := by
  by_cases h : data.length = 0x2C ∧ fnv1a64 data = 0x8AF8314316A27994
  · have hrun : process_server_bb_22 fnv1a64 session data =
        .returned true { session with enable_remote_ip_crc_patch := true } data := by
      unfold process_server_bb_22
      rw [if_pos h]
    refine ⟨fun _ => hrun, fun hn => absurd h hn, ?_, ?_, ?_, ⟨_, hrun⟩⟩
    · rw [hrun]
      exact ⟨fun _ => Or.inl h, fun _ => rfl⟩
    · intro _
      rw [hrun]
      exact ⟨fun _ => h, fun _ => rfl⟩
    · rw [hrun]
      rfl
  · have hrun : process_server_bb_22 fnv1a64 session data = .returned true session data := by
      unfold process_server_bb_22
      rw [if_neg h]
    refine ⟨fun hp => absurd hp h, fun _ => hrun, ?_, ?_, ?_, ⟨_, hrun⟩⟩
    · rw [hrun]
      exact ⟨fun hs => Or.inr hs, fun hs => hs.resolve_left h⟩
    · intro hoff
      rw [hrun]
      constructor
      · intro hs
        have : session.enable_remote_ip_crc_patch = true := hs
        rw [hoff] at this
        cases this
      · intro hp
        exact absurd hp h
    · rw [hrun]
      rfl

set_option maxRecDepth 8000 in
/-- C31 at concrete instances: a payload of 0x2C bytes with the hash looked for sets
the flag; a payload of 0x2B bytes leaves it. -/
theorem process_server_bb_22_latches_flag_witness :
    process_server_bb_22 example_fnv1a64 example_bb_session (List.replicate 0x2C 0x41) =
      .returned true { example_bb_session with enable_remote_ip_crc_patch := true }
        (List.replicate 0x2C 0x41) ∧
    process_server_bb_22 example_fnv1a64 example_bb_session (List.replicate 0x2B 0x41) =
      .returned true example_bb_session (List.replicate 0x2B 0x41) :=
  ⟨(process_server_bb_22_latches_flag example_fnv1a64 example_bb_session
      (List.replicate 0x2C 0x41)).1 (by decide),
   (process_server_bb_22_latches_flag example_fnv1a64 example_bb_session
      (List.replicate 0x2B 0x41)).2.1 (by decide)⟩

/-- C38: for 16-bit arguments, check_size succeeds exactly when size lies between
min_size and m, where m is min_size when max_size is 0 and max_size otherwise; it
raises the error command too small exactly when size is below min_size, and the
error command too large exactly when size is at least min_size and above m. -/
theorem check_size_iff (size min_size max_size : Nat)
    (hsize : size < 2 ^ 16) (hmin : min_size < 2 ^ 16) (hmax : max_size < 2 ^ 16) :
    (check_size size min_size max_size = .ok () ↔
      min_size ≤ size ∧ size ≤ (if max_size = 0 then min_size else max_size)) ∧
    (check_size size min_size max_size = .error "command too small" ↔ size < min_size) ∧
    (check_size size min_size max_size = .error "command too large" ↔
      min_size ≤ size ∧ size > (if max_size = 0 then min_size else max_size)) := by
  unfold check_size
  rw [Nat.mod_eq_of_lt hsize, Nat.mod_eq_of_lt hmin, Nat.mod_eq_of_lt hmax]
  by_cases h1 : size < min_size
  · rw [if_pos h1]
    refine ⟨⟨fun h => (by cases h), fun h => (by omega)⟩, ⟨fun _ => h1, fun _ => rfl⟩,
      ⟨fun h => ?_, fun h => (by omega)⟩⟩
    injection h with h
    exact absurd h (by decide)
  · rw [if_neg h1]
    simp only
    by_cases h2 : size > (if max_size = 0 then min_size else max_size)
    · rw [if_pos h2]
      refine ⟨⟨fun h => (by cases h), fun h => (by omega)⟩, ⟨fun h => ?_, fun h => absurd h h1⟩,
        ⟨fun _ => ⟨(by omega), h2⟩, fun _ => rfl⟩⟩
      injection h with h
      exact absurd h (by decide)
    · rw [if_neg h2]
      refine ⟨⟨fun _ => ⟨(by omega), (by omega)⟩, fun _ => rfl⟩,
        ⟨fun h => (by cases h), fun h => absurd h h1⟩,
        ⟨fun h => (by cases h), fun h => absurd h.2 h2⟩⟩

/-- C38 at concrete instances: a count of 4 against a minimum of 4 without a maximum,
and counts of 3 and 5 against the same bounds. -/
theorem check_size_iff_witness :
    check_size 4 4 0 = .ok () ∧
    check_size 3 4 0 = .error "command too small" ∧
    check_size 5 4 0 = .error "command too large" :=
  ⟨(check_size_iff 4 4 0 (by decide) (by decide) (by decide)).1.mpr (by decide),
   (check_size_iff 3 4 0 (by decide) (by decide) (by decide)).2.1.mpr (by decide),
   (check_size_iff 5 4 0 (by decide) (by decide) (by decide)).2.2.mpr (by decide)⟩

set_option maxRecDepth 20000 in
/-- C32, the code at failing inputs.  A licensed session handles a full 0x04 whose
0x20 config bytes are all 0xC5: the handler returns forward=true and the snapshot
is the 0x20 bytes of filler text, none of the config bytes.  The same session
handles a short 0x04 with four config bytes: the snapshot is those four bytes
followed by the 28 bytes found behind the payload buffer, not by filler. -/
theorem process_server_04_snapshot_at_failing_inputs :
    example_04_full.length = S_UpdateClientConfig_DC_PC_GC_04.sizeof ∧
    example_04_full.drop S_UpdateClientConfig_DC_PC_GC_04.cfg = List.replicate 0x20 0xC5 ∧
    (process_server_dc_pc_gc_04 example_env_memory example_session
      example_04_full).forwards = true ∧
    (process_server_dc_pc_gc_04 example_env_memory example_session
      example_04_full).session.remote_client_config_data =
      str_bytes "t Port Map. Copyright SEGA Enter" ∧
    example_04_short.drop S_UpdateClientConfig_DC_PC_GC_04.cfg = List.replicate 4 0xC5 ∧
    (process_server_dc_pc_gc_04 example_env_memory example_session
      example_04_short).forwards = true ∧
    (process_server_dc_pc_gc_04 example_env_memory example_session
      example_04_short).session.remote_client_config_data =
      List.replicate 4 0xC5 ++ List.replicate 28 0xEE := by
  decide

set_option maxRecDepth 20000 in
/-- C37, the code at a failing input: a licensed GC session handles a 0x64 game-join
of accepted size whose frame flag is 5.  The loop runs a fifth time with index 4,
outside the four lobby entries of the payload and the four roster slots. -/
theorem process_server_64_flag_5_out_of_range :
    example_join_game.length = S_JoinGame_GC_64.players_ep3 ∧
    (∃ s, process_server_64 S_JoinGame_GC_64 example_lobby_session_assigned 5
      example_join_game = .threw "undefined behaviour: index outside lobby_data" s) ∧
    (process_server_64 S_JoinGame_GC_64 example_lobby_session_assigned 4
      example_join_game).forwards = true :=
  ⟨by decide, ⟨_, rfl⟩, by decide⟩

/-- C33: for an S->C 0x04 of accepted size on a session with both endpoints connected,
process_server_dc_pc_gc_04 returns forward=true, and among the commands it writes
there is a 0x96 exactly when the remembered remote guild card was 0 when the 0x04
arrived: then there is exactly one, toward the server, with flag 0 and the 8-byte
little-endian payload of the random draw masked to 48 bits, a value below 2^48;
otherwise there is none. -/
theorem process_server_04_sends_checksum (env : Env) (session : LinkedSession)
    (data : List Nat)
    (hmin : S_UpdateClientConfig_DC_PC_GC_04.cfg ≤ data.length)
    (hmax : data.length ≤ S_UpdateClientConfig_DC_PC_GC_04.sizeof)
    (hclient : session.client_bev.isSome = true)
    (hserver : session.server_bev.isSome = true) :
    ∃ s d sent_now,
      process_server_dc_pc_gc_04 env session data = .returned true s d ∧
      s.sent = session.sent ++ sent_now ∧
      (session.remote_guild_card_number = 0 →
        sent_now.filter (fun f => decide (f.command = 0x96)) =
          [{ to_server := true, crypt := session.server_output_crypt, command := 0x96,
             flag := 0x00, data := le_bytes 8 (env.random_u64 &&& 0x0000FFFFFFFFFFFF) }] ∧
        (le_bytes 8 (env.random_u64 &&& 0x0000FFFFFFFFFFFF)).length = 8 ∧
        le_value (le_bytes 8 (env.random_u64 &&& 0x0000FFFFFFFFFFFF)) =
          env.random_u64 &&& 0x0000FFFFFFFFFFFF ∧
        le_value (le_bytes 8 (env.random_u64 &&& 0x0000FFFFFFFFFFFF)) < 2 ^ 48) ∧
      (session.remote_guild_card_number ≠ 0 →
        sent_now.filter (fun f => decide (f.command = 0x96)) = []) := by
  have hmask : env.random_u64 &&& 0x0000FFFFFFFFFFFF < 2 ^ 48 :=
    Nat.lt_of_le_of_lt Nat.and_le_right (by norm_num)
  have hvalue : le_value (le_bytes 8 (env.random_u64 &&& 0x0000FFFFFFFFFFFF)) =
      env.random_u64 &&& 0x0000FFFFFFFFFFFF := by
    rw [le_value_le_bytes]
    exact Nat.mod_eq_of_lt (Nat.lt_of_lt_of_le hmask (by norm_num))
  have hchecksum : (le_bytes 8 (env.random_u64 &&& 0x0000FFFFFFFFFFFF)).length % 4 = 0 := by
    rw [le_bytes_length]
  unfold process_server_dc_pc_gc_04
  simp only [check_size_t_ok _ _ _ hmin hmax]
  by_cases hchange : session.remote_guild_card_number ≠
      load_le 4 data S_UpdateClientConfig_DC_PC_GC_04.guild_card_number
  · obtain ⟨payload, hsent⟩ := send_text_message_to_client_done env
      { session with
        remote_guild_card_number :=
          load_le 4 data S_UpdateClientConfig_DC_PC_GC_04.guild_card_number }
      0x11
      (str_bytes "The remote server\nhas assigned your\nGuild Card number as\n\tC6" ++
        str_bytes (toString
          (load_le 4 data S_UpdateClientConfig_DC_PC_GC_04.guild_card_number)))
      (by simpa using hclient)
    rw [if_pos hchange, hsent]
    simp only [Step.andThen]
    by_cases hzero : session.remote_guild_card_number = 0
    · simp only [hzero, ne_eq, not_true_eq_false, decide_False, if_true]
      rw [send_to_end_done _ true 0x96 0x00 _ hchecksum (by simpa [send_command] using hserver)]
      refine ⟨_, _,
        [{ to_server := false, crypt := session.client_output_crypt, command := 0x11,
           flag := 0, data := payload },
         { to_server := true, crypt := session.server_output_crypt, command := 0x96,
           flag := 0x00, data := le_bytes 8 (env.random_u64 &&& 0x0000FFFFFFFFFFFF) }],
        rfl, ?_, ?_, ?_⟩
      · simp [send_command]
      · intro _
        refine ⟨?_, le_bytes_length _ _, hvalue, ?_⟩
        · simp
        · rw [hvalue]; exact hmask
      · intro h
        exact h.elim
    · simp only [ne_eq, hzero, not_false_eq_true, decide_True, Bool.true_eq_false, if_false]
      refine ⟨_, _,
        [{ to_server := false, crypt := session.client_output_crypt, command := 0x11,
           flag := 0, data := payload }],
        rfl, ?_, ?_, ?_⟩
      · simp [send_command]
      · intro h
        exact h.elim
      · intro _
        simp
  · rw [if_neg hchange]
    simp only [Step.andThen]
    by_cases hzero : session.remote_guild_card_number = 0
    · simp only [hzero, ne_eq, not_true_eq_false, decide_False, if_true]
      rw [send_to_end_done _ true 0x96 0x00 _ hchecksum (by simpa using hserver)]
      refine ⟨_, _,
        [{ to_server := true, crypt := session.server_output_crypt, command := 0x96,
           flag := 0x00, data := le_bytes 8 (env.random_u64 &&& 0x0000FFFFFFFFFFFF) }],
        rfl, ?_, ?_, ?_⟩
      · simp [send_command]
      · intro _
        refine ⟨?_, le_bytes_length _ _, hvalue, ?_⟩
        · simp
        · rw [hvalue]; exact hmask
      · intro h
        exact h.elim
    · simp only [ne_eq, hzero, not_false_eq_true, decide_True, Bool.true_eq_false, if_false]
      refine ⟨_, _, [], rfl, ?_, ?_, ?_⟩
      · simp
      · intro h
        exact h.elim
      · intro _
        rfl

/-- C33 at the instance of scenario E1: the session has no remote guild card yet, so the
0x04 makes the proxy write one 0x96 toward the server. -/
theorem process_server_04_sends_checksum_witness :
    ∃ s d sent_now,
      process_server_dc_pc_gc_04 example_env example_session example_04 =
        .returned true s d ∧
      s.sent = example_session.sent ++ sent_now ∧
      sent_now.filter (fun f => decide (f.command = 0x96)) =
        [{ to_server := true, crypt := example_session.server_output_crypt,
           command := 0x96, flag := 0x00,
           data := le_bytes 8 (example_env.random_u64 &&& 0x0000FFFFFFFFFFFF) }] := by
  obtain ⟨s, d, sent_now, h1, h2, h3, _⟩ :=
    process_server_04_sends_checksum example_env example_session example_04
      (by decide) (by decide) (by decide) (by decide)
  exact ⟨s, d, sent_now, h1, h2, (h3 (by decide)).1⟩

/-- C35: the loop that builds the infinite-HP reply ends after four rounds (any bound of
at least four rounds gives the same bytes as the bound the handler uses, and after
them the amount left is 0), and when the synthesis fires in the template handler of
GC and BB (licensed session, connected client, infinite-HP flag set, first byte 0x2F
or 0x4C) the handler returns forward=true with the payload unchanged and writes
exactly one frame, a 0x60 toward the client of 32 bytes made of 4 chunks
{0x9A, 2, client slot, 0} {0, 0, ADD_HP, 255}; each amount is 255 and the amounts sum
to 1020. -/
theorem process_client_infinite_hp_four_chunks (SendGuildCardCmdT : CardEntry)
    (SwitchT : SwitchRecord) (session : LinkedSession) (license : License) (data : List Nat)
    (hlicense : session.license = some license)
    (hclient : session.client_bev.isSome = true)
    (hhp : session.infinite_hp = true)
    (hfirst : data.getD 0 0 = 0x2F ∨ data.getD 0 0 = 0x4C) :
    (get_handler GameVersion.GC false 0x60 =
        Handler.process_client_60_62_6C_6D_C9_CB_G_SendGuildCard_GC_6x06 ∧
      get_handler GameVersion.BB false 0x60 =
        Handler.process_client_60_62_6C_6D_C9_CB_G_SendGuildCard_BB_6x06) ∧
    (∀ fuel, 4 ≤ fuel →
      add_hp_subcommands session.lobby_client_id fuel 1020 =
        add_hp_subcommands session.lobby_client_id 1020 1020) ∧
    (∀ fuel, add_hp_subcommands session.lobby_client_id fuel (1020 - 4 * 0xFF) = []) ∧
    ∃ s1 frame,
      process_client_60_62_6C_6D_C9_CB SendGuildCardCmdT SwitchT session data =
        .returned true s1 data ∧
      s1.sent = session.sent ++ [frame] ∧
      frame.to_server = false ∧ frame.command = 0x60 ∧
      frame.data = add_hp_subcommands session.lobby_client_id 1020 1020 ∧
      frame.data =
        (List.replicate 4
          ([0x9A, 0x02, session.lobby_client_id % 256, 0x00] ++
            [0x00, 0x00, PlayerStatsChange.ADD_HP, 0xFF])).flatten ∧
      frame.data.length = 32 ∧
      (List.range 4).map (fun k => frame.data.getD (8 * k + 7) 0) = [255, 255, 255, 255] ∧
      ((List.range 4).map (fun k => frame.data.getD (8 * k + 7) 0)).sum = 1020 := by
  refine ⟨⟨by decide, by decide⟩, ?_, ?_, ?_⟩
  · intro fuel hfuel
    rw [add_hp_subcommands_four_rounds _ _ hfuel,
      add_hp_subcommands_four_rounds _ 1020 (by omega)]
  · intro fuel
    exact add_hp_subcommands_zero _ _
  · have hne : data ≠ [] := by
      intro h; rw [h] at hfirst; simp at hfirst
    have h06 : ¬ data.getD 0 0 = 0x06 := by omega
    have h05 : ¬ data.getD 0 0 = 0x05 := by omega
    unfold process_client_60_62_6C_6D_C9_CB
    simp only [hlicense]
    rw [if_pos hne, if_neg h06, if_pos hfirst, if_pos hhp]
    rw [send_to_end_done session false 0x60 0 _
      (by rw [add_hp_subcommands_1020]; simp) (by simpa using hclient)]
    simp only [Step.andThen]
    unfold process_client_60_62_6C_6D_C9_CB_void
    rw [if_neg (fun h => h05 h.2.1)]
    refine ⟨_, _, rfl, rfl, rfl, rfl, rfl, ?_, ?_, ?_, ?_⟩
    · rw [add_hp_subcommands_1020]
      simp [List.replicate]
    · rw [add_hp_subcommands_1020]
      simp
    · rw [add_hp_subcommands_1020]
      simp [List.range, List.range.loop]
    · rw [add_hp_subcommands_1020]
      simp [List.range, List.range.loop]

/-- C35 at a concrete instance: a licensed GC session in roster slot 2 takes damage. -/
theorem process_client_infinite_hp_four_chunks_witness :
    ∃ s1 frame,
      process_client_60_62_6C_6D_C9_CB G_SendGuildCard_GC_6x06 G_SwitchStateChanged_6x05
        example_gc_hp_session example_take_damage = .returned true s1 example_take_damage ∧
      s1.sent = example_gc_hp_session.sent ++ [frame] ∧
      frame.data =
        [0x9A, 0x02, 0x02, 0x00, 0x00, 0x00, 0x03, 0xFF,
         0x9A, 0x02, 0x02, 0x00, 0x00, 0x00, 0x03, 0xFF,
         0x9A, 0x02, 0x02, 0x00, 0x00, 0x00, 0x03, 0xFF,
         0x9A, 0x02, 0x02, 0x00, 0x00, 0x00, 0x03, 0xFF] := by
  obtain ⟨s1, frame, h1, h2, _, _, _, h3, _⟩ :=
    (process_client_infinite_hp_four_chunks G_SendGuildCard_GC_6x06
      G_SwitchStateChanged_6x05 example_gc_hp_session example_license example_take_damage
      rfl rfl rfl (by decide)).2.2.2
  exact ⟨s1, frame, h1, h2, by rw [h3]; decide⟩

/-- C36: on a licensed session with remote guild card r and serial s (both 32-bit), let
f41 be one of the two card fields of the 0x41 record and f40 one of the two card
fields of the 0x40 record.  For every 32-bit value v other than s, process_server_41
on a record whose field f41 holds v, followed by process_client_40 on a record whose
field f40 holds the value process_server_41 left in f41, leaves v in f40; and for
every 32-bit value w other than r, process_client_40 on a record whose field f40
holds w, followed by process_server_41 on a record whose field f41 holds the value
process_client_40 left in f40, leaves w in f41.  All four handler calls return
forward=true and leave the session as it was. -/
theorem guild_card_rewrites_mutually_inverse (CmdT : TwoCardRecord)
    (session : LinkedSession) (license : License) (base41 base40 : List Nat)
    (f41 f40 : Nat)
    (hlicense : session.license = some license)
    (hserial : license.serial_number < 2 ^ 32)
    (hremote : session.remote_guild_card_number < 2 ^ 32)
    (hwf : CmdT.well_formed)
    (hsize41 : base41.length = CmdT.sizeof)
    (hsize40 : base40.length = C_GuildCardSearch_40.sizeof)
    (hf41 : f41 = CmdT.first_guild_card_number ∨ f41 = CmdT.second_guild_card_number)
    (hf40 : f40 = C_GuildCardSearch_40.first_guild_card_number ∨
      f40 = C_GuildCardSearch_40.second_guild_card_number) :
    (∀ v, v < 2 ^ 32 → v ≠ license.serial_number →
      ∃ d41 d40,
        process_server_41 CmdT session (store_le 4 base41 f41 v) =
          .returned true session d41 ∧
        process_client_40 session (store_le 4 base40 f40 (load_le 4 d41 f41)) =
          .returned true session d40 ∧
        load_le 4 d41 f41 =
          (if v = session.remote_guild_card_number then license.serial_number else v) ∧
        load_le 4 d40 f40 = v) ∧
    (∀ w, w < 2 ^ 32 → w ≠ session.remote_guild_card_number →
      ∃ d40 d41,
        process_client_40 session (store_le 4 base40 f40 w) =
          .returned true session d40 ∧
        process_server_41 CmdT session (store_le 4 base41 f41 (load_le 4 d40 f40)) =
          .returned true session d41 ∧
        load_le 4 d40 f40 =
          (if w = license.serial_number then session.remote_guild_card_number else w) ∧
        load_le 4 d41 f41 = w) := by
  obtain ⟨hwf1, hwf2⟩ := hwf
  have hin41 : f41 + 4 ≤ base41.length := by
    rcases hf41 with h | h <;> omega
  have hwf40 : C_GuildCardSearch_40.first_guild_card_number + 4 ≤
      C_GuildCardSearch_40.second_guild_card_number ∧
      C_GuildCardSearch_40.second_guild_card_number + 4 ≤ C_GuildCardSearch_40.sizeof := by
    decide
  have hin40 : f40 + 4 ≤ base40.length := by
    rcases hf40 with h | h <;> omega
  have hstore41 : ∀ x, (store_le 4 base41 f41 x).length = CmdT.sizeof := fun x => by
    rw [store_le_length _ _ _ _ hin41, hsize41]
  have hstore40 : ∀ x, (store_le 4 base40 f40 x).length = C_GuildCardSearch_40.sizeof :=
    fun x => by rw [store_le_length _ _ _ _ hin40, hsize40]
  have hload41 : ∀ x, x < 2 ^ 32 → load_le 4 (store_le 4 base41 f41 x) f41 = x :=
    fun x hx => by
      rw [load_le_store_le _ _ _ _ hin41]
      exact Nat.mod_eq_of_lt (by norm_num at hx ⊢; exact hx)
  have hload40 : ∀ x, x < 2 ^ 32 → load_le 4 (store_le 4 base40 f40 x) f40 = x :=
    fun x hx => by
      rw [load_le_store_le _ _ _ _ hin40]
      exact Nat.mod_eq_of_lt (by norm_num at hx ⊢; exact hx)
  have hout41 : ∀ x, x < 2 ^ 32 →
      load_le 4
        (replace_card
          (replace_card (store_le 4 base41 f41 x) CmdT.first_guild_card_number
            session.remote_guild_card_number license.serial_number)
          CmdT.second_guild_card_number session.remote_guild_card_number
          license.serial_number) f41 =
      (if x = session.remote_guild_card_number then license.serial_number else x) :=
    fun x hx => by
      rw [replace_two_cards_field _ _ _ _ _ _ hwf1 (by rw [hstore41]; exact hwf2) hserial
        hf41, hload41 x hx]
  have hout40 : ∀ x, x < 2 ^ 32 →
      load_le 4
        (replace_card
          (replace_card (store_le 4 base40 f40 x)
            C_GuildCardSearch_40.first_guild_card_number license.serial_number
            session.remote_guild_card_number)
          C_GuildCardSearch_40.second_guild_card_number license.serial_number
          session.remote_guild_card_number) f40 =
      (if x = license.serial_number then session.remote_guild_card_number else x) :=
    fun x hx => by
      rw [replace_two_cards_field _ _ _ _ _ _ hwf40.1 (by rw [hstore40]; exact hwf40.2)
        hremote hf40, hload40 x hx]
  refine ⟨?_, ?_⟩
  · intro v hv hne
    have hx : (if v = session.remote_guild_card_number then license.serial_number
        else v) < 2 ^ 32 := by
      split
      · exact hserial
      · exact hv
    refine ⟨_, _, process_server_41_licensed CmdT session license _ hlicense (hstore41 v),
      process_client_40_licensed session license _ hlicense (hstore40 _), hout41 v hv, ?_⟩
    rw [hout41 v hv, hout40 _ hx]
    by_cases h : v = session.remote_guild_card_number
    · rw [if_pos h, if_pos rfl, h]
    · rw [if_neg h, if_neg hne]
  · intro w hw hne
    have hx : (if w = license.serial_number then session.remote_guild_card_number
        else w) < 2 ^ 32 := by
      split
      · exact hremote
      · exact hw
    refine ⟨_, _, process_client_40_licensed session license _ hlicense (hstore40 w),
      process_server_41_licensed CmdT session license _ hlicense (hstore41 _), hout40 w hw, ?_⟩
    rw [hout40 w hw, hout41 _ hx]
    by_cases h : w = license.serial_number
    · rw [if_pos h, if_pos rfl, h]
    · rw [if_neg h, if_neg hne]

set_option maxRecDepth 8000 in
/-- C36 at the instance of scenario E1 (serial 0x12345678, remote number 7777777): the
remote number in the searcher field of a 0x41 comes back from the searcher field of
the 0x40 that carries what the client saw, and the serial in the searcher field of a
0x40 comes back from the searcher field of the 0x41 that carries what the server saw. -/
theorem guild_card_rewrites_mutually_inverse_witness :
    (∃ d41 d40,
      process_server_41 S_GuildCardSearchResult_DC_GC_41 example_session_assigned
        (store_le 4 example_41 4 7777777) = .returned true example_session_assigned d41 ∧
      process_client_40 example_session_assigned
        (store_le 4 example_40 4 (load_le 4 d41 4)) =
        .returned true example_session_assigned d40 ∧
      load_le 4 d41 4 = 0x12345678 ∧
      load_le 4 d40 4 = 7777777) ∧
    (∃ d40 d41,
      process_client_40 example_session_assigned (store_le 4 example_40 4 0x12345678) =
        .returned true example_session_assigned d40 ∧
      process_server_41 S_GuildCardSearchResult_DC_GC_41 example_session_assigned
        (store_le 4 example_41 4 (load_le 4 d40 4)) =
        .returned true example_session_assigned d41 ∧
      load_le 4 d40 4 = 7777777 ∧
      load_le 4 d41 4 = 0x12345678) := by
  have h := guild_card_rewrites_mutually_inverse S_GuildCardSearchResult_DC_GC_41
    example_session_assigned example_license example_41 example_40 4 4 rfl (by decide)
    (by decide) (by decide) (by decide) (by decide) (Or.inl rfl) (Or.inl rfl)
  obtain ⟨d41, d40, h1, h2, h3, h4⟩ := h.1 7777777 (by decide) (by decide)
  obtain ⟨e40, e41, g1, g2, g3, g4⟩ := h.2 0x12345678 (by decide) (by decide)
  exact ⟨⟨d41, d40, h1, h2, by rw [h3]; decide, h4⟩,
    ⟨e40, e41, g1, g2, by rw [g3]; decide, g4⟩⟩

/-- C39: for process_subcommand_bank_action in a BB game, on a record of declared size 4
whose item_id is 0xFFFFFFFF, with a 32-bit amount and an action of 0 (deposit) or 1
(take): if the carried meseta and the bank meseta are both at most 999999, the handler
returns, both balances are still at most 999999, their sum and the inventory are
unchanged, and the player is the one with the amount moved from the source to the
destination when the amount is at most the source balance and destination + amount is
at most 999999, and is unchanged otherwise. -/
theorem process_subcommand_bank_action_meseta (item_actions : BankItemActions)
    (player : Player) (p : List Nat)
    (hsize : p.getD 1 0 = 4)
    (hitem : load_le 4 p 4 = 0xFFFFFFFF)
    (hamount : load_le 4 p 8 < 2 ^ 32)
    (haction : p.getD 12 0 = 0 ∨ p.getD 12 0 = 1)
    (hdisp : player.disp.meseta ≤ 999999)
    (hbank : player.bank.meseta ≤ 999999) :
    ∃ after,
      process_subcommand_bank_action item_actions GameVersion.BB true player p 4 =
        .ok after ∧
      after.disp.meseta ≤ 999999 ∧ after.bank.meseta ≤ 999999 ∧
      after.disp.meseta + after.bank.meseta = player.disp.meseta + player.bank.meseta ∧
      after.inventory = player.inventory ∧
      (p.getD 12 0 = 0 →
        after =
          if load_le 4 p 8 ≤ player.disp.meseta ∧
              player.bank.meseta + load_le 4 p 8 ≤ 999999 then
            { player with
              disp := { meseta := player.disp.meseta - load_le 4 p 8 }
              bank := { meseta := player.bank.meseta + load_le 4 p 8 } }
          else player) ∧
      (p.getD 12 0 = 1 →
        after =
          if load_le 4 p 8 ≤ player.bank.meseta ∧
              player.disp.meseta + load_le 4 p 8 ≤ 999999 then
            { player with
              disp := { meseta := player.disp.meseta + load_le 4 p 8 }
              bank := { meseta := player.bank.meseta - load_le 4 p 8 } }
          else player) := by
  have hcheck : check_size 4 4 0 = .ok () := rfl
  unfold process_subcommand_bank_action
  rw [if_pos rfl, hcheck]
  simp only [hsize, hitem, if_true]
  generalize load_le 4 p 8 = amount at hamount ⊢
  rcases haction with h0 | h1
  · rw [if_pos h0]
    by_cases hsource : amount > player.disp.meseta
    · rw [if_pos hsource]
      refine ⟨player, rfl, hdisp, hbank, rfl, rfl, ?_, ?_⟩
      · intro _
        rw [if_neg (by omega)]
      · intro h
        omega
    · rw [if_neg hsource]
      have hmod : (player.bank.meseta + amount) % 2 ^ 32 = player.bank.meseta + amount :=
        Nat.mod_eq_of_lt (by omega)
      have hsub : (player.disp.meseta + 2 ^ 32 - amount) % 2 ^ 32 =
          player.disp.meseta - amount := by
        have : player.disp.meseta + 2 ^ 32 - amount =
            (player.disp.meseta - amount) + 2 ^ 32 := by omega
        rw [this, Nat.add_mod_right]
        exact Nat.mod_eq_of_lt (by omega)
      rw [hmod, hsub]
      by_cases hdest : player.bank.meseta + amount > 999999
      · rw [if_pos hdest]
        refine ⟨player, rfl, hdisp, hbank, rfl, rfl, ?_, ?_⟩
        · intro _
          rw [if_neg (by omega)]
        · intro h
          omega
      · rw [if_neg hdest]
        refine ⟨_, rfl, ?_, ?_, ?_, rfl, ?_, ?_⟩
        · show player.disp.meseta - amount ≤ 999999
          omega
        · show player.bank.meseta + amount ≤ 999999
          omega
        · show player.disp.meseta - amount + (player.bank.meseta + amount) = _
          omega
        · intro _
          rw [if_pos ⟨by omega, by omega⟩]
        · intro h
          omega
  · have hn0 : ¬ p.getD 12 0 = 0 := by omega
    rw [if_neg hn0, if_pos h1]
    by_cases hsource : amount > player.bank.meseta
    · rw [if_pos hsource]
      refine ⟨player, rfl, hdisp, hbank, rfl, rfl, ?_, ?_⟩
      · intro h
        omega
      · intro _
        rw [if_neg (by omega)]
    · rw [if_neg hsource]
      have hmod : (player.disp.meseta + amount) % 2 ^ 32 = player.disp.meseta + amount :=
        Nat.mod_eq_of_lt (by omega)
      have hsub : (player.bank.meseta + 2 ^ 32 - amount) % 2 ^ 32 =
          player.bank.meseta - amount := by
        have : player.bank.meseta + 2 ^ 32 - amount =
            (player.bank.meseta - amount) + 2 ^ 32 := by omega
        rw [this, Nat.add_mod_right]
        exact Nat.mod_eq_of_lt (by omega)
      rw [hmod, hsub]
      by_cases hdest : player.disp.meseta + amount > 999999
      · rw [if_pos hdest]
        refine ⟨player, rfl, hdisp, hbank, rfl, rfl, ?_, ?_⟩
        · intro h
          omega
        · intro _
          rw [if_neg (by omega)]
      · rw [if_neg hdest]
        refine ⟨_, rfl, ?_, ?_, ?_, rfl, ?_, ?_⟩
        · show player.disp.meseta + amount ≤ 999999
          omega
        · show player.bank.meseta - amount ≤ 999999
          omega
        · show player.disp.meseta + amount + (player.bank.meseta - amount) = _
          omega
        · intro h
          omega
        · intro _
          rw [if_pos ⟨by omega, by omega⟩]

/-- C39 at a concrete instance: a player with 500 meseta carried and 1000 in the bank
deposits 100. -/
theorem process_subcommand_bank_action_meseta_witness :
    ∃ after,
      process_subcommand_bank_action example_item_actions GameVersion.BB true
        example_player example_deposit_100 4 = .ok after ∧
      after.disp.meseta = 400 ∧ after.bank.meseta = 1100 := by
  obtain ⟨after, h1, _, _, _, _, h2, _⟩ :=
    process_subcommand_bank_action_meseta example_item_actions example_player
      example_deposit_100 (by decide) (by decide) (by decide) (by decide) (by decide)
      (by decide)
  have h3 := h2 (by decide)
  rw [if_pos (by decide)] at h3
  exact ⟨after, h1, by rw [h3]; decide, by rw [h3]; decide⟩

set_option maxRecDepth 20000 in
/-- C40, counterexample: a player holds item A (id 1) and item B (id 2); the sort request
of size 31 that lists the ids 1, 1 and then 0xFFFFFFFF lists only ids that are
0xFFFFFFFF or present and is accepted.  Afterwards num_items is still 2, the two held
slots both hold A, and B is in no slot: A is duplicated and B is lost.  Whatever
index find_item returns, a request that lists the same id twice leaves the same item
in both slots. -/
theorem process_subcommand_sort_inventory_duplicates_counterexample :
    (∀ item_id ∈ sort_inventory_item_ids (example_sort 1 1),
      item_id = 0xFFFFFFFF ∨
        item_id ∈ (example_sort_player.inventory.items.take 2).map
          PlayerInventoryItem.item_id) ∧
    (∃ after,
      process_subcommand_sort_inventory example_find_item GameVersion.BB example_sort_player
        (example_sort 1 1) 31 = .ok after ∧
      after.inventory.num_items = 2 ∧
      example_sort_player.inventory.items.take 2 = [example_item_A, example_item_B] ∧
      after.inventory.items.take 2 = [example_item_A, example_item_A] ∧
      example_item_B ∉ after.inventory.items ∧
      ¬ List.Perm (after.inventory.items.take after.inventory.num_items)
        (example_sort_player.inventory.items.take
          example_sort_player.inventory.num_items)) ∧
    (∀ find_item after,
      process_subcommand_sort_inventory find_item GameVersion.BB example_sort_player
        (example_sort 1 1) 31 = .ok after →
      ∃ item, after.inventory.items.take 2 = [item, item]) := by
  refine ⟨by decide, ⟨_, rfl, by decide, by decide, by decide, by decide, by decide⟩, ?_⟩
  intro find_item after h
  unfold process_subcommand_sort_inventory at h
  have hcheck : check_size 31 31 0 = .ok () := rfl
  have hsize : ¬ (example_sort 1 1).getD 1 0 ≠ 31 := by decide
  have hids : sort_inventory_item_ids (example_sort 1 1) =
      1 :: 1 :: List.replicate 28 0xFFFFFFFF := by decide
  rw [if_pos rfl, hcheck] at h
  simp only [if_neg hsize] at h
  cases hsorted : sort_inventory_items find_item example_sort_player.inventory
      (sort_inventory_item_ids (example_sort 1 1)) with
  | error e => rw [hsorted] at h; cases h
  | ok sorted =>
    rw [hsorted] at h
    simp only [Except.ok.injEq] at h
    have hmap := sort_inventory_items_of_ok _ _ _ _ hsorted
    rw [hids] at hmap
    refine ⟨sorted_slot find_item example_sort_player.inventory 1, ?_⟩
    rw [← h]
    show sorted.take 2 = _
    rw [hmap]
    rfl

/-- C40, amended: let the held items be the first num_items slots of the inventory, with
pairwise different ids none of which is 0xFFFFFFFF, and let find_item return, for the
id of a held item, an index below num_items of a slot with that id.  For every sort
request of size 31 in a BB lobby whose first num_items listed ids are the ids of the
held items, each listed once, and whose other listed ids are 0xFFFFFFFF or ids of
held items, process_subcommand_sort_inventory returns, the held items after the sort
are a permutation of the held items before it (none duplicated, none lost), and
num_items, the other counters, the meseta and the bank are unchanged. -/
theorem process_subcommand_sort_inventory_permutes
    (find_item : PlayerInventory → Nat → Except String Nat) (player : Player) (p : List Nat)
    (hsize : p.getD 1 0 = 31)
    (hfind : ∀ item ∈ player.inventory.items.take player.inventory.num_items,
      ∃ index found, find_item player.inventory item.item_id = .ok index ∧
        index < player.inventory.num_items ∧
        player.inventory.items[index]? = some found ∧ found.item_id = item.item_id)
    (hnodup : ((player.inventory.items.take player.inventory.num_items).map
      PlayerInventoryItem.item_id).Nodup)
    (hnot : ∀ item ∈ player.inventory.items.take player.inventory.num_items,
      item.item_id ≠ 0xFFFFFFFF)
    (hperm : List.Perm ((sort_inventory_item_ids p).take player.inventory.num_items)
      ((player.inventory.items.take player.inventory.num_items).map
        PlayerInventoryItem.item_id))
    (hrest : ∀ item_id ∈ (sort_inventory_item_ids p).drop player.inventory.num_items,
      item_id = 0xFFFFFFFF ∨
        item_id ∈ (player.inventory.items.take player.inventory.num_items).map
          PlayerInventoryItem.item_id) :
    ∃ after,
      process_subcommand_sort_inventory find_item GameVersion.BB player p 31 = .ok after ∧
      after.inventory.num_items = player.inventory.num_items ∧
      List.Perm (after.inventory.items.take after.inventory.num_items)
        (player.inventory.items.take player.inventory.num_items) ∧
      after.inventory.items.length = 30 ∧
      after.inventory.hp_materials_used = player.inventory.hp_materials_used ∧
      after.inventory.tp_materials_used = player.inventory.tp_materials_used ∧
      after.inventory.language = player.inventory.language ∧
      after.disp = player.disp ∧ after.bank = player.bank := by
  have hslot : ∀ item ∈ player.inventory.items.take player.inventory.num_items,
      sorted_slot find_item player.inventory item.item_id = item := by
    intro item hitem
    obtain ⟨index, found, hfound, hindex, hget, hid⟩ := hfind item hitem
    have hmem : found ∈ player.inventory.items.take player.inventory.num_items := by
      rw [List.mem_iff_getElem?]
      exact ⟨index, by rw [List.getElem?_take_of_lt hindex, hget]⟩
    have heq : found = item := List.inj_on_of_nodup_map hnodup hmem hitem hid
    unfold sorted_slot
    rw [if_neg (hnot item hitem), hfound]
    simp only [List.getD_eq_getElem?_getD, hget, Option.getD_some]
    exact heq
  have haccepted : ∀ item_id ∈ sort_inventory_item_ids p, item_id = 0xFFFFFFFF ∨
      ∃ index item, find_item player.inventory item_id = .ok index ∧
        player.inventory.items[index]? = some item := by
    intro item_id hmem
    rw [← List.take_append_drop player.inventory.num_items (sort_inventory_item_ids p),
      List.mem_append] at hmem
    have hheld : item_id ∈ (player.inventory.items.take player.inventory.num_items).map
        PlayerInventoryItem.item_id → ∃ index item,
        find_item player.inventory item_id = .ok index ∧
          player.inventory.items[index]? = some item := by
      intro h
      obtain ⟨item, hitem, hid⟩ := List.mem_map.mp h
      obtain ⟨index, found, hfound, _, hget, _⟩ := hfind item hitem
      exact ⟨index, found, by rw [← hid]; exact hfound, hget⟩
    rcases hmem with h | h
    · exact Or.inr (hheld (hperm.subset h))
    · rcases hrest item_id h with h1 | h1
      · exact Or.inl h1
      · exact Or.inr (hheld h1)
  have hcheck : check_size 31 31 0 = .ok () := rfl
  unfold process_subcommand_sort_inventory
  rw [if_pos rfl, hcheck]
  simp only [hsize, ne_eq, not_true_eq_false, if_false]
  rw [sort_inventory_items_accepted find_item player.inventory _ haccepted]
  refine ⟨_, rfl, rfl, ?_, ?_, rfl, rfl, rfl, rfl, rfl⟩
  · show List.Perm
      (((sort_inventory_item_ids p).map (sorted_slot find_item player.inventory)).take
        player.inventory.num_items) _
    rw [← List.map_take]
    have h1 := List.Perm.map (sorted_slot find_item player.inventory) hperm
    rw [List.map_map] at h1
    have h2 : List.map (sorted_slot find_item player.inventory ∘ PlayerInventoryItem.item_id)
        (player.inventory.items.take player.inventory.num_items) =
        player.inventory.items.take player.inventory.num_items := by
      have h3 : ∀ item ∈ player.inventory.items.take player.inventory.num_items,
          (sorted_slot find_item player.inventory ∘ PlayerInventoryItem.item_id) item =
            id item := fun item hitem => hslot item hitem
      rw [List.map_congr_left h3, List.map_id]
    rw [h2] at h1
    exact h1
  · show ((sort_inventory_item_ids p).map (sorted_slot find_item player.inventory)).length =
      30
    rw [List.length_map]
    unfold sort_inventory_item_ids
    rw [List.length_map, List.length_range]

set_option maxRecDepth 20000 in
/-- C40, amended, at a concrete instance: the player holding A (id 1) and B (id 2) sends
the sort request that lists 2, 1 and then 0xFFFFFFFF; afterwards the two held slots
are B, A. -/
theorem process_subcommand_sort_inventory_permutes_witness :
    ∃ after,
      process_subcommand_sort_inventory example_find_item GameVersion.BB example_sort_player
        (example_sort 2 1) 31 = .ok after ∧
      after.inventory.num_items = 2 ∧
      after.inventory.items.take 2 = [example_item_B, example_item_A] ∧
      List.Perm (after.inventory.items.take after.inventory.num_items)
        (example_sort_player.inventory.items.take
          example_sort_player.inventory.num_items) := by
  have hfind : ∀ item ∈ example_sort_player.inventory.items.take
      example_sort_player.inventory.num_items,
      ∃ index found, example_find_item example_sort_player.inventory item.item_id =
          .ok index ∧
        index < example_sort_player.inventory.num_items ∧
        example_sort_player.inventory.items[index]? = some found ∧
        found.item_id = item.item_id := by
    intro item hitem
    have hcases : item = example_item_A ∨ item = example_item_B := by
      simpa [example_sort_player] using hitem
    rcases hcases with h | h
    · rw [h]; exact ⟨0, example_item_A, rfl, by decide, rfl, rfl⟩
    · rw [h]; exact ⟨1, example_item_B, rfl, by decide, rfl, rfl⟩
  obtain ⟨after, h1, h2, h3, _⟩ :=
    process_subcommand_sort_inventory_permutes example_find_item example_sort_player
      (example_sort 2 1) (by decide) hfind (by decide) (by decide) (by decide) (by decide)
  have h4 : process_subcommand_sort_inventory example_find_item GameVersion.BB
      example_sort_player (example_sort 2 1) 31 =
      .ok { example_sort_player with
        inventory := { example_sort_player.inventory with
          items := [example_item_B, example_item_A] ++
            List.replicate 28 empty_inventory_slot } } := by
    rfl
  have h5 := h1.symm.trans h4
  simp only [Except.ok.injEq] at h5
  exact ⟨after, h1, by rw [h2]; rfl, by rw [h5]; rfl, h3⟩

end Newserv
